import Mathlib

/-!
Solar / lunar date conversion of the `vncalendar` package: a shallow embedding of
`lunar/lunar.go` and `converter.go`, and theorems about it.

The Go code computes on `float64`.  Here every function is written over an arbitrary
linearly ordered field `α` with a floor function, so that the same definition can be run on
`ℚ` and reasoned about on `ℝ`.  The two items the source takes from the Go standard library,
`math.Sin` and `math.Pi`, are not part of the repository; they enter as the two fields of
`Trig`.  `realTrig` is the instance with the mathematical sine and `π`.

Go `int` arguments of `converter.go` are modelled by `ℤ`, and the conversion `float64(n)` by
the cast `ℤ → α`.

Layout: the definitions come first (the model, then the data used to evaluate it at concrete
dates), the theorems after them.
-/

namespace VNCalendar

/-- The two standard-library items used by `lunar.go`: `math.Sin` and `math.Pi`. -/
structure Trig (α : Type) where
  sin : α → α
  pi : α

section Core

variable {α : Type} [LinearOrderedField α] [FloorRing α]

/-- Source `Floor(d)` of `lunar.go`: the largest integral value not above `d`, again as a number. -/
def Floor (d : α) : α := ((⌊d⌋ : ℤ) : α)

/-- Source `jdFromDate(dd, mm, yy)`: Julian day number of a calendar date. -/
def jdFromDate (dd mm yy : α) : α :=
  let a := Floor ((14 - mm) / 12)
  let y := yy + 4800 - a
  let m := mm + 12 * a - 3
  let jd := dd + Floor ((153 * m + 2) / 5) + 365 * y + Floor (y / 4) - Floor (y / 100)
    + Floor (y / 400) - 32045
  if jd < 2299161 then
    dd + Floor ((153 * m + 2) / 5) + 365 * y + Floor (y / 4) - 32083
  else jd

/-- Source `jdToDate(jd)`: the `(day, month, year)` of a Julian day number. -/
def jdToDate (jd : α) : α × α × α :=
  let bc : α × α :=
    if jd > 2299160 then
      let a := jd + 32044
      let b := Floor ((4 * a + 3) / 146097)
      (b, a - Floor ((b * 146097) / 4))
    else (0, jd + 32082)
  let b := bc.1
  let c := bc.2
  let d := Floor ((4 * c + 3) / 1461)
  let e := c - Floor ((1461 * d) / 4)
  let m := Floor ((5 * e + 2) / 153)
  let day := e - Floor ((153 * m + 2) / 5) + 1
  let month := m + 3 - 12 * Floor (m / 10)
  let year := b * 100 + d - 4800 + Floor (m / 10)
  (day, month, year)

/-- Source `NewMoon(k)`: time of the `k`-th new moon after the one of 1 Jan 1900, as a
Julian date (Meeus' series). -/
def NewMoon (tg : Trig α) (k : α) : α :=
  let T := k / 1236.85
  let T2 := T * T
  let T3 := T2 * T
  let dr := tg.pi / 180
  let Jd1 := 2415020.75933 + 29.53058868 * k + 0.0001178 * T2 - 0.000000155 * T3
  let Jd1 := Jd1 + 0.00033 * tg.sin ((166.56 + 132.87 * T - 0.009173 * T2) * dr)
  let M := 359.2242 + 29.10535608 * k - 0.0000333 * T2 - 0.00000347 * T3
  let Mpr := 306.0253 + 385.81691806 * k + 0.0107306 * T2 + 0.00001236 * T3
  let F := 21.2964 + 390.67050646 * k - 0.0016528 * T2 - 0.00000239 * T3
  let C1 := (0.1734 - 0.000393 * T) * tg.sin (M * dr) + 0.0021 * tg.sin (2 * dr * M)
  let C1 := C1 - 0.4068 * tg.sin (Mpr * dr) + 0.0161 * tg.sin (dr * 2 * Mpr)
  let C1 := C1 - 0.0004 * tg.sin (dr * 3 * Mpr)
  let C1 := C1 + 0.0104 * tg.sin (dr * 2 * F) - 0.0051 * tg.sin (dr * (M + Mpr))
  let C1 := C1 - 0.0074 * tg.sin (dr * (M - Mpr)) + 0.0004 * tg.sin (dr * (2 * F + M))
  let C1 := C1 - 0.0004 * tg.sin (dr * (2 * F - M)) - 0.0006 * tg.sin (dr * (2 * F + Mpr))
  let C1 := C1 + 0.0010 * tg.sin (dr * (2 * F - Mpr)) + 0.0005 * tg.sin (dr * (2 * Mpr + M))
  let deltat :=
    if T < -11 then
      0.001 + 0.000839 * T + 0.0002261 * T2 - 0.00000845 * T3 - 0.000000081 * T * T3
    else
      -0.000278 + 0.000265 * T + 0.000262 * T2
  Jd1 + C1 - deltat

/-- Source `SunLongitude(jdn)`: ecliptic longitude of the sun at Julian date `jdn`, in radians. -/
def SunLongitude (tg : Trig α) (jdn : α) : α :=
  let T := (jdn - 2451545.0) / 36525
  let T2 := T * T
  let dr := tg.pi / 180
  let M := 357.52910 + 35999.05030 * T - 0.0001559 * T2 - 0.00000048 * T * T2
  let L0 := 280.46645 + 36000.76983 * T + 0.0003032 * T2
  let DL := (1.914600 - 0.004817 * T - 0.000014 * T2) * tg.sin (dr * M)
  let DL := DL + (0.019993 - 0.000101 * T) * tg.sin (dr * 2 * M) + 0.000290 * tg.sin (dr * 3 * M)
  let L := L0 + DL
  let L := L * dr
  L - tg.pi * 2 * (Floor (L / (tg.pi * 2)))

/-- Source `getSunLongitude(dayNumber, timeZone)`: index of the major solar term at local midnight. -/
def getSunLongitude (tg : Trig α) (dayNumber timeZone : α) : α :=
  Floor (SunLongitude tg (dayNumber - 0.5 - timeZone / 24) / tg.pi * 6)

/-- Source `getNewMoonDay(k, timeZone)`: local day number of the `k`-th new moon. -/
def getNewMoonDay (tg : Trig α) (k timeZone : α) : α :=
  Floor (NewMoon tg k + 0.5 + timeZone / 24)

/-- Source `getLunarMonth11(yy, timeZone)`: the day that starts lunar month 11 of year `yy`. -/
def getLunarMonth11 (tg : Trig α) (yy timeZone : α) : α :=
  let off := jdFromDate 31 12 yy - 2415021
  let k := Floor (off / 29.530588853)
  let nm := getNewMoonDay tg k timeZone
  let sunLong := getSunLongitude tg nm timeZone
  if sunLong ≥ 9 then getNewMoonDay tg (k - 1) timeZone else nm

/-- The `for` loop of `getLeapMonthOffset`, entered with the counter `i` and the
sun-longitude index `last = arcAt i` of the month examined before; `arcAt j` stands
for `getSunLongitude(getNewMoonDay(k+j, timeZone), timeZone)`.  One call is one pass
through the loop body; the result is the counter at `break`. -/
def leapScan (arcAt : ℕ → α) (i : ℕ) (last : α) : ℕ :=
  if arcAt (i + 1) ≠ last ∧ i + 1 < 14 then leapScan arcAt (i + 1) (arcAt (i + 1)) else i + 1
termination_by 14 - i
decreasing_by omega

/-- Source `getLeapMonthOffset(a11, timeZone)`: offset of the leap month after the month
starting on day `a11`. -/
def getLeapMonthOffset (tg : Trig α) (a11 timeZone : α) : α :=
  let k := Floor ((a11 - 2415021.076998695) / 29.530588853 + 0.5)
  let arcAt := fun j : ℕ => getSunLongitude tg (getNewMoonDay tg (k + (j : α)) timeZone) timeZone
  ((leapScan arcAt 1 (arcAt 1) : ℕ) : α) - 1

/-- Lines 153-168 of `convertSolar2Lunar`: the values
`(dayNumber, monthStart, a11, b11, lunarYear)` before the month is computed. -/
def solarAnchors (tg : Trig α) (dd mm yy timeZone : α) : α × α × α × α × α :=
  let dayNumber := jdFromDate dd mm yy
  let k := Floor ((dayNumber - 2415021.076998695) / 29.530588853)
  let monthStart := getNewMoonDay tg (k + 1) timeZone
  let monthStart := if monthStart > dayNumber then getNewMoonDay tg k timeZone else monthStart
  let a11 := getLunarMonth11 tg yy timeZone
  if a11 ≥ monthStart then
    (dayNumber, monthStart, getLunarMonth11 tg (yy - 1) timeZone, a11, yy)
  else
    (dayNumber, monthStart, a11, getLunarMonth11 tg (yy + 1) timeZone, yy + 1)

/-- Source `convertSolar2Lunar(dd, mm, yy, timeZone)`: returns
`(lunarDay, lunarMonth, lunarYear, lunarLeap)`. -/
def convertSolar2Lunar (tg : Trig α) (dd mm yy timeZone : α) : α × α × α × α :=
  let s := solarAnchors tg dd mm yy timeZone
  let dayNumber := s.1
  let monthStart := s.2.1
  let a11 := s.2.2.1
  let b11 := s.2.2.2.1
  let lunarYear := s.2.2.2.2
  let lunarDay := dayNumber - monthStart + 1
  let diff := Floor ((monthStart - a11) / 29)
  let ml : α × α :=
    if b11 - a11 > 365 then
      let leapMonthDiff := getLeapMonthOffset tg a11 timeZone
      if diff ≥ leapMonthDiff then (diff + 10, if diff = leapMonthDiff then 1 else 0)
      else (diff + 11, 0)
    else (diff + 11, 0)
  let lunarLeap := ml.2
  let lunarMonth := if ml.1 > 12 then ml.1 - 12 else ml.1
  let lunarYear := if lunarMonth ≥ 11 ∧ diff < 4 then lunarYear - 1 else lunarYear
  (lunarDay, lunarMonth, lunarYear, lunarLeap)

/-- Lines 194-200 of `convertLunar2Solar`: the bracketing month-11 starts `(a11, b11)`. -/
def lunarAnchors (tg : Trig α) (lunarMonth lunarYear timeZone : α) : α × α :=
  if lunarMonth < 11 then
    (getLunarMonth11 tg (lunarYear - 1) timeZone, getLunarMonth11 tg lunarYear timeZone)
  else
    (getLunarMonth11 tg lunarYear timeZone, getLunarMonth11 tg (lunarYear + 1) timeZone)

/-- Lines 207-211 of `convertLunar2Solar`: `leapMonth` from `leapOff`. -/
def leapMonthOf (leapOff : α) : α :=
  if leapOff - 2 < 0 then leapOff - 2 + 12 else leapOff - 2

/-- Source `convertLunar2Solar(lunarDay, lunarMonth, lunarYear, lunarLeap, timeZone)`:
returns `(day, month, year)`, or `(0, 0, 0)`. -/
def convertLunar2Solar (tg : Trig α) (lunarDay lunarMonth lunarYear lunarLeap timeZone : α) :
    α × α × α :=
  let ab := lunarAnchors tg lunarMonth lunarYear timeZone
  let a11 := ab.1
  let b11 := ab.2
  let k := Floor (0.5 + (a11 - 2415021.076998695) / 29.530588853)
  let off := lunarMonth - 11
  let off := if off < 0 then off + 12 else off
  if b11 - a11 > 365 then
    let leapOff := getLeapMonthOffset tg a11 timeZone
    let leapMonth := leapMonthOf leapOff
    if lunarLeap ≠ 0 ∧ lunarMonth ≠ leapMonth then (0, 0, 0)
    else
      let off := if lunarLeap ≠ 0 ∨ off ≥ leapOff then off + 1 else off
      jdToDate (getNewMoonDay tg (k + off) timeZone + lunarDay - 1)
  else jdToDate (getNewMoonDay tg (k + off) timeZone + lunarDay - 1)

/-- The Go conversion `int(x)` of a `float64`: truncation toward zero. -/
def toInt (x : α) : ℤ := if 0 ≤ x then ⌊x⌋ else ⌈x⌉

/-- Source `bool2float64` of `converter.go`. -/
def bool2float64 (lunarLeap : Bool) : α := if lunarLeap then 1 else 0

end Core

/-- Source type `SolarDate` of `converter.go`. -/
structure SolarDate where
  Year : ℤ
  Month : ℤ
  Day : ℤ
  deriving DecidableEq, Repr

/-- Source type `LunarDate` of `converter.go`. -/
structure LunarDate where
  Year : ℤ
  Month : ℤ
  Day : ℤ
  Leap : Bool
  deriving DecidableEq, Repr

section Api

variable {α : Type} [LinearOrderedField α] [FloorRing α]

/-- Source `Solar2lunar(yyyy, mm, dd, timeZoneOffset)` of `converter.go`. -/
def Solar2lunar (tg : Trig α) (yyyy mm dd timeZoneOffset : ℤ) : LunarDate :=
  let r := convertSolar2Lunar tg (dd : α) (mm : α) (yyyy : α) (timeZoneOffset : α)
  { Year := toInt r.2.2.1, Month := toInt r.2.1, Day := toInt r.1, Leap := decide (r.2.2.2 = 1) }

/-- Source `Lunar2solar(lunarYear, lunarMonth, lunarDay, lunarLeap, timeZoneOffset)` of
`converter.go`. -/
def Lunar2solar (tg : Trig α) (lunarYear lunarMonth lunarDay : ℤ) (lunarLeap : Bool)
    (timeZoneOffset : ℤ) : SolarDate :=
  let r := convertLunar2Solar tg (lunarDay : α) (lunarMonth : α) (lunarYear : α)
    (bool2float64 lunarLeap) (timeZoneOffset : α)
  { Year := toInt r.2.2, Month := toInt r.2.1, Day := toInt r.1 }

end Api

/-- The instance of `Trig` with the real sine and `π`. -/
noncomputable def realTrig : Trig ℝ := ⟨Real.sin, Real.pi⟩

/-! ### The same two functions on integers -/

/-- Function `jdFromDate` on integers, floor division written `/`. -/
def jdFromDateZ (dd mm yy : ℤ) : ℤ :=
  let a := (14 - mm) / 12
  let y := yy + 4800 - a
  let m := mm + 12 * a - 3
  let jd := dd + (153 * m + 2) / 5 + 365 * y + y / 4 - y / 100 + y / 400 - 32045
  if jd < 2299161 then dd + (153 * m + 2) / 5 + 365 * y + y / 4 - 32083 else jd

/-- Function `jdToDate` on integers, floor division written `/`. -/
def jdToDateZ (jd : ℤ) : ℤ × ℤ × ℤ :=
  let bc : ℤ × ℤ :=
    if jd > 2299160 then
      let a := jd + 32044
      let b := (4 * a + 3) / 146097
      (b, a - (b * 146097) / 4)
    else (0, jd + 32082)
  let b := bc.1
  let c := bc.2
  let d := (4 * c + 3) / 1461
  let e := c - (1461 * d) / 4
  let m := (5 * e + 2) / 153
  (e - (153 * m + 2) / 5 + 1, m + 3 - 12 * (m / 10), b * 100 + d - 4800 + m / 10)

/-- Leap years of the calendar in force: every fourth year up to 1582, the Gregorian
rule afterwards. -/
def isLeapYear (y : ℤ) : Prop :=
  if y ≤ 1582 then y % 4 = 0 else (y % 4 = 0 ∧ y % 100 ≠ 0) ∨ y % 400 = 0

instance (y : ℤ) : Decidable (isLeapYear y) := by
  unfold isLeapYear
  infer_instance

/-- Number of days of month `m` in year `y`. -/
def monthLength (m y : ℤ) : ℤ :=
  if m = 2 then (if isLeapYear y then 29 else 28)
  else if m = 4 ∨ m = 6 ∨ m = 9 ∨ m = 11 then 30 else 31

/-! ### Canonical form of the two series, and certificates for their numerical evaluation

`NewMoon` and the longitude inside `SunLongitude` are a polynomial plus a sum of terms
`coefficient * sin (degrees * (pi / 180))`.  The definitions below name the polynomial
parts and list the `(coefficient, degrees)` pairs; `SinCert` is a certificate that encloses
one sine value between two rationals, checked by rational arithmetic alone. -/

section Series

variable {α : Type} [LinearOrderedField α]

/-- Value `T` of `NewMoon`. -/
def nmT (k : α) : α := k / 1236.85

/-- Argument, in degrees, of the first sine of `NewMoon`. -/
def nmArg0 (k : α) : α := 166.56 + 132.87 * nmT k - 0.009173 * (nmT k * nmT k)

/-- Value `M` of `NewMoon`. -/
def nmM (k : α) : α :=
  359.2242 + 29.10535608 * k - 0.0000333 * (nmT k * nmT k) - 0.00000347 * (nmT k * nmT k * nmT k)

/-- Value `Mpr` of `NewMoon`. -/
def nmMpr (k : α) : α :=
  306.0253 + 385.81691806 * k + 0.0107306 * (nmT k * nmT k) + 0.00001236 * (nmT k * nmT k * nmT k)

/-- Value `F` of `NewMoon`. -/
def nmF (k : α) : α :=
  21.2964 + 390.67050646 * k - 0.0016528 * (nmT k * nmT k) - 0.00000239 * (nmT k * nmT k * nmT k)

/-- The part of `NewMoon` without sines: the polynomial of `Jd1` minus `deltat`. -/
def nmBase (k : α) : α :=
  2415020.75933 + 29.53058868 * k + 0.0001178 * (nmT k * nmT k)
    - 0.000000155 * (nmT k * nmT k * nmT k)
    - (if nmT k < -11 then
        0.001 + 0.000839 * nmT k + 0.0002261 * (nmT k * nmT k)
          - 0.00000845 * (nmT k * nmT k * nmT k) - 0.000000081 * nmT k * (nmT k * nmT k * nmT k)
      else -0.000278 + 0.000265 * nmT k + 0.000262 * (nmT k * nmT k))

/-- The fourteen sine terms of `NewMoon` as `(coefficient, degrees)`. -/
def nmTerms (k : α) : List (α × α) :=
  [(0.00033, nmArg0 k), (0.1734 - 0.000393 * nmT k, nmM k), (0.0021, 2 * nmM k),
   (-0.4068, nmMpr k), (0.0161, 2 * nmMpr k), (-0.0004, 3 * nmMpr k), (0.0104, 2 * nmF k),
   (-0.0051, nmM k + nmMpr k), (-0.0074, nmM k - nmMpr k), (0.0004, 2 * nmF k + nmM k),
   (-0.0004, 2 * nmF k - nmM k), (-0.0006, 2 * nmF k + nmMpr k), (0.0010, 2 * nmF k - nmMpr k),
   (0.0005, 2 * nmMpr k + nmM k)]

/-- Value `T` of `SunLongitude`. -/
def slT (jdn : α) : α := (jdn - 2451545.0) / 36525

/-- Value `M` of `SunLongitude`. -/
def slM (jdn : α) : α :=
  357.52910 + 35999.05030 * slT jdn - 0.0001559 * (slT jdn * slT jdn)
    - 0.00000048 * slT jdn * (slT jdn * slT jdn)

/-- Value `L0` of `SunLongitude`. -/
def slBase (jdn : α) : α :=
  280.46645 + 36000.76983 * slT jdn + 0.0003032 * (slT jdn * slT jdn)

/-- The three sine terms of `DL` in `SunLongitude` as `(coefficient, degrees)`. -/
def slTerms (jdn : α) : List (α × α) :=
  [(1.914600 - 0.004817 * slT jdn - 0.000014 * (slT jdn * slT jdn), slM jdn),
   (0.019993 - 0.000101 * slT jdn, 2 * slM jdn), (0.000290, 3 * slM jdn)]

/-- Value of a list of sine terms. -/
def sineSum (tg : Trig α) (ts : List (α × α)) : α :=
  (ts.map fun p => p.1 * tg.sin (p.2 * (tg.pi / 180))).sum

/-- The sun's longitude in degrees before normalisation: `L0 + DL` of `SunLongitude`. -/
def sunDeg (tg : Trig α) (jdn : α) : α := slBase jdn + sineSum tg (slTerms jdn)

end Series

/-- Certificate enclosing `sin (A°)`: either the trivial enclosure `[-1, 1]`, or an
enclosure `[lo, hi]` obtained from the Taylor polynomial at the rational point `y0`,
where `A° = y0 ± ε` modulo `360° n` (`even`) or modulo `360° n + 180°` (`odd`). -/
inductive SinCert where
  | crude : SinCert
  | even (n : ℤ) (y0 ε δ lo hi : ℚ) : SinCert
  | odd (n : ℤ) (y0 ε δ lo hi : ℚ) : SinCert

/-- Taylor polynomial of the sine, degree 11. -/
def sinPoly (y : ℚ) : ℚ :=
  y - y ^ 3 / 6 + y ^ 5 / 120 - y ^ 7 / 5040 + y ^ 9 / 362880 - y ^ 11 / 39916800

/-- Lower end of the enclosure. -/
def SinCert.lo : SinCert → ℚ
  | .crude => -1
  | .even _ _ _ _ lo _ => lo
  | .odd _ _ _ _ lo _ => lo

/-- Upper end of the enclosure. -/
def SinCert.hi : SinCert → ℚ
  | .crude => 1
  | .even _ _ _ _ _ hi => hi
  | .odd _ _ _ _ _ hi => hi

/-- The rational inequalities that make the certificate valid for `A` degrees. -/
def SinCert.ok (A : ℚ) : SinCert → Bool
  | .crude => true
  | .even n y0 ε δ lo hi =>
    decide ((y0 - ε ≤ (A / 180 - 2 * n) * (3141592 / 1000000) ∧ (A / 180 - 2 * n) * (3141592 / 1000000) ≤ y0 + ε) ∧
      (y0 - ε ≤ (A / 180 - 2 * n) * (3141593 / 1000000) ∧ (A / 180 - 2 * n) * (3141593 / 1000000) ≤ y0 + ε) ∧
      (-6 ≤ y0 ∧ y0 ≤ 6) ∧ y0 ^ 12 / 239500800 ≤ δ ∧
      lo ≤ sinPoly y0 - ε - δ ∧ sinPoly y0 + ε + δ ≤ hi)
  | .odd n y0 ε δ lo hi =>
    decide ((y0 - ε ≤ (A / 180 - 2 * n - 1) * (3141592 / 1000000) ∧
        (A / 180 - 2 * n - 1) * (3141592 / 1000000) ≤ y0 + ε) ∧
      (y0 - ε ≤ (A / 180 - 2 * n - 1) * (3141593 / 1000000) ∧
        (A / 180 - 2 * n - 1) * (3141593 / 1000000) ≤ y0 + ε) ∧
      (-6 ≤ y0 ∧ y0 ≤ 6) ∧ y0 ^ 12 / 239500800 ≤ δ ∧
      lo ≤ -sinPoly y0 - ε - δ ∧ -sinPoly y0 + ε + δ ≤ hi)

/-- All certificates of a list are valid for the corresponding terms. -/
def certsOk : List (ℚ × ℚ) → List SinCert → Bool
  | [], [] => true
  | t :: ts, c :: cs => c.ok t.2 && certsOk ts cs
  | _, _ => false

/-- Lower bound of a sum of sine terms from the certificates. -/
def sumLo : List (ℚ × ℚ) → List SinCert → ℚ
  | t :: ts, c :: cs => min (t.1 * c.lo) (t.1 * c.hi) + sumLo ts cs
  | _, _ => 0

/-- Upper bound of a sum of sine terms from the certificates. -/
def sumHi : List (ℚ × ℚ) → List SinCert → ℚ
  | t :: ts, c :: cs => max (t.1 * c.lo) (t.1 * c.hi) + sumHi ts cs
  | _, _ => 0

/-- The rational terms seen as real terms. -/
def castTerms (ts : List (ℚ × ℚ)) : List (ℝ × ℝ) := ts.map fun p => ((p.1 : ℝ), (p.2 : ℝ))

/-- Check that the certificates put `NewMoon k + 0.5 + tz / 24` in `[n, n + 1)`. -/
def nmCheck (k tz n : ℤ) (cs : List SinCert) : Bool :=
  certsOk (nmTerms (k : ℚ)) cs &&
  decide ((n : ℚ) ≤ nmBase (k : ℚ) + sumLo (nmTerms (k : ℚ)) cs + 0.5 + (tz : ℚ) / 24) &&
  decide (nmBase (k : ℚ) + sumHi (nmTerms (k : ℚ)) cs + 0.5 + (tz : ℚ) / 24 < (n : ℚ) + 1)

/-- Check that the certificates put the sun's longitude at local midnight of day `day`,
in degrees, in `[360 n + 30 j, 360 n + 30 (j + 1))`, with `j` in `0..11`. -/
def slCheck (day tz j n : ℤ) (cs : List SinCert) : Bool :=
  certsOk (slTerms ((day : ℚ) - 0.5 - (tz : ℚ) / 24)) cs &&
  decide (0 ≤ j ∧ j ≤ 11) &&
  decide (360 * (n : ℚ) + 30 * (j : ℚ)
    ≤ slBase ((day : ℚ) - 0.5 - (tz : ℚ) / 24)
      + sumLo (slTerms ((day : ℚ) - 0.5 - (tz : ℚ) / 24)) cs) &&
  decide (slBase ((day : ℚ) - 0.5 - (tz : ℚ) / 24)
      + sumHi (slTerms ((day : ℚ) - 0.5 - (tz : ℚ) / 24)) cs
    < 360 * (n : ℚ) + 30 * ((j : ℚ) + 1))

/-! ### Evaluation of the conversions from tables of new-moon days and sun-longitude indices

The functions below follow `getLunarMonth11`, `getLeapMonthOffset`, `convertSolar2Lunar` and
`convertLunar2Solar` on integers, reading `getNewMoonDay` and `getSunLongitude` from two
partial lookup functions.  They are used to evaluate the real-valued functions at concrete
dates: a result `some r` is the value of the real-valued function whenever every entry the
lookups return is correct. -/

/-- New-moon index used by `getLunarMonth11` for year `yy`. -/
def kOfYear (yy : ℤ) : ℤ := ⌊(((jdFromDateZ 31 12 yy - 2415021 : ℤ) : ℚ) / 29.530588853)⌋

/-- New-moon index used by `convertSolar2Lunar` for day number `d`. -/
def kOfDay (d : ℤ) : ℤ := ⌊(((d : ℚ) - 2415021.076998695) / 29.530588853)⌋

/-- New-moon index recovered from a month-11 start `a11`. -/
def kOfAnchor (a11 : ℤ) : ℤ := ⌊(((a11 : ℚ) - 2415021.076998695) / 29.530588853 + 0.5)⌋

/-- Function `getLunarMonth11` from lookups. -/
def getLunarMonth11P (nmL slL : ℤ → Option ℤ) (yy : ℤ) : Option ℤ := do
  let k := kOfYear yy
  let nm ← nmL k
  let sunLong ← slL nm
  if sunLong ≥ 9 then nmL (k - 1) else pure nm

/-- The loop of `getLeapMonthOffset` from a partial `arcAt`, with a bound on the number of
passes. -/
def leapScanP (arcAt : ℕ → Option ℤ) : ℕ → ℕ → ℤ → Option ℕ
  | 0, _, _ => none
  | fuel + 1, i, last => do
    let arc ← arcAt (i + 1)
    if arc ≠ last ∧ i + 1 < 14 then leapScanP arcAt fuel (i + 1) arc else pure (i + 1)

/-- Function `getLeapMonthOffset` from lookups. -/
def getLeapMonthOffsetP (nmL slL : ℤ → Option ℤ) (a11 : ℤ) : Option ℤ := do
  let k := kOfAnchor a11
  let arcAt := fun j : ℕ => (nmL (k + (j : ℤ))).bind slL
  let first ← arcAt 1
  let i ← leapScanP arcAt 14 1 first
  pure ((i : ℤ) - 1)

/-- Function `solarAnchors` from lookups. -/
def solarAnchorsP (nmL slL : ℤ → Option ℤ) (dd mm yy : ℤ) : Option (ℤ × ℤ × ℤ × ℤ × ℤ) := do
  let dayNumber := jdFromDateZ dd mm yy
  let k := kOfDay dayNumber
  let ms1 ← nmL (k + 1)
  let monthStart ← (if ms1 > dayNumber then nmL k else pure ms1)
  let a11 ← getLunarMonth11P nmL slL yy
  if a11 ≥ monthStart then do
    let a ← getLunarMonth11P nmL slL (yy - 1)
    pure (dayNumber, monthStart, a, a11, yy)
  else do
    let b ← getLunarMonth11P nmL slL (yy + 1)
    pure (dayNumber, monthStart, a11, b, yy + 1)

/-- Function `convertSolar2Lunar` from lookups. -/
def convertSolar2LunarP (nmL slL : ℤ → Option ℤ) (dd mm yy : ℤ) : Option (ℤ × ℤ × ℤ × ℤ) := do
  let s ← solarAnchorsP nmL slL dd mm yy
  let dayNumber := s.1
  let monthStart := s.2.1
  let a11 := s.2.2.1
  let b11 := s.2.2.2.1
  let lunarYear := s.2.2.2.2
  let lunarDay := dayNumber - monthStart + 1
  let diff := (monthStart - a11) / 29
  let ml : ℤ × ℤ ←
    (if b11 - a11 > 365 then
      (getLeapMonthOffsetP nmL slL a11).bind fun leapMonthDiff =>
        if diff ≥ leapMonthDiff then some (diff + 10, if diff = leapMonthDiff then 1 else 0)
        else some (diff + 11, 0)
    else some (diff + 11, 0))
  let lunarMonth := if ml.1 > 12 then ml.1 - 12 else ml.1
  let lunarYear := if lunarMonth ≥ 11 ∧ diff < 4 then lunarYear - 1 else lunarYear
  pure (lunarDay, lunarMonth, lunarYear, ml.2)

/-- Function `lunarAnchors` from lookups. -/
def lunarAnchorsP (nmL slL : ℤ → Option ℤ) (lunarMonth lunarYear : ℤ) : Option (ℤ × ℤ) := do
  if lunarMonth < 11 then do
    let a ← getLunarMonth11P nmL slL (lunarYear - 1)
    let b ← getLunarMonth11P nmL slL lunarYear
    pure (a, b)
  else do
    let a ← getLunarMonth11P nmL slL lunarYear
    let b ← getLunarMonth11P nmL slL (lunarYear + 1)
    pure (a, b)

/-- Function `convertLunar2Solar` from lookups. -/
def convertLunar2SolarP (nmL slL : ℤ → Option ℤ) (lunarDay lunarMonth lunarYear lunarLeap : ℤ) :
    Option (ℤ × ℤ × ℤ) := do
  let ab ← lunarAnchorsP nmL slL lunarMonth lunarYear
  let a11 := ab.1
  let b11 := ab.2
  let k := kOfAnchor a11
  let off := lunarMonth - 11
  let off := if off < 0 then off + 12 else off
  if b11 - a11 > 365 then do
    let leapOff ← getLeapMonthOffsetP nmL slL a11
    let leapMonth := if leapOff - 2 < 0 then leapOff - 2 + 12 else leapOff - 2
    if lunarLeap ≠ 0 ∧ lunarMonth ≠ leapMonth then pure (0, 0, 0)
    else do
      let off := if lunarLeap ≠ 0 ∨ off ≥ leapOff then off + 1 else off
      let monthStart ← nmL (k + off)
      pure (jdToDateZ (monthStart + lunarDay - 1))
  else do
    let monthStart ← nmL (k + off)
    pure (jdToDateZ (monthStart + lunarDay - 1))

/-- Table of certified new-moon days: entries `(k, n, certificates)`. -/
abbrev NmTable := List (ℤ × ℤ × List SinCert)

/-- Table of certified sun-longitude indices: entries `(day, j, n, certificates)`. -/
abbrev SlTable := List (ℤ × ℤ × ℤ × List SinCert)

/-- Look up the new-moon day of index `k`; only an entry whose certificates check is used. -/
def nmLookup (tz : ℤ) : NmTable → ℤ → Option ℤ
  | [], _ => none
  | e :: es, k => if e.1 = k ∧ nmCheck e.1 tz e.2.1 e.2.2 = true then some e.2.1
      else nmLookup tz es k

/-- Look up the sun-longitude index of day `d`; only an entry whose certificates check is
used. -/
def slLookup (tz : ℤ) : SlTable → ℤ → Option ℤ
  | [], _ => none
  | e :: es, d => if e.1 = d ∧ slCheck e.1 tz e.2.1 e.2.2.1 e.2.2.2 = true then some e.2.1
      else slLookup tz es d

section Lookups

variable {α : Type} [LinearOrderedField α] [FloorRing α]

/-- The lookups return only correct values of `getNewMoonDay` and `getSunLongitude`. -/
def LookupsSound (tg : Trig α) (tz : ℤ) (nmL slL : ℤ → Option ℤ) : Prop :=
  (∀ k n, nmL k = some n → getNewMoonDay tg (k : α) (tz : α) = (n : α)) ∧
  (∀ d j, slL d = some j → getSunLongitude tg (d : α) (tz : α) = (j : α))

end Lookups

/-- Evaluate `Solar2lunar` from the tables and compare with `expected`. -/
def solarCheck (tz : ℤ) (N : NmTable) (S : SlTable) (yyyy mm dd : ℤ) (expected : LunarDate) :
    Bool :=
  match convertSolar2LunarP (nmLookup tz N) (slLookup tz S) dd mm yyyy with
  | some r => decide (LunarDate.mk r.2.2.1 r.2.1 r.1 (decide (r.2.2.2 = 1)) = expected)
  | none => false

/-- Evaluate `Lunar2solar` from the tables and compare with `expected`. -/
def lunarCheck (tz : ℤ) (N : NmTable) (S : SlTable) (lunarYear lunarMonth lunarDay : ℤ)
    (lunarLeap : Bool) (expected : SolarDate) : Bool :=
  match convertLunar2SolarP (nmLookup tz N) (slLookup tz S) lunarDay lunarMonth lunarYear
      (if lunarLeap then 1 else 0) with
  | some r => decide (SolarDate.mk r.2.2 r.2.1 r.1 = expected)
  | none => false

section Total

variable {α : Type} [LinearOrderedField α] [FloorRing α]

/-- Function `getNewMoonDay` at integer arguments, as an integer. -/
def nmZ (tg : Trig α) (tz k : ℤ) : ℤ := ⌊NewMoon tg (k : α) + 0.5 + (tz : α) / 24⌋

/-- Function `getSunLongitude` at integer arguments, as an integer. -/
def slZ (tg : Trig α) (tz d : ℤ) : ℤ :=
  ⌊SunLongitude tg ((d : α) - 0.5 - (tz : α) / 24) / tg.pi * 6⌋

/-- The part of `convertLunar2Solar` before `jdToDate`: the start of the requested lunar
month, or `none` where `convertLunar2Solar` returns `(0, 0, 0)`. -/
def lunarMonthStart (tg : Trig α) (lunarMonth lunarYear lunarLeap timeZone : α) : Option α :=
  let ab := lunarAnchors tg lunarMonth lunarYear timeZone
  let a11 := ab.1
  let b11 := ab.2
  let k := Floor (0.5 + (a11 - 2415021.076998695) / 29.530588853)
  let off := lunarMonth - 11
  let off := if off < 0 then off + 12 else off
  if b11 - a11 > 365 then
    let leapOff := getLeapMonthOffset tg a11 timeZone
    let leapMonth := leapMonthOf leapOff
    if lunarLeap ≠ 0 ∧ lunarMonth ≠ leapMonth then none
    else
      let off := if lunarLeap ≠ 0 ∨ off ≥ leapOff then off + 1 else off
      some (getNewMoonDay tg (k + off) timeZone)
  else some (getNewMoonDay tg (k + off) timeZone)

end Total

/-- Certified new-moon day of index -12392031, time zone 7. -/
def nmEntry_m12392031 : ℤ × ℤ × List SinCert :=
  ((-12392031), 444299452, [.crude,
      .even (-992188) 1.1239901 0.00000025 0.000000017 0.901831 0.901832, .crude,
      .odd (-13312246) (-0.9567163) 0.0000002 0.000000003 0.817303 0.817305, .crude, .crude,
      .crude, .crude, .crude, .crude, .crude, .crude, .crude, .crude])

/-- Certified new-moon day of index -12392030, time zone 7. -/
def nmEntry_m12392030 : ℤ × ℤ × List SinCert :=
  ((-12392030), 444299221, [.crude,
      .odd (-992188) (-1.5243543) 0.00000031 0.000000658 0.99892 0.998923, .crude,
      .odd (-13312245) (-0.4566371) 0.00000012 0.000000001 0.440932 0.440933,
      .even (-26624489) (-0.9132742) 0.00000024 0.000000002 (-0.79151) (-0.791508), .crude,
      .even (-26883127) 0.06768 0.00000002 0.000000001 0.067628 0.067629, .crude,
      .even 12320057 (-1.0677172) 0.0000002 0.00000001 (-0.876103) (-0.876101), .crude, .crude,
      .crude, .crude, .crude])

/-- Certified new-moon day of index -12392019, time zone 7. -/
def nmEntry_m12392019 : ℤ × ℤ × List SinCert :=
  ((-12392019), 444296668, [.crude,
      .even (-992187) 0.7597825 0.00000017 0.000000001 0.688763 0.688764, .crude,
      .odd (-13312233) (-1.2389514) 0.00000021 0.000000055 0.945442 0.945444, .crude, .crude,
      .crude, .crude, .crude, .crude, .crude, .crude, .crude, .crude])

/-- Certified new-moon day of index -12392006, time zone 7. -/
def nmEntry_m12392006 : ℤ × ℤ × List SinCert :=
  ((-12392006), 444293654, [.crude,
      .even (-992186) 0.8888234 0.00000018 0.000000002 0.77633 0.776331, .crude,
      .odd (-13312219) (-1.0211088) 0.00000026 0.000000006 0.852687 0.852689, .crude, .crude,
      .crude, .crude, .crude, .crude, .crude, .crude, .crude, .crude])

/-- Certified new-moon day of index -1476544, time zone 7. -/
def nmEntry_m1476544 : ℤ × ℤ × List SinCert :=
  ((-1476544), (-41037944), [.crude,
      .odd (-119359) (-1.108499) 0.00000022 0.000000015 0.89503 0.895031, .crude,
      .odd (-1582448) 0.2582908 0.00000005 0.000000001 (-0.255429) (-0.255428), .crude, .crude,
      .crude, .crude, .crude, .crude, .crude, .crude, .crude, .crude])

/-- Certified new-moon day of index -1476543, time zone 7. -/
def nmEntry_m1476543 : ℤ × ℤ × List SinCert :=
  ((-1476543), (-41037915), [.crude,
      .odd (-119359) (-0.600723) 0.00000018 0.000000001 0.565238 0.56524, .crude, .crude, .crude,
      .crude, .crude, .crude, .crude, .crude, .crude, .crude, .crude, .crude])

/-- Certified new-moon day of index -1476539, time zone 7. -/
def nmEntry_m1476539 : ℤ × ℤ × List SinCert :=
  ((-1476539), (-41037799), [.crude,
      .odd (-119359) 1.4303812 0.00000029 0.000000307 (-0.990159) (-0.990157), .crude,
      .even (-1582442) (-0.6284299) 0.00000011 0.000000001 (-0.587876) (-0.587875), .crude, .crude,
      .crude, .crude, .crude, .crude, .crude, .crude, .crude, .crude])

/-- Certified new-moon day of index -1476538, time zone 7. -/
def nmEntry_m1476538 : ℤ × ℤ × List SinCert :=
  ((-1476538), (-41037770), [.crude,
      .even (-119358) (-1.2034353) 0.00000029 0.000000039 (-0.933279) (-0.933278), .crude,
      .even (-1582441) (-0.1774556) 0.0000001 0.000000001 (-0.176526) (-0.176525), .crude, .crude,
      .crude, .crude, .crude, .crude, .crude, .crude, .crude, .crude])

/-- Certified new-moon day of index -1476531, time zone 7. -/
def nmEntry_m1476531 : ℤ × ℤ × List SinCert :=
  ((-1476531), (-41037566), [.crude,
      .odd (-119358) (-0.7905954) 0.00000014 0.000000001 0.710772 0.710773, .crude,
      .odd (-1582434) (-0.1622276) 0.00000008 0.000000001 0.161516 0.161518, .crude, .crude,
      .crude, .crude, .crude, .crude, .crude, .crude, .crude, .crude])

/-- Certified new-moon day of index -1476529, time zone 7. -/
def nmEntry_m1476529 : ℤ × ℤ × List SinCert :=
  ((-1476529), (-41037508), [.crude,
      .odd (-119358) 0.2249567 0.00000004 0.000000001 (-0.223065) (-0.223064), .crude,
      .odd (-1582432) 0.7397211 0.00000018 0.000000001 (-0.674083) (-0.674081), .crude, .crude,
      .crude, .crude, .crude, .crude, .crude, .crude, .crude, .crude])

/-- Certified new-moon day of index -1476528, time zone 7. -/
def nmEntry_m1476528 : ℤ × ℤ × List SinCert :=
  ((-1476528), (-41037479), [.crude,
      .odd (-119358) 0.7327327 0.00000017 0.000000001 (-0.668904) (-0.668903), .crude,
      .odd (-1582431) 1.1906955 0.0000002 0.000000034 (-0.928628) (-0.928626), .crude, .crude,
      .crude, .crude, .crude, .crude, .crude, .crude, .crude, .crude])

/-- Certified new-moon day of index -1476518, time zone 7. -/
def nmEntry_m1476518 : ℤ × ℤ × List SinCert :=
  ((-1476518), (-41037187), [.crude,
      .odd (-119357) (-0.4726918) 0.00000011 0.000000001 0.455284 0.455285, .crude,
      .odd (-1582420) (-0.5827461) 0.00000016 0.000000001 0.550318 0.55032,
      .even (-3164839) (-1.1654921) 0.00000022 0.000000027 (-0.918983) (-0.918982), .crude,
      .even (-3204613) 1.2916693 0.0000003 0.000000091 0.961295 0.961297, .crude, .crude, .crude,
      .crude, .crude, .crude, .crude])

/-- Certified new-moon day of index -1471455, time zone 7. -/
def nmEntry_m1471455 : ℤ × ℤ × List SinCert :=
  ((-1471455), (-40889773), [.crude,
      .odd (-118948) 0.5784025 0.00000019 0.000000001 (-0.546688) (-0.546686), .crude,
      .even (-1576993) (-1.2471913) 0.00000024 0.00000006 (-0.948096) (-0.948094), .crude, .crude,
      .crude, .crude, .crude, .crude, .crude, .crude, .crude, .crude])

/-- Certified new-moon day of index -1471454, time zone 7. -/
def nmEntry_m1471454 : ℤ × ℤ × List SinCert :=
  ((-1471454), (-40889744), [.crude,
      .odd (-118948) 1.08618 0.00000025 0.000000012 (-0.884855) (-0.884853), .crude,
      .even (-1576992) (-0.7962208) 0.00000014 0.000000001 (-0.714719) (-0.714717), .crude, .crude,
      .crude, .crude, .crude, .crude, .crude, .crude, .crude, .crude])

/-- Certified new-moon day of index -1471453, time zone 7. -/
def nmEntry_m1471453 : ℤ × ℤ × List SinCert :=
  ((-1471453), (-40889715), [.crude,
      .even (-118947) (-1.547635) 0.0000003 0.000000789 (-0.999733) (-0.99973), .crude,
      .even (-1576991) (-0.3452504) 0.00000015 0.000000001 (-0.338433) (-0.338432), .crude, .crude,
      .crude, .crude, .crude, .crude, .crude, .crude, .crude, .crude])

/-- Certified new-moon day of index -1471452, time zone 7. -/
def nmEntry_m1471452 : ℤ × ℤ × List SinCert :=
  ((-1471452), (-40889686), [.crude,
      .even (-118947) (-1.0398575) 0.0000002 0.000000007 (-0.862333) (-0.862331), .crude,
      .even (-1576990) 0.1057201 0.00000008 0.000000001 0.105523 0.105524, .crude, .crude, .crude,
      .crude, .crude, .crude, .crude, .crude, .crude, .crude])

/-- Certified new-moon day of index -1471451, time zone 7. -/
def nmEntry_m1471451 : ℤ × ℤ × List SinCert :=
  ((-1471451), (-40889657), [.crude,
      .even (-118947) (-0.53208) 0.0000001 0.000000001 (-0.507327) (-0.507326), .crude, .crude,
      .crude, .crude, .crude, .crude, .crude, .crude, .crude, .crude, .crude, .crude])

/-- Certified new-moon day of index -1471450, time zone 7. -/
def nmEntry_m1471450 : ℤ × ℤ × List SinCert :=
  ((-1471450), (-40889628), [.crude,
      .even (-118947) (-0.0243026) 0.0000001 0.000000001 (-0.024301) (-0.0243), .crude,
      .even (-1576988) 1.0076611 0.00000018 0.000000005 0.845585 0.845586, .crude, .crude, .crude,
      .crude, .crude, .crude, .crude, .crude, .crude, .crude])

/-- Certified new-moon day of index -1471442, time zone 7. -/
def nmEntry_m1471442 : ℤ × ℤ × List SinCert :=
  ((-1471442), (-40889395), [.crude,
      .odd (-118947) 0.8963248 0.00000019 0.000000002 (-0.781038) (-0.781036), .crude,
      .odd (-1576980) 1.4738323 0.00000031 0.000000439 (-0.995304) (-0.995301), .crude, .crude,
      .crude, .crude, .crude, .crude, .crude, .crude, .crude, .crude])

/-- Certified new-moon day of index -1471441, time zone 7. -/
def nmEntry_m1471441 : ℤ × ℤ × List SinCert :=
  ((-1471441), (-40889366), [.crude,
      .odd (-118947) 1.4041023 0.00000025 0.000000246 (-0.98614) (-0.986138), .crude,
      .even (-1576978) (-1.2167897) 0.00000024 0.000000044 (-0.937992) (-0.937991), .crude, .crude,
      .crude, .crude, .crude, .crude, .crude, .crude, .crude, .crude])

/-- Certified new-moon day of index -1471440, time zone 7. -/
def nmEntry_m1471440 : ℤ × ℤ × List SinCert :=
  ((-1471440), (-40889337), [.crude,
      .even (-118946) (-1.2297127) 0.00000021 0.00000005 (-0.942393) (-0.942392), .crude, .crude,
      .crude, .crude, .crude, .crude, .crude, .crude, .crude, .crude, .crude, .crude])

/-- Certified new-moon day of index -3934, time zone 7. -/
def nmEntry_m3934 : ℤ × ℤ × List SinCert :=
  ((-3934), 2298848, [.crude, .crude, .crude,
      .odd (-4216) 1.4377639 0.0000003 0.000000326 (-0.991165) (-0.991163), .crude, .crude, .crude,
      .crude, .crude, .crude, .crude, .crude, .crude, .crude])

/-- Certified new-moon day of index -3933, time zone 7. -/
def nmEntry_m3933 : ℤ × ℤ × List SinCert :=
  ((-3933), 2298878, [.crude, .even (-317) 0.1371569 0.00000003 0.000000001 0.136727 0.136728,
      .crude, .even (-4214) (-1.2532393) 0.00000022 0.000000063 (-0.950002) (-0.95), .crude,
      .crude, .crude, .crude, .crude, .crude, .crude, .crude, .crude, .crude])

/-- Certified new-moon day of index -3924, time zone 7. -/
def nmEntry_m3924 : ℤ × ℤ × List SinCert :=
  ((-3924), 2299143, [.crude, .crude, .crude,
      .odd (-4205) (-0.3395286) 0.00000007 0.000000001 0.333042 0.333043, .crude, .crude, .crude,
      .crude, .crude, .crude, .crude, .crude, .crude, .crude])

/-- Certified new-moon day of index -3923, time zone 7. -/
def nmEntry_m3923 : ℤ × ℤ × List SinCert :=
  ((-3923), 2299172, [.crude,
      .even (-316) (-1.0661854) 0.00000018 0.00000001 (-0.875363) (-0.875362), .crude,
      .odd (-4204) 0.1110606 0.00000008 0.000000001 (-0.110833) (-0.110832), .crude, .crude,
      .crude, .crude, .crude, .crude, .crude, .crude, .crude, .crude])

/-- Certified new-moon day of index -3922, time zone 7. -/
def nmEntry_m3922 : ℤ × ℤ × List SinCert :=
  ((-3922), 2299202, [.crude,
      .even (-316) (-0.5582012) 0.00000017 0.000000001 (-0.529662) (-0.529661), .crude,
      .odd (-4203) 0.5616499 0.0000001 0.000000001 (-0.532584) (-0.532583), .crude, .crude, .crude,
      .crude, .crude, .crude, .crude, .crude, .crude, .crude])

/-- Certified new-moon day of index -3921, time zone 7. -/
def nmEntry_m3921 : ℤ × ℤ × List SinCert :=
  ((-3921), 2299232, [.crude, .crude, .crude,
      .odd (-4202) 1.0122391 0.00000021 0.000000005 (-0.848021) (-0.84802), .crude, .crude, .crude,
      .crude, .crude, .crude, .crude, .crude, .crude, .crude])

/-- Certified new-moon day of index 36, time zone 7. -/
def nmEntry_36 : ℤ × ℤ × List SinCert :=
  (36, 2416084, [.crude, .crude, .crude,
      .odd 39 (-0.4287513) 0.00000008 0.000000001 0.415735 0.415736, .crude, .crude, .crude,
      .crude, .crude, .crude, .crude, .crude, .crude, .crude])

/-- Certified new-moon day of index 37, time zone 7. -/
def nmEntry_37 : ℤ × ℤ × List SinCert :=
  (37, 2416114, [.crude, .even 4 (-0.0676774) 0.00000009 0.000000001 (-0.067626) (-0.067625),
      .crude, .odd 40 0.0218389 0.00000003 0.000000001 (-0.021838) (-0.021837), .crude, .crude,
      .crude, .crude, .crude, .crude, .crude, .crude, .crude, .crude])

/-- Certified new-moon day of index 38, time zone 7. -/
def nmEntry_38 : ℤ × ℤ × List SinCert :=
  (38, 2416143, [.crude, .even 4 0.4403069 0.00000012 0.000000001 0.426216 0.426218, .crude,
      .odd 41 0.4724291 0.00000011 0.000000001 (-0.455051) (-0.45505),
      .even 83 0.9448582 0.00000021 0.000000003 0.810413 0.810415, .crude,
      .odd 82 0.5855804 0.00000011 0.000000001 (-0.552684) (-0.552683), .crude, .crude, .crude,
      .crude, .crude, .crude, .crude])

/-- Certified new-moon day of index 39, time zone 7. -/
def nmEntry_39 : ℤ × ℤ × List SinCert :=
  (39, 2416173, [.crude, .crude, .crude,
      .odd 42 0.9230193 0.00000019 0.000000002 (-0.797428) (-0.797426), .crude, .crude, .crude,
      .crude, .crude, .crude, .crude, .crude, .crude, .crude])

/-- Certified new-moon day of index 40, time zone 7. -/
def nmEntry_40 : ℤ × ℤ × List SinCert :=
  (40, 2416203, [.crude, .even 4 1.4562754 0.00000032 0.00000038 0.993448 0.993451, .crude,
      .odd 43 1.3736095 0.00000027 0.000000189 (-0.980623) (-0.980621), .crude, .crude, .crude,
      .crude, .crude, .crude, .crude, .crude, .crude, .crude])

/-- Certified new-moon day of index 41, time zone 7. -/
def nmEntry_41 : ℤ × ℤ × List SinCert :=
  (41, 2416232, [.crude, .crude, .crude,
      .even 45 (-1.3173928) 0.00000027 0.000000115 (-0.968066) (-0.968064), .crude, .crude, .crude,
      .crude, .crude, .crude, .crude, .crude, .crude, .crude])

/-- Certified new-moon day of index 42, time zone 7. -/
def nmEntry_42 : ℤ × ℤ × List SinCert :=
  (42, 2416262, [.crude, .odd 4 (-0.6693485) 0.00000013 0.000000001 0.620475 0.620476, .crude,
      .even 46 (-0.8668026) 0.00000021 0.000000001 (-0.762264) (-0.762263), .crude, .crude, .crude,
      .crude, .crude, .crude, .crude, .crude, .crude, .crude])

/-- Certified new-moon day of index 43, time zone 7. -/
def nmEntry_43 : ℤ × ℤ × List SinCert :=
  (43, 2416291, [.crude, .crude, .crude,
      .even 47 (-0.4162124) 0.00000015 0.000000001 (-0.4043) (-0.404298), .crude, .crude, .crude,
      .crude, .crude, .crude, .crude, .crude, .crude, .crude])

/-- Certified new-moon day of index 44, time zone 7. -/
def nmEntry_44 : ℤ × ℤ × List SinCert :=
  (44, 2416320, [.crude, .odd 4 0.34662 0.00000012 0.000000001 (-0.339721) (-0.33972), .crude,
      .even 48 0.0343778 0.0000001 0.000000001 0.03437 0.034372, .crude, .crude, .crude, .crude,
      .crude, .crude, .crude, .crude, .crude, .crude])

/-- Certified new-moon day of index 49, time zone 7. -/
def nmEntry_49 : ℤ × ℤ × List SinCert :=
  (49, 2416468, [.crude, .crude, .crude,
      .odd 53 (-0.8542636) 0.00000019 0.000000001 0.754087 0.754088, .crude, .crude, .crude,
      .crude, .crude, .crude, .crude, .crude, .crude, .crude])

/-- Certified new-moon day of index 1520, time zone 7. -/
def nmEntry_1520 : ℤ × ℤ × List SinCert :=
  (1520, 2459908, [.crude, .crude, .crude,
      .even 1630 (-0.9118127) 0.00000019 0.000000002 (-0.790616) (-0.790614), .crude, .crude,
      .crude, .crude, .crude, .crude, .crude, .crude, .crude, .crude])

/-- Certified new-moon day of index 1521, time zone 7. -/
def nmEntry_1521 : ℤ × ℤ × List SinCert :=
  (1521, 2459937, [.crude, .crude, .crude,
      .even 1631 (-0.4612221) 0.00000009 0.000000001 (-0.445043) (-0.445042), .crude, .crude,
      .crude, .crude, .crude, .crude, .crude, .crude, .crude, .crude])

/-- Certified new-moon day of index 1522, time zone 7. -/
def nmEntry_1522 : ℤ × ℤ × List SinCert :=
  (1522, 2459967, [.crude, .even 124 0.3067607 0.0000001 0.000000001 0.301972 0.301973, .crude,
      .even 1632 (-0.0106316) 0.00000009 0.000000001 (-0.010632) (-0.010631), .crude, .crude,
      .crude, .crude, .crude, .crude, .crude, .crude, .crude, .crude])

/-- Certified new-moon day of index 1523, time zone 7. -/
def nmEntry_1523 : ℤ × ℤ × List SinCert :=
  (1523, 2459996, [.crude, .crude, .crude,
      .even 1633 0.439959 0.00000014 0.000000001 0.425902 0.425903, .crude, .crude, .crude, .crude,
      .crude, .crude, .crude, .crude, .crude, .crude])

/-- Certified new-moon day of index 1524, time zone 7. -/
def nmEntry_1524 : ℤ × ℤ × List SinCert :=
  (1524, 2460026, [.crude, .even 124 1.3227292 0.0000003 0.00000012 0.969388 0.96939, .crude,
      .even 1634 0.8905496 0.00000018 0.000000002 0.777417 0.777418,
      .odd 3268 (-1.3604933) 0.00000029 0.000000168 0.977967 0.977969, .crude, .crude, .crude,
      .crude, .crude, .crude, .crude, .crude, .crude])

/-- Certified new-moon day of index 1525, time zone 7. -/
def nmEntry_1525 : ℤ × ℤ × List SinCert :=
  (1525, 2460055, [.crude, .crude, .crude,
      .even 1635 1.3411402 0.00000023 0.000000142 0.973744 0.973746, .crude, .crude, .crude,
      .crude, .crude, .crude, .crude, .crude, .crude, .crude])

/-- Certified new-moon day of index 1533, time zone 7. -/
def nmEntry_1533 : ℤ × ℤ × List SinCert :=
  (1533, 2460292, [.crude, .crude, .crude,
      .even 1644 (-1.3373202) 0.00000024 0.000000137 (-0.972869) (-0.972867), .crude, .crude,
      .crude, .crude, .crude, .crude, .crude, .crude, .crude, .crude])

/-- Certified new-moon day of index 1537, time zone 7. -/
def nmEntry_1537 : ℤ × ℤ × List SinCert :=
  (1537, 2460410, [.crude, .odd 125 (-1.4982528) 0.0000003 0.000000535 0.997369 0.997371, .crude,
      .even 1648 0.4650421 0.00000011 0.000000001 0.44846 0.448461, .crude, .crude, .crude, .crude,
      .crude, .crude, .crude, .crude, .crude, .crude])

/-- Certified new-moon day of index 1545, time zone 7. -/
def nmEntry_1545 : ℤ × ℤ × List SinCert :=
  (1545, 2460646, [.crude, .crude, .crude,
      .odd 1656 0.9281742 0.00000021 0.000000002 (-0.800528) (-0.800526), .crude, .crude, .crude,
      .crude, .crude, .crude, .crude, .crude, .crude, .crude])

/-- Certified new-moon day of index 1546, time zone 7. -/
def nmEntry_1546 : ℤ × ℤ × List SinCert :=
  (1546, 2460676, [.crude, .crude, .crude,
      .odd 1657 1.3787648 0.00000026 0.000000198 (-0.981619) (-0.981618), .crude, .crude, .crude,
      .crude, .crude, .crude, .crude, .crude, .crude, .crude])

/-- Certified new-moon day of index 1904, time zone 7. -/
def nmEntry_1904 : ℤ × ℤ × List SinCert :=
  (1904, 2471247, [.crude, .crude, .crude,
      .odd 2041 (-0.6726017) 0.00000012 0.000000001 0.623023 0.623024, .crude, .crude, .crude,
      .crude, .crude, .crude, .crude, .crude, .crude, .crude])

/-- Certified new-moon day of index 1909, time zone 7. -/
def nmEntry_1909 : ℤ × ℤ × List SinCert :=
  (1909, 2471396, [.crude, .odd 155 (-1.0236554) 0.0000002 0.000000006 0.854015 0.854016, .crude,
      .even 2047 (-1.5612409) 0.00000031 0.000000876 (-0.999956) (-0.999953),
      .odd 4093 0.0191108 0.00000002 0.000000001 (-0.01911) (-0.019109), .crude,
      .odd 4143 (-0.6531271) 0.00000011 0.000000001 0.607672 0.607673,
      .even 2202 0.5566962 0.00000018 0.000000001 0.528383 0.528385,
      .odd (-1892) 0.5375854 0.00000016 0.000000001 (-0.512064) (-0.512063), .crude, .crude,
      .crude, .crude, .crude])

/-- Certified new-moon day of index 1910, time zone 7. -/
def nmEntry_1910 : ℤ × ℤ × List SinCert :=
  (1910, 2471425, [.crude, .crude, .crude,
      .even 2048 (-1.1106502) 0.00000021 0.000000015 (-0.895988) (-0.895987), .crude, .crude,
      .crude, .crude, .crude, .crude, .crude, .crude, .crude, .crude])

/-- Certified new-moon day of index 1916, time zone 7. -/
def nmEntry_1916 : ℤ × ℤ × List SinCert :=
  (1916, 2471601, [.crude, .crude, .crude,
      .odd 2054 (-1.5486987) 0.0000003 0.000000795 0.999754 0.999757, .crude, .crude, .crude,
      .crude, .crude, .crude, .crude, .crude, .crude, .crude])

/-- Certified new-moon day of index 1917, time zone 7. -/
def nmEntry_1917 : ℤ × ℤ × List SinCert :=
  (1917, 2471631, [.crude, .crude, .crude,
      .odd 2055 (-1.098108) 0.0000002 0.000000013 0.890347 0.890348, .crude, .crude, .crude,
      .crude, .crude, .crude, .crude, .crude, .crude, .crude])

/-- Certified sun-longitude index of day -41037915, time zone 7. -/
def slEntry_m41037915 : ℤ × ℤ × ℤ × List SinCert :=
  ((-41037915), 9, (-119069), [.even (-119062) 0.7320692 0.00000017 0.000000001 0.668409 0.668411,
      .even (-238124) 1.4641385 0.00000024 0.000000406 0.994316 0.994319, .crude])

/-- Certified sun-longitude index of day -41037566, time zone 7. -/
def slEntry_m41037566 : ℤ × ℤ × ℤ × List SinCert :=
  ((-41037566), 8, (-119068), [.even (-119061) 0.4520929 0.00000013 0.000000001 0.436848 0.43685,
      .crude, .crude])

/-- Certified sun-longitude index of day -41037187, time zone 7. -/
def slEntry_m41037187 : ℤ × ℤ × ℤ × List SinCert :=
  ((-41037187), 8, (-119067), [.even (-119060) 0.6881518 0.00000011 0.000000001 0.63511 0.635111,
      .crude, .crude])

/-- Certified sun-longitude index of day -40889773, time zone 7. -/
def slEntry_m40889773 : ℤ × ℤ × ℤ × List SinCert :=
  ((-40889773), 4, (-118663),
      [.odd (-118657) 1.1168829 0.00000028 0.000000016 (-0.898739) (-0.898737), .crude, .crude])

/-- Certified sun-longitude index of day -40889744, time zone 7. -/
def slEntry_m40889744 : ℤ × ℤ × ℤ × List SinCert :=
  ((-40889744), 5, (-118663),
      [.even (-118656) (-1.5258754) 0.00000028 0.000000666 (-0.998993) (-0.99899), .crude, .crude])

/-- Certified sun-longitude index of day -40889715, time zone 7. -/
def slEntry_m40889715 : ℤ × ℤ × ℤ × List SinCert :=
  ((-40889715), 6, (-118663),
      [.even (-118656) (-1.0270413) 0.00000024 0.000000006 (-0.855773) (-0.855771), .crude, .crude])

/-- Certified sun-longitude index of day -40889686, time zone 7. -/
def slEntry_m40889686 : ℤ × ℤ × ℤ × List SinCert :=
  ((-40889686), 7, (-118663),
      [.even (-118656) (-0.5282071) 0.00000009 0.000000001 (-0.503986) (-0.503985), .crude, .crude])

/-- Certified sun-longitude index of day -40889657, time zone 7. -/
def slEntry_m40889657 : ℤ × ℤ × ℤ × List SinCert :=
  ((-40889657), 8, (-118663),
      [.even (-118656) (-0.029373) 0.00000005 0.000000001 (-0.029369) (-0.029368), .crude, .crude])

/-- Certified sun-longitude index of day -40889628, time zone 7. -/
def slEntry_m40889628 : ℤ × ℤ × ℤ × List SinCert :=
  ((-40889628), 8, (-118663), [.even (-118656) 0.4694611 0.00000016 0.000000001 0.452405 0.452406,
      .crude, .crude])

/-- Certified sun-longitude index of day -40889395, time zone 7. -/
def slEntry_m40889395 : ℤ × ℤ × ℤ × List SinCert :=
  ((-40889395), 5, (-118662),
      [.odd (-118656) 1.3357429 0.00000026 0.000000135 (-0.972503) (-0.972501), .crude, .crude])

/-- Certified sun-longitude index of day -40889366, time zone 7. -/
def slEntry_m40889366 : ℤ × ℤ × ℤ × List SinCert :=
  ((-40889366), 6, (-118662),
      [.even (-118655) (-1.3070155) 0.00000029 0.000000104 (-0.965412) (-0.96541), .crude, .crude])

/-- Certified sun-longitude index of day -40889337, time zone 7. -/
def slEntry_m40889337 : ℤ × ℤ × ℤ × List SinCert :=
  ((-40889337), 6, (-118662),
      [.even (-118655) (-0.8081813) 0.00000015 0.000000001 (-0.723033) (-0.723031), .crude, .crude])

/-- Certified sun-longitude index of day 2298878, time zone 7. -/
def slEntry_2298878 : ℤ × ℤ × ℤ × List SinCert :=
  (2298878, 9, (-418), [.crude, .crude, .crude])

/-- Certified sun-longitude index of day 2299232, time zone 7. -/
def slEntry_2299232 : ℤ × ℤ × ℤ × List SinCert :=
  (2299232, 9, (-417), [.crude, .crude, .crude])

/-- Certified sun-longitude index of day 2416114, time zone 7. -/
def slEntry_2416114 : ℤ × ℤ × ℤ × List SinCert :=
  (2416114, 9, (-97), [.crude, .crude, .crude])

/-- Certified sun-longitude index of day 2416143, time zone 7. -/
def slEntry_2416143 : ℤ × ℤ × ℤ × List SinCert :=
  (2416143, 10, (-97), [.crude, .crude, .crude])

/-- Certified sun-longitude index of day 2416173, time zone 7. -/
def slEntry_2416173 : ℤ × ℤ × ℤ × List SinCert :=
  (2416173, 11, (-97), [.crude, .crude, .crude])

/-- Certified sun-longitude index of day 2416203, time zone 7. -/
def slEntry_2416203 : ℤ × ℤ × ℤ × List SinCert :=
  (2416203, 0, (-96), [.crude, .crude, .crude])

/-- Certified sun-longitude index of day 2416232, time zone 7. -/
def slEntry_2416232 : ℤ × ℤ × ℤ × List SinCert :=
  (2416232, 1, (-96), [.crude, .crude, .crude])

/-- Certified sun-longitude index of day 2416262, time zone 7. -/
def slEntry_2416262 : ℤ × ℤ × ℤ × List SinCert :=
  (2416262, 2, (-96), [.crude, .crude, .crude])

/-- Certified sun-longitude index of day 2416291, time zone 7. -/
def slEntry_2416291 : ℤ × ℤ × ℤ × List SinCert :=
  (2416291, 3, (-96), [.odd (-96) (-0.1676154) 0.00000007 0.000000001 0.166831 0.166832, .crude,
      .crude])

/-- Certified sun-longitude index of day 2416320, time zone 7. -/
def slEntry_2416320 : ℤ × ℤ × ℤ × List SinCert :=
  (2416320, 3, (-96), [.odd (-96) 0.3312417 0.00000011 0.000000001 (-0.325218) (-0.325217), .crude,
      .crude])

/-- Certified sun-longitude index of day 2416468, time zone 7. -/
def slEntry_2416468 : ℤ × ℤ × ℤ × List SinCert :=
  (2416468, 8, (-96), [.crude, .crude, .crude])

/-- Certified sun-longitude index of day 2459937, time zone 7. -/
def slEntry_2459937 : ℤ × ℤ × ℤ × List SinCert :=
  (2459937, 9, 23, [.even 24 (-0.2110733) 0.00000006 0.000000001 (-0.20951) (-0.209509), .crude,
      .crude])

/-- Certified sun-longitude index of day 2459967, time zone 7. -/
def slEntry_2459967 : ℤ × ℤ × ℤ × List SinCert :=
  (2459967, 10, 23, [.even 24 0.3049857 0.00000015 0.000000001 0.300279 0.30028, .crude, .crude])

/-- Certified sun-longitude index of day 2459996, time zone 7. -/
def slEntry_2459996 : ℤ × ℤ × ℤ × List SinCert :=
  (2459996, 11, 23, [.even 24 0.8038429 0.00000013 0.000000001 0.720028 0.720029, .crude, .crude])

/-- Certified sun-longitude index of day 2460026, time zone 7. -/
def slEntry_2460026 : ℤ × ℤ × ℤ × List SinCert :=
  (2460026, 0, 24, [.even 24 1.3199019 0.00000029 0.000000117 0.96869 0.968692, .crude, .crude])

/-- Certified sun-longitude index of day 2460055, time zone 7. -/
def slEntry_2460055 : ℤ × ℤ × ℤ × List SinCert :=
  (2460055, 0, 24, [.crude, .crude, .crude])

/-- Certified sun-longitude index of day 2460292, time zone 7. -/
def slEntry_2460292 : ℤ × ℤ × ℤ × List SinCert :=
  (2460292, 8, 24, [.crude, .crude, .crude])

/-- Certified sun-longitude index of day 2460676, time zone 7. -/
def slEntry_2460676 : ℤ × ℤ × ℤ × List SinCert :=
  (2460676, 9, 25, [.crude, .crude, .crude])

/-- Certified sun-longitude index of day 2471247, time zone 7. -/
def slEntry_2471247 : ℤ × ℤ × ℤ × List SinCert :=
  (2471247, 8, 54, [.crude, .crude, .crude])

/-- Certified sun-longitude index of day 2471631, time zone 7. -/
def slEntry_2471631 : ℤ × ℤ × ℤ × List SinCert :=
  (2471631, 9, 55, [.crude, .crude, .crude])

/-- Certified sun-longitude index of day 444293654, time zone 7. -/
def slEntry_444293654 : ℤ × ℤ × ℤ × List SinCert :=
  (444293654, 8, 1209842, [.even 1207243 1.0092739 0.00000023 0.000000005 0.846445 0.846446,
      .crude, .crude])

/-- Certified sun-longitude index of day 444296668, time zone 7. -/
def slEntry_444296668 : ℤ × ℤ × ℤ × List SinCert :=
  (444296668, 5, 1209851, [.odd 1207251 (-0.8599894) 0.00000019 0.000000001 0.757835 0.757836,
      .crude, .crude])

/-- Certified new-moon days for time zone 7: entries `(k, day, certificates)`. -/
def nmTable7 : NmTable :=
  [nmEntry_m12392031, nmEntry_m12392030, nmEntry_m12392019, nmEntry_m12392006, nmEntry_m1476544,
      nmEntry_m1476543, nmEntry_m1476539, nmEntry_m1476538, nmEntry_m1476531, nmEntry_m1476529,
      nmEntry_m1476528, nmEntry_m1476518, nmEntry_m1471455, nmEntry_m1471454, nmEntry_m1471453,
      nmEntry_m1471452, nmEntry_m1471451, nmEntry_m1471450, nmEntry_m1471442, nmEntry_m1471441,
      nmEntry_m1471440, nmEntry_m3934, nmEntry_m3933, nmEntry_m3924, nmEntry_m3923, nmEntry_m3922,
      nmEntry_m3921, nmEntry_36, nmEntry_37, nmEntry_38, nmEntry_39, nmEntry_40, nmEntry_41,
      nmEntry_42, nmEntry_43, nmEntry_44, nmEntry_49, nmEntry_1520, nmEntry_1521, nmEntry_1522,
      nmEntry_1523, nmEntry_1524, nmEntry_1525, nmEntry_1533, nmEntry_1537, nmEntry_1545,
      nmEntry_1546, nmEntry_1904, nmEntry_1909, nmEntry_1910, nmEntry_1916, nmEntry_1917]

/-- Certified sun-longitude indices for time zone 7: entries `(day, index, turn, certificates)`. -/
def slTable7 : SlTable :=
  [slEntry_m41037915, slEntry_m41037566, slEntry_m41037187, slEntry_m40889773, slEntry_m40889744,
      slEntry_m40889715, slEntry_m40889686, slEntry_m40889657, slEntry_m40889628,
      slEntry_m40889395, slEntry_m40889366, slEntry_m40889337, slEntry_2298878, slEntry_2299232,
      slEntry_2416114, slEntry_2416143, slEntry_2416173, slEntry_2416203, slEntry_2416232,
      slEntry_2416262, slEntry_2416291, slEntry_2416320, slEntry_2416468, slEntry_2459937,
      slEntry_2459967, slEntry_2459996, slEntry_2460026, slEntry_2460055, slEntry_2460292,
      slEntry_2460676, slEntry_2471247, slEntry_2471631, slEntry_444293654, slEntry_444296668]

/-! ### Further pieces of the source used by the theorems below -/

section Pieces

variable {α : Type} [LinearOrderedField α] [FloorRing α]

/-- The `for` loop of `getLeapMonthOffset` as in `leapScan`, counting the passes through
the loop body: returns the counter at `break` and the number of passes made. -/
def leapScanCount (arcAt : ℕ → α) (i : ℕ) (last : α) : ℕ × ℕ :=
  if arcAt (i + 1) ≠ last ∧ i + 1 < 14 then
    ((leapScanCount arcAt (i + 1) (arcAt (i + 1))).1,
      (leapScanCount arcAt (i + 1) (arcAt (i + 1))).2 + 1)
  else (i + 1, 1)
termination_by 14 - i
decreasing_by all_goals omega

/-- Lines 41-47 of `jdToDate`: the date from the values `b` and `c` left by either branch. -/
def jdToDateTail (b c : α) : α × α × α :=
  let d := Floor ((4 * c + 3) / 1461)
  let e := c - Floor ((1461 * d) / 4)
  let m := Floor ((5 * e + 2) / 153)
  let day := e - Floor ((153 * m + 2) / 5) + 1
  let month := m + 3 - 12 * Floor (m / 10)
  let year := b * 100 + d - 4800 + Floor (m / 10)
  (day, month, year)

/-- Lines 172, 176 and 182-184 of `convertSolar2Lunar` for the month with
`diff = leapMonthDiff`: the month number given to the leap month of offset `leapMonthDiff`. -/
def leapMonthNumber (leapMonthDiff : α) : α :=
  if leapMonthDiff + 10 > 12 then leapMonthDiff + 10 - 12 else leapMonthDiff + 10

/-- Lines 122-128 of `getLunarMonth11`: the index of the new moon whose day is returned. -/
def lunarMonth11Index (tg : Trig α) (yy timeZone : α) : α :=
  let off := jdFromDate 31 12 yy - 2415021
  let k := Floor (off / 29.530588853)
  let nm := getNewMoonDay tg k timeZone
  let sunLong := getSunLongitude tg nm timeZone
  if sunLong ≥ 9 then k - 1 else k

end Pieces

section Internals

variable {α : Type} [LinearOrderedField α] [FloorRing α]

/-- Line 170 of `convertSolar2Lunar`: the value `diff`, the number of whole 29-day periods
from the anchor `a11` to `monthStart`. -/
def monthDiff (tg : Trig α) (dd mm yy timeZone : α) : α :=
  Floor (((solarAnchors tg dd mm yy timeZone).2.1
    - (solarAnchors tg dd mm yy timeZone).2.2.1) / 29)

/-- Line 135 of `getLeapMonthOffset`: the new-moon index `k` recovered from a month-11 start
(line 201 of `convertLunar2Solar` computes the same value). -/
def anchorIndex (a11 : α) : α := Floor ((a11 - 2415021.076998695) / 29.530588853 + 0.5)

end Internals

/-! ### Certified values for the evaluations of the later theorems -/

/-- Certified new-moon day of index -36562, time zone 7. -/
def nmEntry_m36562 : ℤ × ℤ × List SinCert :=
  ((-36562), 1335324, [.crude, .even (-2955) 0.161543 0.00000012 0.000000001 0.160841 0.160842,
      .crude, .even (-39183) (-0.7518073) 0.0000002 0.000000001 (-0.682961) (-0.682959), .crude,
      .crude, .crude, .crude, .crude, .crude, .crude, .crude, .crude, .crude])

/-- Certified new-moon day of index -36561, time zone 7. -/
def nmEntry_m36561 : ℤ × ℤ × List SinCert :=
  ((-36561), 1335353, [.crude, .crude, .crude,
      .even (-39182) (-0.3012256) 0.00000013 0.000000001 (-0.296691) (-0.29669), .crude, .crude,
      .crude, .crude, .crude, .crude, .crude, .crude, .crude, .crude])

/-- Certified new-moon day of index -4961, time zone 7. -/
def nmEntry_m4961 : ℤ × ℤ × List SinCert :=
  ((-4961), 2268520, [.crude,
      .even (-400) (-0.5663179) 0.00000014 0.000000001 (-0.536529) (-0.536528), .crude,
      .even (-5316) 0.4968365 0.00000018 0.000000001 0.476646 0.476648,
      .even (-10632) 0.9936731 0.00000026 0.000000004 0.838035 0.838036, .crude,
      .even (-10767) (-1.2256604) 0.00000025 0.000000048 (-0.94103) (-0.941029), .crude,
      .even 4916 (-1.0631545) 0.00000022 0.000000009 (-0.873894) (-0.873893), .crude, .crude,
      .crude, .crude, .crude])

/-- Certified new-moon day of index -4960, time zone 7. -/
def nmEntry_m4960 : ℤ × ℤ × List SinCert :=
  ((-4960), 2268549, [.crude, .crude, .crude,
      .even (-5315) 0.9474255 0.00000025 0.000000003 0.811915 0.811916, .crude, .crude, .crude,
      .crude, .crude, .crude, .crude, .crude, .crude, .crude])

/-- Certified new-moon day of index -4959, time zone 7. -/
def nmEntry_m4959 : ℤ × ℤ × List SinCert :=
  ((-4959), 2268579, [.crude, .even (-400) 0.4496506 0.00000016 0.000000001 0.43465 0.434652,
      .crude, .even (-5314) 1.3980145 0.00000032 0.000000233 0.985109 0.985111,
      .odd (-10628) (-0.3455634) 0.00000014 0.000000001 0.338726 0.338727, .crude, .crude, .crude,
      .crude, .crude, .crude, .crude, .crude, .crude])

/-- Certified new-moon day of index -4958, time zone 7. -/
def nmEntry_m4958 : ℤ × ℤ × List SinCert :=
  ((-4958), 2268608, [.crude, .crude, .crude,
      .odd (-5313) (-1.292989) 0.00000029 0.000000092 0.961658 0.96166, .crude, .crude, .crude,
      .crude, .crude, .crude, .crude, .crude, .crude, .crude])

/-- Certified new-moon day of index -4948, time zone 7. -/
def nmEntry_m4948 : ℤ × ℤ × List SinCert :=
  ((-4948), 2268904, [.crude,
      .even (-399) (-0.2457074) 0.0000001 0.000000001 (-0.243243) (-0.243242), .crude,
      .even (-5302) 0.0713085 0.00000006 0.000000001 0.071248 0.071249, .crude, .crude, .crude,
      .crude, .crude, .crude, .crude, .crude, .crude, .crude])

/-- Certified new-moon day of index 1532, time zone 7. -/
def nmEntry_1532 : ℤ × ℤ × List SinCert :=
  (1532, 2460262, [.crude, .even 125 (-0.8965816) 0.00000017 0.000000002 (-0.781198) (-0.781197),
      .crude, .odd 1642 1.3536817 0.00000026 0.000000159 (-0.976524) (-0.976522), .crude, .crude,
      .crude, .crude, .crude, .crude, .crude, .crude, .crude, .crude])

/-- Certified new-moon day of index 1534, time zone 7. -/
def nmEntry_1534 : ℤ × ℤ × List SinCert :=
  (1534, 2460321, [.crude, .even 125 0.1193869 0.00000008 0.000000001 0.119103 0.119104, .crude,
      .even 1645 (-0.8867297) 0.00000024 0.000000001 (-0.77501) (-0.775008), .crude, .crude,
      .crude, .crude, .crude, .crude, .crude, .crude, .crude, .crude])

/-- Certified sun-longitude index of day 1335324, time zone 7. -/
def slEntry_1335324 : ℤ × ℤ × ℤ × List SinCert :=
  (1335324, 8, (-3056), [.even (-3055) 0.1550647 0.00000012 0.000000001 0.154443 0.154445,
      .even (-6110) 0.3101295 0.00000014 0.000000001 0.305181 0.305183, .crude])

/-- Certified sun-longitude index of day 1335353, time zone 7. -/
def slEntry_1335353 : ℤ × ℤ × ℤ × List SinCert :=
  (1335353, 8, (-3056), [.even (-3055) 0.653922 0.00000012 0.000000001 0.608303 0.608305, .crude,
      .crude])

/-- Certified sun-longitude index of day 2268549, time zone 7. -/
def slEntry_2268549 : ℤ × ℤ × ℤ × List SinCert :=
  (2268549, 9, (-501), [.even (-500) (-0.0726795) 0.00000009 0.000000001 (-0.072616) (-0.072615),
      .crude, .crude])

/-- Certified sun-longitude index of day 2268579, time zone 7. -/
def slEntry_2268579 : ℤ × ℤ × ℤ × List SinCert :=
  (2268579, 10, (-501), [.even (-500) 0.4433796 0.00000015 0.000000001 0.428994 0.428995, .crude,
      .crude])

/-- Certified sun-longitude index of day 2268608, time zone 7. -/
def slEntry_2268608 : ℤ × ℤ × ℤ × List SinCert :=
  (2268608, 10, (-501), [.even (-500) 0.9422367 0.00000025 0.000000003 0.808875 0.808876, .crude,
      .crude])

/-- Certified sun-longitude index of day 2268904, time zone 7. -/
def slEntry_2268904 : ℤ × ℤ × ℤ × List SinCert :=
  (2268904, 8, (-500), [.crude, .crude, .crude])

/-- Certified sun-longitude index of day 2460262, time zone 7. -/
def slEntry_2460262 : ℤ × ℤ × ℤ × List SinCert :=
  (2460262, 7, 24, [.crude, .crude, .crude])

/-- Certified sun-longitude index of day 2460321, time zone 7. -/
def slEntry_2460321 : ℤ × ℤ × ℤ × List SinCert :=
  (2460321, 9, 24, [.crude, .crude, .crude])

/-- Further certified new-moon days for time zone 7: entries `(k, day, certificates)`. -/
def nmTable7b : NmTable :=
  [nmEntry_m36562, nmEntry_m36561, nmEntry_m4961, nmEntry_m4960, nmEntry_m4959, nmEntry_m4958,
      nmEntry_m4948, nmEntry_1532, nmEntry_1533, nmEntry_1534]

/-- Further certified sun-longitude indices for time zone 7: entries
`(day, index, turn, certificates)`. -/
def slTable7b : SlTable :=
  [slEntry_1335324, slEntry_1335353, slEntry_2268549, slEntry_2268579, slEntry_2268608,
      slEntry_2268904, slEntry_2460262, slEntry_2460292, slEntry_2460321]

/-! ## Theorems -/

section IntegerDates

/-- Inverse on the Julian side, from the decomposition of the day number. -/
theorem jdToDateZ_julian (x D E : ℤ) (hx : x ≤ 2299160) (hE0 : 0 ≤ E)
    (hE : E ≤ 364 ∨ (E = 365 ∧ (D + 1) % 4 = 0))
    (hxe : x + 32082 = E + 365 * D + D / 4) :
    jdToDateZ x = (E - (153 * ((5 * E + 2) / 153) + 2) / 5 + 1,
      (5 * E + 2) / 153 + 3 - 12 * ((5 * E + 2) / 153 / 10),
      D - 4800 + (5 * E + 2) / 153 / 10) := by
  have hx' : ¬ x > 2299160 := by omega
  simp only [jdToDateZ, if_neg hx']
  have hd : (4 * (x + 32082) + 3) / 1461 = D := by omega
  rw [hd]
  have he : x + 32082 - 1461 * D / 4 = E := by omega
  rw [he]
  simp

theorem jdToDateZ_gregorian (x B D E : ℤ) (hx : x > 2299160) (hD0 : 0 ≤ D) (hD1 : D ≤ 99)
    (hE0 : 0 ≤ E)
    (hE : E ≤ 364 ∨ (E = 365 ∧ (D + 1) % 4 = 0 ∧ (D ≠ 99 ∨ (B + 1) % 4 = 0)))
    (hxe : x + 32044 = E + 365 * D + D / 4 + 36524 * B + B / 4) :
    jdToDateZ x = (E - (153 * ((5 * E + 2) / 153) + 2) / 5 + 1,
      (5 * E + 2) / 153 + 3 - 12 * ((5 * E + 2) / 153 / 10),
      B * 100 + D - 4800 + (5 * E + 2) / 153 / 10) := by
  simp only [jdToDateZ, if_pos hx]
  have hb : (4 * (x + 32044) + 3) / 146097 = B := by omega
  rw [hb]
  have hc : x + 32044 - B * 146097 / 4 = E + 365 * D + D / 4 := by omega
  rw [hc]
  have hd : (4 * (E + 365 * D + D / 4) + 3) / 1461 = D := by omega
  rw [hd]
  have he : E + 365 * D + D / 4 - 1461 * D / 4 = E := by omega
  rw [he]

/-- Month arithmetic of `jdFromDate`: the shifted month index `m` and the day of year `E`. -/
theorem monthIndex_facts (dd mm m E : ℤ) (hm1 : 1 ≤ mm) (hm2 : mm ≤ 12) (hd1 : 1 ≤ dd)
    (hl1 : dd ≤ 31) (hl2 : mm = 4 ∨ mm = 6 ∨ mm = 9 ∨ mm = 11 → dd ≤ 30)
    (hl5 : mm = 2 → dd ≤ 29)
    (hmp : mm + 12 * ((14 - mm) / 12) - 3 = m)
    (hE : dd - 1 + (153 * m + 2) / 5 = E) :
    (0 ≤ m ∧ m ≤ 11) ∧ (5 * E + 2) / 153 = m ∧ 0 ≤ E ∧ E ≤ 365 ∧
      E - (153 * m + 2) / 5 + 1 = dd ∧ m + 3 - 12 * (m / 10) = mm ∧
      m / 10 = (14 - mm) / 12 ∧ (E = 365 → mm = 2 ∧ dd = 29) ∧
      (mm = 10 → (153 * m + 2) / 5 = 214) ∧ (153 * m + 2) / 5 ≤ 337 ∧ 0 ≤ (153 * m + 2) / 5 := by
  have hmm : mm = 1 ∨ mm = 2 ∨ mm = 3 ∨ mm = 4 ∨ mm = 5 ∨ mm = 6 ∨ mm = 7 ∨ mm = 8 ∨ mm = 9
      ∨ mm = 10 ∨ mm = 11 ∨ mm = 12 := by omega
  rcases hmm with h | h | h | h | h | h | h | h | h | h | h | h <;> subst h <;> omega

theorem julian_side (dd m y yy : ℤ) (mm : ℤ) (hd1 : 1 ≤ dd) (hd31 : dd ≤ 31)
    (hl2 : mm = 4 ∨ mm = 6 ∨ mm = 9 ∨ mm = 11 → dd ≤ 30)
    (hmp : mm + 12 * ((14 - mm) / 12) - 3 = m)
    (hy : yy + 4800 - (14 - mm) / 12 = y) (hm1 : 1 ≤ mm) (hm2 : mm ≤ 12)
    (hgap : ¬ (yy = 1582 ∧ mm = 10 ∧ 5 ≤ dd ∧ dd ≤ 14))
    (hG : dd + (153 * m + 2) / 5 + 365 * y + y / 4 - y / 100 + y / 400 - 32045 < 2299161) :
    dd + (153 * m + 2) / 5 + 365 * y + y / 4 - 32083 ≤ 2299160 := by
  have hmm : mm = 1 ∨ mm = 2 ∨ mm = 3 ∨ mm = 4 ∨ mm = 5 ∨ mm = 6 ∨ mm = 7 ∨ mm = 8 ∨ mm = 9
      ∨ mm = 10 ∨ mm = 11 ∨ mm = 12 := by omega
  rcases (by omega : y ≤ 6381 ∨ y = 6382 ∨ 6383 ≤ y) with h | h | h
  · omega
  · subst h
    rcases hmm with h | h | h | h | h | h | h | h | h | h | h | h <;> subst h <;> omega
  · omega

theorem jdToDateZ_jdFromDateZ (dd mm yy : ℤ) (hm1 : 1 ≤ mm) (hm2 : mm ≤ 12) (hd1 : 1 ≤ dd)
    (hd2 : dd ≤ monthLength mm yy)
    (hgap : ¬ (yy = 1582 ∧ mm = 10 ∧ 5 ≤ dd ∧ dd ≤ 14)) :
    jdToDateZ (jdFromDateZ dd mm yy) = (dd, mm, yy) := by
  have hlen : dd ≤ 31 ∧ (mm = 4 ∨ mm = 6 ∨ mm = 9 ∨ mm = 11 → dd ≤ 30) ∧
      (mm = 2 → dd ≤ 29 ∧ (dd = 29 → isLeapYear yy)) := by
    unfold monthLength at hd2
    split_ifs at hd2 with h1 h2 h3 <;>
      refine ⟨by omega, by omega, fun h => ⟨by omega, fun h29 => ?_⟩⟩ <;>
      first | assumption | omega
  clear hd2
  obtain ⟨hl1, hl2, hl3⟩ := hlen
  have hl4 : mm = 2 → dd = 29 → yy % 4 = 0 ∧
      (1582 < yy → ((yy % 4 = 0 ∧ yy % 100 ≠ 0) ∨ yy % 400 = 0)) := by
    intro h2 h29
    have := (hl3 h2).2 h29
    unfold isLeapYear at this
    split_ifs at this with h
    · exact ⟨this, fun h' => absurd h (by omega)⟩
    · exact ⟨by omega, fun _ => this⟩
  have hl5 : mm = 2 → dd ≤ 29 := fun h => (hl3 h).1
  clear hl3
  generalize hy : yy + 4800 - (14 - mm) / 12 = y
  generalize hmp : mm + 12 * ((14 - mm) / 12) - 3 = m
  generalize hE : dd - 1 + (153 * m + 2) / 5 = E
  obtain ⟨hm0, hEm, hE0, hE1, hr1, hr2, hr3, hE365, h10, hcm1, hcm0⟩ :=
    monthIndex_facts dd mm m E hm1 hm2 hd1 hl1 hl2 hl5 hmp hE
  by_cases hG : dd + (153 * m + 2) / 5 + 365 * y + y / 4 - y / 100 + y / 400 - 32045 < 2299161
  · have hJ := julian_side dd m y yy mm hd1 hl1 hl2 hmp hy hm1 hm2 hgap hG
    have hleap : E ≤ 364 ∨ (E = 365 ∧ (y + 1) % 4 = 0) := by
      clear hJ hG h10 hr2 hEm
      omega
    have hx : jdFromDateZ dd mm yy = dd + (153 * m + 2) / 5 + 365 * y + y / 4 - 32083 := by
      simp only [jdFromDateZ, hy, hmp, if_pos hG]
    rw [hx, jdToDateZ_julian _ y E hJ hE0 hleap (by clear hx hJ hG; omega), hEm, hr1, hr2, hr3]
    congr 2
    clear hx hJ hG
    omega
  · have hJ : dd + (153 * m + 2) / 5 + 365 * y + y / 4 - y / 100 + y / 400 - 32045 > 2299160 := by
      omega
    have hyy : E = 365 → 1582 < yy := by
      intro h
      obtain ⟨h2, h29⟩ := hE365 h
      subst h2 h29
      clear hl4 hl5 hl2 hgap hE365 hr2 hEm hr1
      omega
    have hleap : E ≤ 364 ∨ (E = 365 ∧ (y % 100 + 1) % 4 = 0 ∧
        (y % 100 ≠ 99 ∨ (y / 100 + 1) % 4 = 0)) := by
      rcases (by omega : E ≤ 364 ∨ E = 365) with h | h
      · exact Or.inl h
      · right
        obtain ⟨h2, h29⟩ := hE365 h
        have h4 := hl4 h2 h29
        have h5 := h4.2 (hyy h)
        subst h2
        clear hJ hG hyy hE365 hl5 hl2 hgap hr2 hEm hr1 hl4
        omega
    have hx : jdFromDateZ dd mm yy
        = dd + (153 * m + 2) / 5 + 365 * y + y / 4 - y / 100 + y / 400 - 32045 := by
      simp only [jdFromDateZ, hy, hmp, if_neg hG]
    rw [hx, jdToDateZ_gregorian _ (y / 100) (y % 100) E hJ (by omega) (by omega) hE0
      hleap (by clear hx hJ hG hleap hyy; omega), hEm, hr1, hr2, hr3]
    congr 2
    clear hx hJ hG hleap hyy
    omega

/-- Month part of `jdToDate`, from the day of year `e` counted from 1 March. -/
theorem monthDay_inv (e : ℤ) (h0 : 0 ≤ e) (h1 : e ≤ 365) :
    0 ≤ (5 * e + 2) / 153 ∧ (5 * e + 2) / 153 ≤ 11 ∧
    (14 - ((5 * e + 2) / 153 + 3 - 12 * ((5 * e + 2) / 153 / 10))) / 12 = (5 * e + 2) / 153 / 10 := by
  omega

theorem jdFromDateZ_jdToDateZ (x : ℤ) : jdFromDateZ (jdToDateZ x).1 (jdToDateZ x).2.1 (jdToDateZ x).2.2 = x := by
  by_cases hx : x > 2299160
  · simp only [jdFromDateZ, jdToDateZ, if_pos hx]
    generalize hb : (4 * (x + 32044) + 3) / 146097 = b
    generalize hc : x + 32044 - b * 146097 / 4 = c
    generalize hd : (4 * c + 3) / 1461 = d
    generalize he : c - 1461 * d / 4 = e
    have hc0 : 0 ≤ c ∧ c ≤ 36524 := by omega
    have hd0 : 0 ≤ d ∧ d ≤ 99 := by omega
    have he0 : 0 ≤ e ∧ e ≤ 365 := by omega
    obtain ⟨hm0, hm1, hm2⟩ := monthDay_inv e he0.1 he0.2
    generalize hm : (5 * e + 2) / 153 = m at *
    rw [hm2]
    have e1 : b * 100 + d - 4800 + m / 10 + 4800 - m / 10 = b * 100 + d := by ring
    have e2 : m + 3 - 12 * (m / 10) + 12 * (m / 10) - 3 = m := by ring
    rw [e1, e2]
    have e3 : e - (153 * m + 2) / 5 + 1 + (153 * m + 2) / 5 = e + 1 := by ring
    rw [e3]
    have e4 : (b * 100 + d) / 100 = b := by omega
    have e5 : (b * 100 + d) / 400 = b / 4 := by omega
    have e6 : (b * 100 + d) / 4 = 25 * b + d / 4 := by omega
    rw [e4, e5, e6]
    have e7 : b * 146097 / 4 = 36524 * b + b / 4 := by omega
    have e8 : 1461 * d / 4 = 365 * d + d / 4 := by omega
    have : e + 1 + 365 * (b * 100 + d) + (25 * b + d / 4) - b + b / 4 - 32045 = x := by
      rw [e7] at hc
      rw [e8] at he
      clear e1 e2 e3 e4 e5 e6 e7 e8 hm2 hb hd
      omega
    rw [this, if_neg (by omega)]
  · simp only [jdFromDateZ, jdToDateZ, if_neg hx]
    generalize hd : (4 * (x + 32082) + 3) / 1461 = d
    generalize he : x + 32082 - 1461 * d / 4 = e
    have he0 : 0 ≤ e ∧ e ≤ 365 := by omega
    obtain ⟨hm0, hm1, hm2⟩ := monthDay_inv e he0.1 he0.2
    generalize hm : (5 * e + 2) / 153 = m at *
    rw [hm2]
    have e1 : 0 * 100 + d - 4800 + m / 10 + 4800 - m / 10 = d := by ring
    have e2 : m + 3 - 12 * (m / 10) + 12 * (m / 10) - 3 = m := by ring
    rw [e1, e2]
    have e3 : e - (153 * m + 2) / 5 + 1 + (153 * m + 2) / 5 = e + 1 := by ring
    rw [e3]
    rw [if_pos (by omega)]
    omega

end IntegerDates

section Bridge

variable {α : Type} [LinearOrderedField α] [FloorRing α]

theorem Floor_intCast (n : ℤ) : Floor (n : α) = (n : α) := by
  simp [Floor]

theorem Floor_intCast_div (n : ℤ) (d : ℕ) (hd : 0 < d) :
    Floor ((n : α) / (d : α)) = ((n / (d : ℤ) : ℤ) : α) := by
  unfold Floor
  congr 1
  have hd' : (0 : α) < (d : α) := by exact_mod_cast hd
  have hdz : (0 : ℤ) < (d : ℤ) := by exact_mod_cast hd
  rw [Int.floor_eq_iff]
  constructor
  · rw [le_div_iff₀ hd']
    have := Int.ediv_mul_le n (ne_of_gt hdz)
    exact_mod_cast this
  · rw [div_lt_iff₀ hd']
    have := Int.lt_ediv_add_one_mul_self n hdz
    exact_mod_cast this

theorem Floor_div_int (x : α) (n : ℤ) (d : ℕ) (hd : 0 < d) (hx : x = (n : α)) :
    Floor (x / (d : α)) = ((n / (d : ℤ) : ℤ) : α) := by
  rw [hx]
  exact Floor_intCast_div n d hd

theorem jdFromDate_intCast (dd mm yy : ℤ) :
    jdFromDate (dd : α) (mm : α) (yy : α) = ((jdFromDateZ dd mm yy : ℤ) : α) := by
  have ha : Floor ((14 - (mm : α)) / 12) = (((14 - mm) / 12 : ℤ) : α) := by
    have := Floor_div_int (14 - (mm : α)) (14 - mm) 12 (by norm_num) (by push_cast; ring)
    simpa using this
  simp only [jdFromDate, jdFromDateZ, ha]
  generalize (14 - mm) / 12 = a
  have hm : Floor ((153 * ((mm : α) + 12 * (a : α) - 3) + 2) / 5)
      = (((153 * (mm + 12 * a - 3) + 2) / 5 : ℤ) : α) := by
    have := Floor_div_int ((153 * ((mm : α) + 12 * (a : α) - 3) + 2))
      (153 * (mm + 12 * a - 3) + 2) 5 (by norm_num) (by push_cast; ring)
    simpa using this
  have h4 : Floor (((yy : α) + 4800 - (a : α)) / 4) = (((yy + 4800 - a) / 4 : ℤ) : α) := by
    have := Floor_div_int ((yy : α) + 4800 - (a : α)) (yy + 4800 - a) 4 (by norm_num)
      (by push_cast; ring)
    simpa using this
  have h100 : Floor (((yy : α) + 4800 - (a : α)) / 100) = (((yy + 4800 - a) / 100 : ℤ) : α) := by
    have := Floor_div_int ((yy : α) + 4800 - (a : α)) (yy + 4800 - a) 100 (by norm_num)
      (by push_cast; ring)
    simpa using this
  have h400 : Floor (((yy : α) + 4800 - (a : α)) / 400) = (((yy + 4800 - a) / 400 : ℤ) : α) := by
    have := Floor_div_int ((yy : α) + 4800 - (a : α)) (yy + 4800 - a) 400 (by norm_num)
      (by push_cast; ring)
    simpa using this
  rw [hm, h4, h100, h400]
  split_ifs with h1 h2 h2
  · push_cast; ring
  · exfalso; apply h2; exact_mod_cast h1
  · exfalso; apply h1; exact_mod_cast h2
  · push_cast; ring

/-- The last six lines of `jdToDate`, on integers. -/
theorem jdToDate_tail (b c : ℤ) :
    (let d := Floor ((4 * (c : α) + 3) / 1461)
     let e := (c : α) - Floor ((1461 * d) / 4)
     let m := Floor ((5 * e + 2) / 153)
     ((e - Floor ((153 * m + 2) / 5) + 1, m + 3 - 12 * Floor (m / 10),
        (b : α) * 100 + d - 4800 + Floor (m / 10)) : α × α × α))
    = (let d := (4 * c + 3) / 1461
       let e := c - (1461 * d) / 4
       let m := (5 * e + 2) / 153
       (((e - (153 * m + 2) / 5 + 1 : ℤ) : α), ((m + 3 - 12 * (m / 10) : ℤ) : α),
        ((b * 100 + d - 4800 + m / 10 : ℤ) : α))) := by
  have hd : Floor ((4 * (c : α) + 3) / 1461) = (((4 * c + 3) / 1461 : ℤ) : α) := by
    have := Floor_div_int (4 * (c : α) + 3) (4 * c + 3) 1461 (by norm_num) (by push_cast; ring)
    simpa using this
  simp only [hd]
  generalize (4 * c + 3) / 1461 = d
  have he : Floor ((1461 * (d : α)) / 4) = (((1461 * d) / 4 : ℤ) : α) := by
    have := Floor_div_int (1461 * (d : α)) (1461 * d) 4 (by norm_num) (by push_cast; ring)
    simpa using this
  have he' : (c : α) - Floor ((1461 * (d : α)) / 4) = ((c - (1461 * d) / 4 : ℤ) : α) := by
    rw [he]; push_cast; ring
  simp only [he']
  generalize c - (1461 * d) / 4 = e
  have hm : Floor ((5 * (e : α) + 2) / 153) = (((5 * e + 2) / 153 : ℤ) : α) := by
    have := Floor_div_int (5 * (e : α) + 2) (5 * e + 2) 153 (by norm_num) (by push_cast; ring)
    simpa using this
  simp only [hm]
  generalize (5 * e + 2) / 153 = m
  have h5 : Floor ((153 * (m : α) + 2) / 5) = (((153 * m + 2) / 5 : ℤ) : α) := by
    have := Floor_div_int (153 * (m : α) + 2) (153 * m + 2) 5 (by norm_num) (by push_cast; ring)
    simpa using this
  have h10 : Floor ((m : α) / 10) = ((m / 10 : ℤ) : α) := by
    have := Floor_div_int (m : α) m 10 (by norm_num) rfl
    simpa using this
  simp only [h5, h10]
  push_cast
  rfl

theorem jdToDate_intCast (x : ℤ) :
    jdToDate (x : α) = (((jdToDateZ x).1 : α), ((jdToDateZ x).2.1 : α), ((jdToDateZ x).2.2 : α)) := by
  by_cases hx : x > 2299160
  · have hx' : (x : α) > 2299160 := by exact_mod_cast hx
    have hb : Floor ((4 * ((x : α) + 32044) + 3) / 146097)
        = (((4 * (x + 32044) + 3) / 146097 : ℤ) : α) := by
      have := Floor_div_int (4 * ((x : α) + 32044) + 3) (4 * (x + 32044) + 3) 146097
        (by norm_num) (by push_cast; ring)
      simpa using this
    simp only [jdToDate, jdToDateZ, if_pos hx, if_pos hx', hb]
    generalize (4 * (x + 32044) + 3) / 146097 = b
    have hc : Floor (((b : α) * 146097) / 4) = (((b * 146097) / 4 : ℤ) : α) := by
      have := Floor_div_int ((b : α) * 146097) (b * 146097) 4 (by norm_num) (by push_cast; ring)
      simpa using this
    have hc' : (x : α) + 32044 - Floor (((b : α) * 146097) / 4)
        = ((x + 32044 - (b * 146097) / 4 : ℤ) : α) := by
      rw [hc]; push_cast; ring
    rw [hc']
    exact jdToDate_tail b _
  · have hx' : ¬ (x : α) > 2299160 := by
      intro h; apply hx; exact_mod_cast h
    simp only [jdToDate, jdToDateZ, if_neg hx, if_neg hx']
    have := jdToDate_tail (α := α) 0 (x + 32082)
    simpa using this

/-- C2. For every integral Julian day number `x`, feeding the date `jdToDate x` back into
`jdFromDate` gives `x` again, on either side of the cutover 2299161. -/
theorem C2_jdFromDate_jdToDate (x : ℤ) :
    jdFromDate (jdToDate (x : α)).1 (jdToDate (x : α)).2.1 (jdToDate (x : α)).2.2 = (x : α) := by
  rw [jdToDate_intCast]
  simp only
  rw [jdFromDate_intCast, jdFromDateZ_jdToDateZ]

/-- C1 (amended). For integers `day`, `month`, `year` with `month` in 1..12 and `day` within
the month's length, other than the ten skipped dates 5..14 October 1582,
`jdToDate (jdFromDate day month year)` is `(day, month, year)`. -/
theorem C1_jdToDate_jdFromDate (dd mm yy : ℤ) (hm1 : 1 ≤ mm) (hm2 : mm ≤ 12) (hd1 : 1 ≤ dd)
    (hd2 : dd ≤ monthLength mm yy)
    (hgap : ¬ (yy = 1582 ∧ mm = 10 ∧ 5 ≤ dd ∧ dd ≤ 14)) :
    jdToDate (jdFromDate (dd : α) (mm : α) (yy : α)) = ((dd : α), (mm : α), (yy : α)) := by
  rw [jdFromDate_intCast, jdToDate_intCast, jdToDateZ_jdFromDateZ dd mm yy hm1 hm2 hd1 hd2 hgap]

/-- Witness for C1 (amended): 15 October 1582, the first day after the skipped dates. -/
theorem C1_jdToDate_jdFromDate_witness :
    (1 : ℤ) ≤ 10 ∧ (10 : ℤ) ≤ 12 ∧ (1 : ℤ) ≤ 15 ∧ (15 : ℤ) ≤ monthLength 10 1582 ∧
    ¬ ((1582 : ℤ) = 1582 ∧ (10 : ℤ) = 10 ∧ (5 : ℤ) ≤ 15 ∧ (15 : ℤ) ≤ 14) ∧
    jdToDate (jdFromDate (((15 : ℤ) : ℚ)) ((10 : ℤ) : ℚ) ((1582 : ℤ) : ℚ))
      = (((15 : ℤ) : ℚ), ((10 : ℤ) : ℚ), ((1582 : ℤ) : ℚ)) :=
  ⟨by decide, by decide, by decide, by decide, by decide,
    C1_jdToDate_jdFromDate 15 10 1582 (by decide) (by decide) (by decide) (by decide) (by decide)⟩

/-- C1 as stated fails at 10 October 1582: the day is within October's 31 days, but the
round trip returns 20 October 1582. -/
theorem C1_counterexample :
    (1 : ℤ) ≤ 10 ∧ (10 : ℤ) ≤ 12 ∧ (1 : ℤ) ≤ 10 ∧ (10 : ℤ) ≤ monthLength 10 1582 ∧
    jdToDate (jdFromDate (((10 : ℤ) : ℝ)) ((10 : ℤ) : ℝ) ((1582 : ℤ) : ℝ))
      = (((20 : ℤ) : ℝ), ((10 : ℤ) : ℝ), ((1582 : ℤ) : ℝ)) ∧
    jdToDate (jdFromDate (((10 : ℤ) : ℝ)) ((10 : ℤ) : ℝ) ((1582 : ℤ) : ℝ))
      ≠ (((10 : ℤ) : ℝ), ((10 : ℤ) : ℝ), ((1582 : ℤ) : ℝ)) := by
  have h : jdToDate (jdFromDate (((10 : ℤ) : ℝ)) ((10 : ℤ) : ℝ) ((1582 : ℤ) : ℝ))
      = (((20 : ℤ) : ℝ), ((10 : ℤ) : ℝ), ((1582 : ℤ) : ℝ)) := by
    rw [jdFromDate_intCast, jdToDate_intCast]
    have : jdToDateZ (jdFromDateZ 10 10 1582) = (20, 10, 1582) := by decide
    rw [this]
  refine ⟨by decide, by decide, by decide, by decide, h, ?_⟩
  rw [h]
  intro hc
  have := congrArg Prod.fst hc
  norm_num at this

end Bridge

/-! ### Enclosures of the real sine -/

open Complex in
theorem sin_taylor_im (x : ℝ) (n : ℕ) (hx : |x| / (n.succ : ℝ) ≤ 1 / 2) :
    |Real.sin x - (∑ m ∈ Finset.range n, ((x : ℂ) * I) ^ m / (m.factorial : ℂ)).im|
      ≤ |x| ^ n / (n.factorial : ℝ) * 2 := by
  have h1 : Complex.abs ((x : ℂ) * I) = |x| := by simp
  have h2 := Complex.exp_bound' (x := (x : ℂ) * I) (n := n) (by rw [h1]; exact hx)
  rw [h1] at h2
  have h3 := Complex.abs_im_le_abs
    (Complex.exp ((x : ℂ) * I) - ∑ m ∈ Finset.range n, ((x : ℂ) * I) ^ m / (m.factorial : ℂ))
  rw [Complex.sub_im, Complex.exp_ofReal_mul_I_im] at h3
  exact le_trans h3 h2

open Complex in
theorem taylor12_im (x : ℝ) :
    (∑ m ∈ Finset.range 12, ((x : ℂ) * I) ^ m / (m.factorial : ℂ)).im
      = x - x ^ 3 / 6 + x ^ 5 / 120 - x ^ 7 / 5040 + x ^ 9 / 362880 - x ^ 11 / 39916800 := by
  have hI2 : I ^ 2 = -1 := I_sq
  have hI3 : I ^ 3 = -I := by rw [pow_succ, hI2]; ring
  have hI4 : I ^ 4 = 1 := by rw [pow_succ, hI3]; ring_nf; rw [hI2]; ring
  have hI5 : I ^ 5 = I := by rw [pow_succ, hI4]; ring
  have hI6 : I ^ 6 = -1 := by rw [pow_succ, hI5]; ring_nf; rw [hI2]
  have hI7 : I ^ 7 = -I := by rw [pow_succ, hI6]; ring
  have hI8 : I ^ 8 = 1 := by rw [pow_succ, hI7]; ring_nf; rw [hI2]; ring
  have hI9 : I ^ 9 = I := by rw [pow_succ, hI8]; ring
  have hI10 : I ^ 10 = -1 := by rw [pow_succ, hI9]; ring_nf; rw [hI2]
  have hI11 : I ^ 11 = -I := by rw [pow_succ, hI10]; ring
  simp only [Finset.sum_range_succ, Finset.sum_range_zero, mul_pow, hI2, hI3, hI4, hI5, hI6, hI7,
    hI8, hI9, hI10, hI11, pow_zero, pow_one, Nat.factorial]
  have hre : ∀ k : ℕ, ((x : ℂ) ^ k).re = x ^ k := fun k => by
    rw [← ofReal_pow]
    exact ofReal_re _
  have him : ∀ k : ℕ, ((x : ℂ) ^ k).im = 0 := fun k => by
    rw [← ofReal_pow]
    exact ofReal_im _
  norm_num
  simp only [hre, him]
  ring

theorem sin_taylor12 (x : ℝ) (hx : |x| ≤ 6) :
    |Real.sin x - (x - x ^ 3 / 6 + x ^ 5 / 120 - x ^ 7 / 5040 + x ^ 9 / 362880 - x ^ 11 / 39916800)|
      ≤ |x| ^ 12 / 239500800 := by
  have h := sin_taylor_im x 12 (by
    rw [div_le_iff₀ (by positivity)]
    norm_num
    linarith)
  rw [taylor12_im] at h
  have e : |x| ^ 12 / ((Nat.factorial 12 : ℕ) : ℝ) * 2 = |x| ^ 12 / 239500800 := by
    norm_num [Nat.factorial]
    ring
  rw [e] at h
  exact h

theorem sin_lipschitz (a b : ℝ) : |Real.sin a - Real.sin b| ≤ |a - b| := by
  rw [Real.sin_sub_sin]
  have h1 : |Real.sin ((a - b) / 2)| ≤ |(a - b) / 2| := Real.abs_sin_le_abs
  have h2 : |Real.cos ((a + b) / 2)| ≤ 1 := Real.abs_cos_le_one _
  rw [abs_mul, abs_mul]
  have h3 : |(a - b) / 2| = |a - b| / 2 := by rw [abs_div]; norm_num
  rw [h3] at h1
  have h0 : (0:ℝ) ≤ |Real.sin ((a - b) / 2)| := abs_nonneg _
  have : |(2:ℝ)| = 2 := by norm_num
  rw [this]
  nlinarith [abs_nonneg (Real.cos ((a + b) / 2))]

/-- a multiple `c * π` lies within `ε` of `y0` as soon as both decimal bounds of `π` give that -/
theorem mul_pi_near (c y0 ε : ℝ) (h1 : |c * 3.141592 - y0| ≤ ε) (h2 : |c * 3.141593 - y0| ≤ ε) :
    |c * Real.pi - y0| ≤ ε := by
  have hp1 := Real.pi_gt_d6
  have hp2 := Real.pi_lt_d6
  rw [abs_le] at h1 h2 ⊢
  rcases le_total 0 c with hc | hc
  · constructor
    · nlinarith
    · nlinarith
  · constructor
    · nlinarith
    · nlinarith

theorem sin_near (y y0 ε δ lo hi : ℝ) (hy : |y - y0| ≤ ε) (hy0 : |y0| ≤ 6)
    (hδ : y0 ^ 12 / 239500800 ≤ δ)
    (hlo : lo ≤ (y0 - y0 ^ 3 / 6 + y0 ^ 5 / 120 - y0 ^ 7 / 5040 + y0 ^ 9 / 362880
      - y0 ^ 11 / 39916800) - ε - δ)
    (hhi : (y0 - y0 ^ 3 / 6 + y0 ^ 5 / 120 - y0 ^ 7 / 5040 + y0 ^ 9 / 362880
      - y0 ^ 11 / 39916800) + ε + δ ≤ hi) :
    lo ≤ Real.sin y ∧ Real.sin y ≤ hi := by
  have h1 := le_trans (sin_lipschitz y y0) hy
  have h12 : |y0| ^ 12 = y0 ^ 12 := by
    rw [← abs_pow]
    exact abs_of_nonneg (by positivity)
  have h2 := le_trans (sin_taylor12 y0 hy0) (h12 ▸ hδ)
  rw [abs_le] at h1 h2
  constructor <;> linarith [h1.1, h1.2, h2.1, h2.2]

theorem mul_pi_near2 (c y0 ε : ℝ) (h1 : y0 - ε ≤ c * (3141592 / 1000000) ∧ c * (3141592 / 1000000) ≤ y0 + ε)
    (h2 : y0 - ε ≤ c * (3141593 / 1000000) ∧ c * (3141593 / 1000000) ≤ y0 + ε) : |c * Real.pi - y0| ≤ ε := by
  have e1 : (3141592 / 1000000 : ℝ) = 3.141592 := by norm_num
  have e2 : (3141593 / 1000000 : ℝ) = 3.141593 := by norm_num
  rw [e1] at h1
  rw [e2] at h2
  apply mul_pi_near
  · rw [abs_le]
    constructor <;> linarith [h1.1, h1.2]
  · rw [abs_le]
    constructor <;> linarith [h2.1, h2.2]

/-- Sine of `A` degrees, `A` near the even multiple `360 n` of a half turn. -/
theorem sin_deg_even (A y0 ε δ lo hi : ℝ) (n : ℤ)
    (h : (y0 - ε ≤ (A / 180 - 2 * n) * (3141592 / 1000000) ∧ (A / 180 - 2 * n) * (3141592 / 1000000) ≤ y0 + ε) ∧
      (y0 - ε ≤ (A / 180 - 2 * n) * (3141593 / 1000000) ∧ (A / 180 - 2 * n) * (3141593 / 1000000) ≤ y0 + ε) ∧
      (-6 ≤ y0 ∧ y0 ≤ 6) ∧ y0 ^ 12 / 239500800 ≤ δ ∧
      lo ≤ (y0 - y0 ^ 3 / 6 + y0 ^ 5 / 120 - y0 ^ 7 / 5040 + y0 ^ 9 / 362880
        - y0 ^ 11 / 39916800) - ε - δ ∧
      (y0 - y0 ^ 3 / 6 + y0 ^ 5 / 120 - y0 ^ 7 / 5040 + y0 ^ 9 / 362880
        - y0 ^ 11 / 39916800) + ε + δ ≤ hi) :
    lo ≤ Real.sin (A * (Real.pi / 180)) ∧ Real.sin (A * (Real.pi / 180)) ≤ hi := by
  obtain ⟨h1, h2, hy0, hδ, hlo, hhi⟩ := h
  have e : A * (Real.pi / 180) = (A / 180 - 2 * n) * Real.pi + n * (2 * Real.pi) := by ring
  rw [e, Real.sin_add_int_mul_two_pi]
  exact sin_near _ y0 ε δ lo hi (mul_pi_near2 (A / 180 - 2 * n) y0 ε h1 h2) (abs_le.2 hy0) hδ
    hlo hhi

/-- Sine of `A` degrees, `A` near the odd multiple `360 n + 180` of a half turn. -/
theorem sin_deg_odd (A y0 ε δ lo hi : ℝ) (n : ℤ)
    (h : (y0 - ε ≤ (A / 180 - 2 * n - 1) * (3141592 / 1000000) ∧ (A / 180 - 2 * n - 1) * (3141592 / 1000000) ≤ y0 + ε) ∧
      (y0 - ε ≤ (A / 180 - 2 * n - 1) * (3141593 / 1000000) ∧ (A / 180 - 2 * n - 1) * (3141593 / 1000000) ≤ y0 + ε) ∧
      (-6 ≤ y0 ∧ y0 ≤ 6) ∧ y0 ^ 12 / 239500800 ≤ δ ∧
      lo ≤ -(y0 - y0 ^ 3 / 6 + y0 ^ 5 / 120 - y0 ^ 7 / 5040 + y0 ^ 9 / 362880
        - y0 ^ 11 / 39916800) - ε - δ ∧
      -(y0 - y0 ^ 3 / 6 + y0 ^ 5 / 120 - y0 ^ 7 / 5040 + y0 ^ 9 / 362880
        - y0 ^ 11 / 39916800) + ε + δ ≤ hi) :
    lo ≤ Real.sin (A * (Real.pi / 180)) ∧ Real.sin (A * (Real.pi / 180)) ≤ hi := by
  obtain ⟨h1, h2, hy0, hδ, hlo, hhi⟩ := h
  have e : A * (Real.pi / 180)
      = ((A / 180 - 2 * n - 1) * Real.pi + Real.pi) + n * (2 * Real.pi) := by ring
  rw [e, Real.sin_add_int_mul_two_pi, Real.sin_add_pi]
  have := sin_near _ y0 ε δ (-hi) (-lo) (mul_pi_near2 (A / 180 - 2 * n - 1) y0 ε h1 h2)
    (abs_le.2 hy0) hδ (by linarith) (by linarith)
  constructor <;> linarith [this.1, this.2]

/-! ### Soundness of the certificates -/

/-- A valid certificate encloses the sine. -/
theorem SinCert.sound (A : ℚ) (c : SinCert) (h : c.ok A = true) :
    (c.lo : ℝ) ≤ Real.sin ((A : ℝ) * (Real.pi / 180)) ∧
      Real.sin ((A : ℝ) * (Real.pi / 180)) ≤ (c.hi : ℝ) := by
  cases c with
  | crude =>
    simp only [SinCert.lo, SinCert.hi]
    push_cast
    exact ⟨Real.neg_one_le_sin _, Real.sin_le_one _⟩
  | even n y0 ε δ lo hi =>
    simp only [SinCert.ok, decide_eq_true_eq, sinPoly] at h
    simp only [SinCert.lo, SinCert.hi]
    obtain ⟨⟨a1, a2⟩, ⟨b1, b2⟩, ⟨c1, c2⟩, d, e, f⟩ := h
    have a1r := (Rat.cast_le (K := ℝ)).2 a1
    have a2r := (Rat.cast_le (K := ℝ)).2 a2
    have b1r := (Rat.cast_le (K := ℝ)).2 b1
    have b2r := (Rat.cast_le (K := ℝ)).2 b2
    have c1r := (Rat.cast_le (K := ℝ)).2 c1
    have c2r := (Rat.cast_le (K := ℝ)).2 c2
    have dr := (Rat.cast_le (K := ℝ)).2 d
    have er := (Rat.cast_le (K := ℝ)).2 e
    have fr := (Rat.cast_le (K := ℝ)).2 f
    push_cast at a1r a2r b1r b2r c1r c2r dr er fr
    exact sin_deg_even (A : ℝ) (y0 : ℝ) (ε : ℝ) (δ : ℝ) (lo : ℝ) (hi : ℝ) n
      ⟨⟨a1r, a2r⟩, ⟨b1r, b2r⟩, ⟨c1r, c2r⟩, dr, er, fr⟩
  | odd n y0 ε δ lo hi =>
    simp only [SinCert.ok, decide_eq_true_eq, sinPoly] at h
    simp only [SinCert.lo, SinCert.hi]
    obtain ⟨⟨a1, a2⟩, ⟨b1, b2⟩, ⟨c1, c2⟩, d, e, f⟩ := h
    have a1r := (Rat.cast_le (K := ℝ)).2 a1
    have a2r := (Rat.cast_le (K := ℝ)).2 a2
    have b1r := (Rat.cast_le (K := ℝ)).2 b1
    have b2r := (Rat.cast_le (K := ℝ)).2 b2
    have c1r := (Rat.cast_le (K := ℝ)).2 c1
    have c2r := (Rat.cast_le (K := ℝ)).2 c2
    have dr := (Rat.cast_le (K := ℝ)).2 d
    have er := (Rat.cast_le (K := ℝ)).2 e
    have fr := (Rat.cast_le (K := ℝ)).2 f
    push_cast at a1r a2r b1r b2r c1r c2r dr er fr
    exact sin_deg_odd (A : ℝ) (y0 : ℝ) (ε : ℝ) (δ : ℝ) (lo : ℝ) (hi : ℝ) n
      ⟨⟨a1r, a2r⟩, ⟨b1r, b2r⟩, ⟨c1r, c2r⟩, dr, er, fr⟩

/-- A term `c * s` lies between the smaller and the larger of `c * lo` and `c * hi`. -/
theorem mul_enclosure (c s lo hi : ℝ) (h1 : lo ≤ s) (h2 : s ≤ hi) :
    min (c * lo) (c * hi) ≤ c * s ∧ c * s ≤ max (c * lo) (c * hi) := by
  rcases le_total 0 c with hc | hc
  · exact ⟨le_trans (min_le_left _ _) (mul_le_mul_of_nonneg_left h1 hc),
      le_trans (mul_le_mul_of_nonneg_left h2 hc) (le_max_right _ _)⟩
  · exact ⟨le_trans (min_le_right _ _) (mul_le_mul_of_nonpos_left h2 hc),
      le_trans (mul_le_mul_of_nonpos_left h1 hc) (le_max_left _ _)⟩

/-- Valid certificates enclose the whole sum of sine terms. -/
theorem sineSum_enclosure (ts : List (ℚ × ℚ)) (cs : List SinCert) (h : certsOk ts cs = true) :
    ((sumLo ts cs : ℚ) : ℝ) ≤ sineSum realTrig (castTerms ts) ∧
      sineSum realTrig (castTerms ts) ≤ ((sumHi ts cs : ℚ) : ℝ) := by
  induction ts generalizing cs with
  | nil =>
    cases cs with
    | nil => simp [sumLo, sumHi, sineSum, castTerms]
    | cons c cs => simp [certsOk] at h
  | cons t ts ih =>
    cases cs with
    | nil => simp [certsOk] at h
    | cons c cs =>
      simp only [certsOk, Bool.and_eq_true] at h
      obtain ⟨hc, hrest⟩ := h
      obtain ⟨i1, i2⟩ := ih cs hrest
      obtain ⟨s1, s2⟩ := SinCert.sound t.2 c hc
      obtain ⟨m1, m2⟩ := mul_enclosure (t.1 : ℝ) _ _ _ s1 s2
      have e : sineSum realTrig (castTerms (t :: ts))
          = (t.1 : ℝ) * Real.sin ((t.2 : ℝ) * (Real.pi / 180))
            + sineSum realTrig (castTerms ts) := by
        simp [sineSum, castTerms, realTrig]
      rw [e]
      simp only [sumLo, sumHi]
      push_cast
      constructor <;> linarith

/-! ### Canonical forms -/

section Canon

variable {α : Type} [LinearOrderedField α] [FloorRing α]

theorem NewMoon_eq (tg : Trig α) (k : α) :
    NewMoon tg k = nmBase k + sineSum tg (nmTerms k) := by
  have e1 : ∀ x : α, 2 * (tg.pi / 180) * x = 2 * x * (tg.pi / 180) := fun x => by ring
  have e2 : ∀ x : α, tg.pi / 180 * 2 * x = 2 * x * (tg.pi / 180) := fun x => by ring
  have e3 : ∀ x : α, tg.pi / 180 * 3 * x = 3 * x * (tg.pi / 180) := fun x => by ring
  have e4 : ∀ x : α, tg.pi / 180 * x = x * (tg.pi / 180) := fun x => by ring
  simp only [NewMoon, nmBase, nmTerms, sineSum, nmArg0, nmM, nmMpr, nmF, nmT, e1, e2, e3, e4,
    List.map_cons, List.map_nil, List.sum_cons, List.sum_nil]
  ring_nf

theorem SunLongitude_eq (tg : Trig α) (jdn : α) :
    SunLongitude tg jdn = sunDeg tg jdn * (tg.pi / 180)
      - tg.pi * 2 * Floor (sunDeg tg jdn * (tg.pi / 180) / (tg.pi * 2)) := by
  have e1 : ∀ x : α, 2 * (tg.pi / 180) * x = 2 * x * (tg.pi / 180) := fun x => by ring
  have e2 : ∀ x : α, 3 * (tg.pi / 180) * x = 3 * x * (tg.pi / 180) := fun x => by ring
  have e4 : ∀ x : α, tg.pi / 180 * x = x * (tg.pi / 180) := fun x => by ring
  have hd : sunDeg tg jdn = slBase jdn
      + ((1.914600 - 0.004817 * slT jdn - 0.000014 * (slT jdn * slT jdn))
          * tg.sin (tg.pi / 180 * slM jdn)
        + (0.019993 - 0.000101 * slT jdn) * tg.sin (tg.pi / 180 * 2 * slM jdn)
        + 0.000290 * tg.sin (tg.pi / 180 * 3 * slM jdn)) := by
    simp only [sunDeg, slTerms, sineSum, List.map_cons, List.map_nil, List.sum_cons,
      List.sum_nil, e1, e2, e4]
    ring
  rw [hd]
  rfl

theorem Floor_eq (x : α) (n : ℤ) (h1 : (n : α) ≤ x) (h2 : x < (n : α) + 1) : Floor x = (n : α) := by
  unfold Floor
  congr 1
  rw [Int.floor_eq_iff]
  exact ⟨h1, h2⟩

/-- Value of `getSunLongitude` is `j` when the longitude in degrees lies in the `j`-th sector of
thirty degrees of some turn `n`. -/
theorem getSunLongitude_eq_of_deg (tg : Trig α) (hpi : 0 < tg.pi) (day tz : α) (n j : ℤ)
    (h1 : 360 * (n : α) + 30 * (j : α) ≤ sunDeg tg (day - 0.5 - tz / 24))
    (h2 : sunDeg tg (day - 0.5 - tz / 24) < 360 * (n : α) + 30 * ((j : α) + 1))
    (hj0 : 0 ≤ j) (hj1 : j ≤ 11) : getSunLongitude tg day tz = (j : α) := by
  have hj0' : (0 : α) ≤ (j : α) := by exact_mod_cast hj0
  have hj1' : (j : α) ≤ 11 := by exact_mod_cast hj1
  unfold getSunLongitude
  rw [SunLongitude_eq]
  generalize sunDeg tg (day - 0.5 - tz / 24) = L at h1 h2
  have e : L * (tg.pi / 180) / (tg.pi * 2) = L / 360 := by
    field_simp
    ring
  have hn : Floor (L * (tg.pi / 180) / (tg.pi * 2)) = (n : α) := by
    rw [e]
    apply Floor_eq
    · rw [le_div_iff₀ (by norm_num)]
      linarith
    · rw [div_lt_iff₀ (by norm_num)]
      linarith
  rw [hn]
  have e2 : (L * (tg.pi / 180) - tg.pi * 2 * (n : α)) / tg.pi * 6 = (L - 360 * (n : α)) / 30 := by
    field_simp
    ring
  rw [e2]
  apply Floor_eq
  · rw [le_div_iff₀ (by norm_num)]
    linarith
  · rw [div_lt_iff₀ (by norm_num)]
    linarith

theorem getNewMoonDay_eq (tg : Trig α) (k tz : α) (n : ℤ)
    (h1 : (n : α) ≤ NewMoon tg k + 0.5 + tz / 24) (h2 : NewMoon tg k + 0.5 + tz / 24 < (n : α) + 1) :
    getNewMoonDay tg k tz = (n : α) := by
  unfold getNewMoonDay
  exact Floor_eq _ n h1 h2

end Canon

/-! ### From rational certificates to the real functions -/

theorem nmT_cast (q : ℚ) : ((nmT q : ℚ) : ℝ) = nmT (q : ℝ) := by
  simp only [nmT]
  push_cast
  norm_num

theorem nmBase_cast (q : ℚ) : ((nmBase q : ℚ) : ℝ) = nmBase (q : ℝ) := by
  have hT := nmT_cast q
  have hc : (nmT q < -11) ↔ (nmT (q : ℝ) < -11) := by
    rw [← hT]
    have : ((-11 : ℚ) : ℝ) = -11 := by norm_num
    rw [← this, Rat.cast_lt]
  unfold nmBase
  by_cases h : nmT q < -11
  · rw [if_pos h, if_pos (hc.1 h)]
    push_cast
    rw [hT]
  · rw [if_neg h, if_neg (fun h' => h (hc.2 h'))]
    push_cast
    rw [hT]

theorem nmTerms_cast (q : ℚ) : castTerms (nmTerms q) = nmTerms (q : ℝ) := by
  have hT := nmT_cast q
  simp only [nmTerms, castTerms, nmArg0, nmM, nmMpr, nmF, List.map_cons, List.map_nil]
  push_cast
  rw [hT]

theorem slT_cast (q : ℚ) : ((slT q : ℚ) : ℝ) = slT (q : ℝ) := by
  simp only [slT]
  push_cast
  norm_num

theorem slBase_cast (q : ℚ) : ((slBase q : ℚ) : ℝ) = slBase (q : ℝ) := by
  have hT := slT_cast q
  simp only [slBase]
  push_cast
  rw [hT]

theorem slTerms_cast (q : ℚ) : castTerms (slTerms q) = slTerms (q : ℝ) := by
  have hT := slT_cast q
  simp only [slTerms, castTerms, slM, List.map_cons, List.map_nil]
  push_cast
  rw [hT]

/-- A checked certificate list evaluates `getNewMoonDay` with the real sine. -/
theorem getNewMoonDay_cert (k tz n : ℤ) (cs : List SinCert) (h : nmCheck k tz n cs = true) :
    getNewMoonDay realTrig (k : ℝ) (tz : ℝ) = (n : ℝ) := by
  simp only [nmCheck, Bool.and_eq_true, decide_eq_true_eq] at h
  obtain ⟨⟨hok, hlo⟩, hhi⟩ := h
  obtain ⟨s1, s2⟩ := sineSum_enclosure _ _ hok
  rw [nmTerms_cast] at s1 s2
  have hlo' := (Rat.cast_le (K := ℝ)).2 hlo
  have hhi' := (Rat.cast_lt (K := ℝ)).2 hhi
  push_cast at hlo' hhi'
  rw [nmBase_cast] at hlo' hhi'
  have ek : (((k : ℤ) : ℚ) : ℝ) = (k : ℝ) := by norm_cast
  rw [ek] at s1 s2 hlo' hhi'
  apply getNewMoonDay_eq realTrig _ _ n
  · rw [NewMoon_eq]
    norm_num at hlo' ⊢
    linarith
  · rw [NewMoon_eq]
    norm_num at hhi' ⊢
    linarith

/-- A checked certificate list evaluates `getSunLongitude` with the real sine. -/
theorem getSunLongitude_cert (day tz j n : ℤ) (cs : List SinCert)
    (h : slCheck day tz j n cs = true) :
    getSunLongitude realTrig (day : ℝ) (tz : ℝ) = (j : ℝ) := by
  simp only [slCheck, Bool.and_eq_true, decide_eq_true_eq] at h
  obtain ⟨⟨⟨hok, hj⟩, hlo⟩, hhi⟩ := h
  obtain ⟨s1, s2⟩ := sineSum_enclosure _ _ hok
  rw [slTerms_cast] at s1 s2
  have hlo' := (Rat.cast_le (K := ℝ)).2 hlo
  have hhi' := (Rat.cast_lt (K := ℝ)).2 hhi
  push_cast at hlo' hhi'
  rw [slBase_cast] at hlo' hhi'
  have eq : (((day : ℚ) - 0.5 - (tz : ℚ) / 24 : ℚ) : ℝ) = (day : ℝ) - 0.5 - (tz : ℝ) / 24 := by
    push_cast
    norm_num
  rw [eq] at s1 s2 hlo' hhi'
  refine getSunLongitude_eq_of_deg realTrig Real.pi_pos _ _ n j ?_ ?_ hj.1 hj.2
  · unfold sunDeg
    linarith
  · unfold sunDeg
    linarith

/-! ### Soundness of the table-driven evaluation -/

section EvalSound

variable {α : Type} [LinearOrderedField α] [FloorRing α]

theorem Floor_ratCast (q : ℚ) : Floor ((q : ℚ) : α) = ((⌊q⌋ : ℤ) : α) := by
  unfold Floor
  rw [Rat.floor_cast]

theorem kOfYear_spec (yy : ℤ) :
    Floor ((jdFromDate 31 12 (yy : α) - 2415021) / 29.530588853) = ((kOfYear yy : ℤ) : α) := by
  have h := jdFromDate_intCast (α := α) 31 12 yy
  simp only [Int.cast_ofNat] at h
  rw [h]
  unfold kOfYear
  rw [← Floor_ratCast]
  congr 1
  push_cast
  norm_num

theorem kOfDay_spec (d : ℤ) :
    Floor (((d : α) - 2415021.076998695) / 29.530588853) = ((kOfDay d : ℤ) : α) := by
  unfold kOfDay
  rw [← Floor_ratCast]
  congr 1
  push_cast
  norm_num

theorem kOfAnchor_spec (a : ℤ) :
    Floor (((a : α) - 2415021.076998695) / 29.530588853 + 0.5) = ((kOfAnchor a : ℤ) : α) := by
  unfold kOfAnchor
  rw [← Floor_ratCast]
  congr 1
  push_cast
  norm_num

theorem kOfAnchor_spec2 (a : ℤ) :
    Floor (0.5 + ((a : α) - 2415021.076998695) / 29.530588853) = ((kOfAnchor a : ℤ) : α) := by
  rw [add_comm]
  exact kOfAnchor_spec a

theorem getLunarMonth11P_sound (tg : Trig α) (tz : ℤ) (nmL slL : ℤ → Option ℤ)
    (hL : LookupsSound tg tz nmL slL) (yy r : ℤ) (h : getLunarMonth11P nmL slL yy = some r) :
    getLunarMonth11 tg (yy : α) (tz : α) = (r : α) := by
  obtain ⟨hN, hS⟩ := hL
  simp only [getLunarMonth11P, Option.bind_eq_bind, Option.bind_eq_some, Option.pure_def] at h
  obtain ⟨nm, h1, sl, h2, h3⟩ := h
  simp only [getLunarMonth11]
  rw [kOfYear_spec, hN _ _ h1, hS _ _ h2]
  by_cases hc : sl ≥ 9
  · rw [if_pos hc] at h3
    have hc' : (sl : α) ≥ 9 := by exact_mod_cast hc
    rw [if_pos hc']
    have := hN _ _ h3
    push_cast at this
    exact this
  · rw [if_neg hc] at h3
    have hc' : ¬ (sl : α) ≥ 9 := by
      intro h'
      apply hc
      exact_mod_cast h'
    rw [if_neg hc']
    simp only [Option.some.injEq] at h3
    rw [h3]

theorem leapScanP_sound (arcAt : ℕ → α) (arcP : ℕ → Option ℤ)
    (hA : ∀ j a, arcP j = some a → arcAt j = (a : α)) :
    ∀ (fuel i : ℕ) (last : ℤ) (r : ℕ), leapScanP arcP fuel i last = some r →
      leapScan arcAt i (last : α) = r := by
  intro fuel
  induction fuel with
  | zero =>
    intro i last r h
    simp [leapScanP] at h
  | succ fuel ih =>
    intro i last r h
    simp only [leapScanP, Option.bind_eq_bind, Option.bind_eq_some, Option.pure_def] at h
    obtain ⟨arc, h1, h2⟩ := h
    rw [leapScan, hA _ _ h1]
    by_cases hc : arc ≠ last ∧ i + 1 < 14
    · rw [if_pos hc] at h2
      have hc' : (arc : α) ≠ (last : α) ∧ i + 1 < 14 :=
        ⟨fun h' => hc.1 (Int.cast_injective h'), hc.2⟩
      rw [if_pos hc']
      exact ih _ _ _ h2
    · rw [if_neg hc] at h2
      have hc' : ¬ ((arc : α) ≠ (last : α) ∧ i + 1 < 14) := by
        intro h'
        exact hc ⟨fun e => h'.1 (by rw [e]), h'.2⟩
      rw [if_neg hc']
      simp only [Option.some.injEq] at h2
      exact h2

theorem getLeapMonthOffsetP_sound (tg : Trig α) (tz : ℤ) (nmL slL : ℤ → Option ℤ)
    (hL : LookupsSound tg tz nmL slL) (a11 L : ℤ)
    (h : getLeapMonthOffsetP nmL slL a11 = some L) :
    getLeapMonthOffset tg (a11 : α) (tz : α) = (L : α) := by
  obtain ⟨hN, hS⟩ := hL
  simp only [getLeapMonthOffsetP, Option.bind_eq_bind, Option.bind_eq_some, Option.pure_def,
    Option.some.injEq] at h
  obtain ⟨first, ⟨n1, hn1, hs1⟩, i, hi, hLi⟩ := h
  have hA : ∀ (j : ℕ) (a : ℤ), (nmL (kOfAnchor a11 + (j : ℤ))).bind slL = some a →
      getSunLongitude tg (getNewMoonDay tg (((kOfAnchor a11 : ℤ) : α) + (j : α)) (tz : α)) (tz : α)
        = (a : α) := by
    intro j a hja
    simp only [Option.bind_eq_some] at hja
    obtain ⟨n, hn, hs⟩ := hja
    have := hN _ _ hn
    push_cast at this
    rw [this]
    exact hS _ _ hs
  simp only [getLeapMonthOffset]
  rw [kOfAnchor_spec]
  have h1 := hA 1 first (by simp only [Option.bind_eq_some]; exact ⟨n1, hn1, hs1⟩)
  rw [h1]
  have := leapScanP_sound
    (fun j : ℕ => getSunLongitude tg
      (getNewMoonDay tg (((kOfAnchor a11 : ℤ) : α) + (j : α)) (tz : α)) (tz : α))
    (fun j : ℕ => (nmL (kOfAnchor a11 + (j : ℤ))).bind slL) hA 14 1 first i hi
  rw [this, ← hLi]
  push_cast
  ring

theorem solarAnchorsP_sound (tg : Trig α) (tz : ℤ) (nmL slL : ℤ → Option ℤ)
    (hL : LookupsSound tg tz nmL slL) (dd mm yy : ℤ) (s : ℤ × ℤ × ℤ × ℤ × ℤ)
    (h : solarAnchorsP nmL slL dd mm yy = some s) :
    solarAnchors tg (dd : α) (mm : α) (yy : α) (tz : α)
      = ((s.1 : α), (s.2.1 : α), (s.2.2.1 : α), (s.2.2.2.1 : α), (s.2.2.2.2 : α)) := by
  have hN := hL.1
  simp only [solarAnchorsP, Option.bind_eq_bind, Option.bind_eq_some, Option.pure_def] at h
  obtain ⟨ms1, h1, ms, h2, a11, h3, h4⟩ := h
  have e1 := hN _ _ h1
  push_cast at e1
  have ems : (if (ms1 : α) > ((jdFromDateZ dd mm yy : ℤ) : α)
      then getNewMoonDay tg ((kOfDay (jdFromDateZ dd mm yy) : ℤ) : α) (tz : α) else (ms1 : α))
      = (ms : α) := by
    by_cases hc : ms1 > jdFromDateZ dd mm yy
    · rw [if_pos hc] at h2
      rw [if_pos (by exact_mod_cast hc)]
      exact hN _ _ h2
    · rw [if_neg hc] at h2
      rw [if_neg (by intro h'; apply hc; exact_mod_cast h')]
      simp only [Option.some.injEq] at h2
      rw [h2]
  have ea := getLunarMonth11P_sound tg tz nmL slL hL yy a11 h3
  simp only [solarAnchors]
  rw [jdFromDate_intCast, kOfDay_spec, e1, ems, ea]
  by_cases hc : a11 ≥ ms
  · rw [if_pos hc] at h4
    simp only [Option.bind_eq_some, Option.some.injEq] at h4
    obtain ⟨a, ha, hs⟩ := h4
    rw [if_pos (by exact_mod_cast hc)]
    have eb := getLunarMonth11P_sound tg tz nmL slL hL (yy - 1) a ha
    push_cast at eb
    rw [eb, ← hs]
  · rw [if_neg hc] at h4
    simp only [Option.bind_eq_some, Option.some.injEq] at h4
    obtain ⟨b, hb, hs⟩ := h4
    rw [if_neg (by intro h'; apply hc; exact_mod_cast h')]
    have eb := getLunarMonth11P_sound tg tz nmL slL hL (yy + 1) b hb
    push_cast at eb
    rw [eb, ← hs]
    push_cast
    rfl

theorem convertSolar2LunarP_sound (tg : Trig α) (tz : ℤ) (nmL slL : ℤ → Option ℤ)
    (hL : LookupsSound tg tz nmL slL) (dd mm yy : ℤ) (r : ℤ × ℤ × ℤ × ℤ)
    (h : convertSolar2LunarP nmL slL dd mm yy = some r) :
    convertSolar2Lunar tg (dd : α) (mm : α) (yy : α) (tz : α)
      = ((r.1 : α), (r.2.1 : α), (r.2.2.1 : α), (r.2.2.2 : α)) := by
  simp only [convertSolar2LunarP, Option.bind_eq_bind, Option.bind_eq_some, Option.pure_def,
    Option.some.injEq] at h
  obtain ⟨s, hs, ml, hml, hr⟩ := h
  obtain ⟨dayNumber, monthStart, a11, b11, lunarYear⟩ := s
  have es := solarAnchorsP_sound tg tz nmL slL hL dd mm yy _ hs
  simp only at es hml hr
  have hdiff : Floor (((monthStart : α) - (a11 : α)) / 29) = (((monthStart - a11) / 29 : ℤ) : α) := by
    have := Floor_div_int ((monthStart : α) - (a11 : α)) (monthStart - a11) 29 (by norm_num)
      (by push_cast; ring)
    simpa using this
  have hml' : (if (b11 : α) - (a11 : α) > 365 then
        if (((monthStart - a11) / 29 : ℤ) : α) ≥ getLeapMonthOffset tg (a11 : α) (tz : α) then
          ((((monthStart - a11) / 29 : ℤ) : α) + 10,
            if (((monthStart - a11) / 29 : ℤ) : α) = getLeapMonthOffset tg (a11 : α) (tz : α)
              then (1 : α) else 0)
        else ((((monthStart - a11) / 29 : ℤ) : α) + 11, 0)
      else ((((monthStart - a11) / 29 : ℤ) : α) + 11, 0)) = ((ml.1 : α), (ml.2 : α)) := by
    by_cases hc : b11 - a11 > 365
    · rw [if_pos hc] at hml
      rw [if_pos (by exact_mod_cast hc)]
      simp only [Option.bind_eq_some] at hml
      obtain ⟨L, hLo, hml⟩ := hml
      rw [getLeapMonthOffsetP_sound tg tz nmL slL hL a11 L hLo]
      by_cases hd : (monthStart - a11) / 29 ≥ L
      · rw [if_pos hd] at hml
        rw [if_pos (by exact_mod_cast hd)]
        simp only [Option.some.injEq] at hml
        rw [← hml]
        by_cases he : (monthStart - a11) / 29 = L
        · rw [if_pos he, if_pos (by exact_mod_cast he)]
          push_cast
          rfl
        · rw [if_neg he, if_neg (by intro h'; apply he; exact_mod_cast h')]
          push_cast
          rfl
      · rw [if_neg hd] at hml
        rw [if_neg (by intro h'; apply hd; exact_mod_cast h')]
        simp only [Option.some.injEq] at hml
        rw [← hml]
        push_cast
        rfl
    · rw [if_neg hc] at hml
      rw [if_neg (by intro h'; apply hc; exact_mod_cast h')]
      simp only [Option.some.injEq] at hml
      rw [← hml]
      push_cast
      rfl
  simp only [convertSolar2Lunar]
  rw [es]
  simp only
  rw [hdiff, hml']
  simp only
  rw [← hr]
  simp only
  have hmonth : (if (ml.1 : α) > 12 then (ml.1 : α) - 12 else (ml.1 : α))
      = ((if ml.1 > 12 then ml.1 - 12 else ml.1 : ℤ) : α) := by
    by_cases hc : ml.1 > 12
    · rw [if_pos hc, if_pos (by exact_mod_cast hc)]
      push_cast
      rfl
    · rw [if_neg hc, if_neg (by intro h'; apply hc; exact_mod_cast h')]
  rw [hmonth]
  have hyear : (if ((if ml.1 > 12 then ml.1 - 12 else ml.1 : ℤ) : α) ≥ 11
        ∧ (((monthStart - a11) / 29 : ℤ) : α) < 4 then (lunarYear : α) - 1 else (lunarYear : α))
      = ((if (if ml.1 > 12 then ml.1 - 12 else ml.1) ≥ 11 ∧ (monthStart - a11) / 29 < 4
          then lunarYear - 1 else lunarYear : ℤ) : α) := by
    by_cases hc : (if ml.1 > 12 then ml.1 - 12 else ml.1) ≥ 11 ∧ (monthStart - a11) / 29 < 4
    · rw [if_pos hc, if_pos (by exact_mod_cast hc)]
      push_cast
      rfl
    · rw [if_neg hc, if_neg (by intro h'; apply hc; exact_mod_cast h')]
  rw [hyear]
  push_cast
  rfl

theorem lunarAnchorsP_sound (tg : Trig α) (tz : ℤ) (nmL slL : ℤ → Option ℤ)
    (hL : LookupsSound tg tz nmL slL) (lunarMonth lunarYear : ℤ) (ab : ℤ × ℤ)
    (h : lunarAnchorsP nmL slL lunarMonth lunarYear = some ab) :
    lunarAnchors tg (lunarMonth : α) (lunarYear : α) (tz : α) = ((ab.1 : α), (ab.2 : α)) := by
  simp only [lunarAnchorsP] at h
  simp only [lunarAnchors]
  by_cases hc : lunarMonth < 11
  · rw [if_pos hc] at h
    rw [if_pos (by exact_mod_cast hc)]
    simp only [Option.bind_eq_bind, Option.bind_eq_some, Option.pure_def, Option.some.injEq] at h
    obtain ⟨a, ha, b, hb, hab⟩ := h
    have ea := getLunarMonth11P_sound tg tz nmL slL hL _ a ha
    have eb := getLunarMonth11P_sound tg tz nmL slL hL _ b hb
    push_cast at ea
    rw [ea, eb, ← hab]
  · rw [if_neg hc] at h
    rw [if_neg (by intro h'; apply hc; exact_mod_cast h')]
    simp only [Option.bind_eq_bind, Option.bind_eq_some, Option.pure_def, Option.some.injEq] at h
    obtain ⟨a, ha, b, hb, hab⟩ := h
    have ea := getLunarMonth11P_sound tg tz nmL slL hL _ a ha
    have eb := getLunarMonth11P_sound tg tz nmL slL hL _ b hb
    push_cast at eb
    rw [ea, eb, ← hab]

theorem leapMonthOf_intCast (L : ℤ) :
    leapMonthOf (L : α) = ((if L - 2 < 0 then L - 2 + 12 else L - 2 : ℤ) : α) := by
  unfold leapMonthOf
  by_cases hc : L - 2 < 0
  · rw [if_pos hc, if_pos (by exact_mod_cast hc)]
    push_cast
    rfl
  · rw [if_neg hc, if_neg (by intro h'; apply hc; exact_mod_cast h')]
    push_cast
    rfl

theorem convertLunar2SolarP_sound (tg : Trig α) (tz : ℤ) (nmL slL : ℤ → Option ℤ)
    (hL : LookupsSound tg tz nmL slL) (lunarDay lunarMonth lunarYear lunarLeap : ℤ)
    (r : ℤ × ℤ × ℤ)
    (h : convertLunar2SolarP nmL slL lunarDay lunarMonth lunarYear lunarLeap = some r) :
    convertLunar2Solar tg (lunarDay : α) (lunarMonth : α) (lunarYear : α) (lunarLeap : α) (tz : α)
      = ((r.1 : α), (r.2.1 : α), (r.2.2 : α)) := by
  have hN := hL.1
  simp only [convertLunar2SolarP, Option.bind_eq_bind, Option.bind_eq_some, Option.pure_def] at h
  obtain ⟨ab, hab, h⟩ := h
  obtain ⟨a11, b11⟩ := ab
  have eab := lunarAnchorsP_sound tg tz nmL slL hL _ _ _ hab
  simp only at eab h
  have hoff : (if (lunarMonth : α) - 11 < 0 then (lunarMonth : α) - 11 + 12
      else (lunarMonth : α) - 11)
      = ((if lunarMonth - 11 < 0 then lunarMonth - 11 + 12 else lunarMonth - 11 : ℤ) : α) := by
    by_cases hc : lunarMonth - 11 < 0
    · rw [if_pos hc, if_pos (by exact_mod_cast hc)]
      push_cast
      rfl
    · rw [if_neg hc, if_neg (by intro h'; apply hc; exact_mod_cast h')]
      push_cast
      rfl
  have hdate : ∀ (k ms : ℤ), nmL k = some ms →
      jdToDate (getNewMoonDay tg (k : α) (tz : α) + (lunarDay : α) - 1)
        = (((jdToDateZ (ms + lunarDay - 1)).1 : α), ((jdToDateZ (ms + lunarDay - 1)).2.1 : α),
          ((jdToDateZ (ms + lunarDay - 1)).2.2 : α)) := by
    intro k ms hk
    rw [hN _ _ hk, ← jdToDate_intCast]
    congr 1
    push_cast
    ring
  simp only [convertLunar2Solar]
  rw [eab]
  simp only
  rw [kOfAnchor_spec2, hoff]
  generalize (if lunarMonth - 11 < 0 then lunarMonth - 11 + 12 else lunarMonth - 11) = off at h ⊢
  by_cases hc : b11 - a11 > 365
  · rw [if_pos hc] at h
    rw [if_pos (by exact_mod_cast hc)]
    simp only [Option.bind_eq_some] at h
    obtain ⟨L, hLo, h⟩ := h
    rw [getLeapMonthOffsetP_sound tg tz nmL slL hL a11 L hLo, leapMonthOf_intCast]
    generalize (if L - 2 < 0 then L - 2 + 12 else L - 2) = leapMonth at h ⊢
    by_cases hs : lunarLeap ≠ 0 ∧ lunarMonth ≠ leapMonth
    · rw [if_pos hs] at h
      have hs' : (lunarLeap : α) ≠ 0 ∧ (lunarMonth : α) ≠ (leapMonth : α) :=
        ⟨by exact_mod_cast hs.1, by exact_mod_cast hs.2⟩
      rw [if_pos hs']
      simp only [Option.some.injEq] at h
      rw [← h]
      simp
    · rw [if_neg hs] at h
      have hs' : ¬ ((lunarLeap : α) ≠ 0 ∧ (lunarMonth : α) ≠ (leapMonth : α)) := by
        intro h'
        exact hs ⟨by exact_mod_cast h'.1, by exact_mod_cast h'.2⟩
      rw [if_neg hs']
      simp only [Option.bind_eq_some, Option.some.injEq] at h
      obtain ⟨ms, hms, hr⟩ := h
      have hoff2 : (if (lunarLeap : α) ≠ 0 ∨ (off : α) ≥ (L : α) then (off : α) + 1 else (off : α))
          = ((if lunarLeap ≠ 0 ∨ off ≥ L then off + 1 else off : ℤ) : α) := by
        by_cases ho : lunarLeap ≠ 0 ∨ off ≥ L
        · have ho' : (lunarLeap : α) ≠ 0 ∨ (off : α) ≥ (L : α) := by
            rcases ho with ho | ho
            · exact Or.inl (by exact_mod_cast ho)
            · exact Or.inr (by exact_mod_cast ho)
          rw [if_pos ho, if_pos ho']
          push_cast
          rfl
        · have ho' : ¬ ((lunarLeap : α) ≠ 0 ∨ (off : α) ≥ (L : α)) := by
            intro h'
            apply ho
            rcases h' with h' | h'
            · exact Or.inl (by exact_mod_cast h')
            · exact Or.inr (by exact_mod_cast h')
          rw [if_neg ho, if_neg ho']
      rw [hoff2, ← Int.cast_add, hdate _ _ hms, ← hr]
  · rw [if_neg hc] at h
    rw [if_neg (by intro h'; apply hc; exact_mod_cast h')]
    simp only [Option.bind_eq_some, Option.some.injEq] at h
    obtain ⟨ms, hms, hr⟩ := h
    rw [← Int.cast_add, hdate _ _ hms, ← hr]

end EvalSound

/-! ### Evaluation of the two entry points with the real sine -/

theorem nmLookup_sound (tz : ℤ) (N : NmTable) (k n : ℤ) (h : nmLookup tz N k = some n) :
    getNewMoonDay realTrig (k : ℝ) (tz : ℝ) = (n : ℝ) := by
  induction N with
  | nil => simp [nmLookup] at h
  | cons e es ih =>
    simp only [nmLookup] at h
    by_cases hc : e.1 = k ∧ nmCheck e.1 tz e.2.1 e.2.2 = true
    · rw [if_pos hc] at h
      simp only [Option.some.injEq] at h
      rw [← h, ← hc.1]
      exact getNewMoonDay_cert _ _ _ _ hc.2
    · rw [if_neg hc] at h
      exact ih h

theorem slLookup_sound (tz : ℤ) (S : SlTable) (d j : ℤ) (h : slLookup tz S d = some j) :
    getSunLongitude realTrig (d : ℝ) (tz : ℝ) = (j : ℝ) := by
  induction S with
  | nil => simp [slLookup] at h
  | cons e es ih =>
    simp only [slLookup] at h
    by_cases hc : e.1 = d ∧ slCheck e.1 tz e.2.1 e.2.2.1 e.2.2.2 = true
    · rw [if_pos hc] at h
      simp only [Option.some.injEq] at h
      rw [← h, ← hc.1]
      exact getSunLongitude_cert _ _ _ _ _ hc.2
    · rw [if_neg hc] at h
      exact ih h

theorem tables_sound (tz : ℤ) (N : NmTable) (S : SlTable) :
    LookupsSound realTrig tz (nmLookup tz N) (slLookup tz S) :=
  ⟨fun k n h => nmLookup_sound tz N k n h, fun d j h => slLookup_sound tz S d j h⟩

theorem toInt_intCast {α : Type} [LinearOrderedField α] [FloorRing α] (n : ℤ) :
    toInt (n : α) = n := by
  unfold toInt
  split_ifs <;> simp

/-- A table evaluation of `Solar2lunar` that returns `expected` gives its value. -/
theorem Solar2lunar_of_check (tz : ℤ) (N : NmTable) (S : SlTable) (yyyy mm dd : ℤ)
    (expected : LunarDate) (h : solarCheck tz N S yyyy mm dd expected = true) :
    Solar2lunar realTrig yyyy mm dd tz = expected := by
  unfold solarCheck at h
  split at h
  · rename_i r hr
    simp only [decide_eq_true_eq] at h
    have e := convertSolar2LunarP_sound realTrig tz _ _ (tables_sound tz N S) dd mm yyyy r hr
    unfold Solar2lunar
    rw [e, ← h]
    simp only [toInt_intCast]
    congr 1
    have : ((r.2.2.2 : ℝ) = 1) ↔ (r.2.2.2 = 1) := by
      constructor
      · intro h'
        exact_mod_cast h'
      · intro h'
        exact_mod_cast h'
    simp only [this]
  · exact absurd h (by simp)

/-- A table evaluation of `Lunar2solar` that returns `expected` gives its value. -/
theorem Lunar2solar_of_check (tz : ℤ) (N : NmTable) (S : SlTable)
    (lunarYear lunarMonth lunarDay : ℤ) (lunarLeap : Bool) (expected : SolarDate)
    (h : lunarCheck tz N S lunarYear lunarMonth lunarDay lunarLeap expected = true) :
    Lunar2solar realTrig lunarYear lunarMonth lunarDay lunarLeap tz = expected := by
  unfold lunarCheck at h
  split at h
  · rename_i r hr
    simp only [decide_eq_true_eq] at h
    have e := convertLunar2SolarP_sound realTrig tz _ _ (tables_sound tz N S) lunarDay lunarMonth
      lunarYear (if lunarLeap then 1 else 0) r hr
    have eb : (bool2float64 lunarLeap : ℝ) = (((if lunarLeap then 1 else 0 : ℤ)) : ℝ) := by
      unfold bool2float64
      cases lunarLeap <;> simp
    unfold Lunar2solar
    rw [eb, e, ← h]
    simp only [toInt_intCast]
  · exact absurd h (by simp)

section Structural

variable {α : Type} [LinearOrderedField α] [FloorRing α]

/-- C7. Whenever `convertSolar2Lunar` returns `lunarLeap = 1`, the two month-11 anchors
`a11` and `b11` of that call satisfy `b11 - a11 > 365`. -/
theorem C7_leap_only_in_long_year (tg : Trig α) (dd mm yy timeZone : α)
    (h : (convertSolar2Lunar tg dd mm yy timeZone).2.2.2 = 1) :
    (solarAnchors tg dd mm yy timeZone).2.2.2.1 - (solarAnchors tg dd mm yy timeZone).2.2.1
      > 365 := by
  by_contra hc
  simp only [convertSolar2Lunar, if_neg hc] at h
  norm_num at h

/-- In exact arithmetic (any ordered field, any positive `pi`) the normalisation of line 97
leaves a value in `[0, 2 pi)`.  The `float64` code rounds `L / (2 pi)` before taking the
floor, so this does not carry over to the compiled function where that quotient rounds up to
an integer. -/
theorem SunLongitude_range (tg : Trig α) (hpi : 0 < tg.pi) (jdn : α) :
    0 ≤ SunLongitude tg jdn ∧ SunLongitude tg jdn < 2 * tg.pi := by
  rw [SunLongitude_eq]
  generalize sunDeg tg jdn * (tg.pi / 180) = L
  have h2 : 0 < tg.pi * 2 := by linarith
  have hf1 : ((⌊L / (tg.pi * 2)⌋ : ℤ) : α) ≤ L / (tg.pi * 2) := Int.floor_le _
  have hf2 : L / (tg.pi * 2) < ((⌊L / (tg.pi * 2)⌋ : ℤ) : α) + 1 := Int.lt_floor_add_one _
  rw [le_div_iff₀ h2] at hf1
  rw [div_lt_iff₀ h2] at hf2
  unfold Floor
  constructor
  · linarith
  · linarith

end Structural

/-! ### The conversions are integer valued at integer arguments -/

section TotalThms

variable {α : Type} [LinearOrderedField α] [FloorRing α]

theorem totalLookups_sound (tg : Trig α) (tz : ℤ) :
    LookupsSound tg tz (fun k => some (nmZ tg tz k)) (fun d => some (slZ tg tz d)) := by
  constructor
  · intro k n h
    simp only [Option.some.injEq] at h
    rw [← h]
    rfl
  · intro d j h
    simp only [Option.some.injEq] at h
    rw [← h]
    rfl

theorem getLunarMonth11P_total (nm sl : ℤ → ℤ) (yy : ℤ) :
    ∃ r, getLunarMonth11P (fun k => some (nm k)) (fun d => some (sl d)) yy = some r := by
  simp only [getLunarMonth11P, Option.bind_eq_bind, Option.some_bind, Option.pure_def]
  split_ifs
  · exact ⟨_, rfl⟩
  · exact ⟨_, rfl⟩

theorem leapScanP_total (arc : ℕ → ℤ) :
    ∀ (fuel i : ℕ) (last : ℤ), 1 ≤ fuel → 14 ≤ fuel + i →
      ∃ r, leapScanP (fun j => some (arc j)) fuel i last = some r ∧ i + 1 ≤ r ∧
        r ≤ max (i + 1) 14 := by
  intro fuel
  induction fuel with
  | zero =>
    intro i last h0 h
    exfalso
    omega
  | succ fuel ih =>
    intro i last h0 h
    simp only [leapScanP, Option.bind_eq_bind, Option.some_bind, Option.pure_def]
    by_cases hc : arc (i + 1) ≠ last ∧ i + 1 < 14
    · rw [if_pos hc]
      obtain ⟨r, hr, h1, h2⟩ := ih (i + 1) (arc (i + 1)) (by omega) (by omega)
      refine ⟨r, hr, by omega, ?_⟩
      have := hc.2
      rw [max_def] at h2 ⊢
      split_ifs at h2 ⊢ <;> omega
    · rw [if_neg hc]
      exact ⟨i + 1, rfl, le_refl _, le_max_left _ _⟩

theorem getLeapMonthOffsetP_total (nm sl : ℤ → ℤ) (a11 : ℤ) :
    ∃ L, getLeapMonthOffsetP (fun k => some (nm k)) (fun d => some (sl d)) a11 = some L ∧
      1 ≤ L ∧ L ≤ 13 := by
  obtain ⟨r, hr, h1, h2⟩ := leapScanP_total (fun j => sl (nm (kOfAnchor a11 + (j : ℤ)))) 14 1
    (sl (nm (kOfAnchor a11 + ((1 : ℕ) : ℤ)))) (by omega) (by omega)
  refine ⟨(r : ℤ) - 1, ?_, by omega, ?_⟩
  · simp only [getLeapMonthOffsetP, Option.bind_eq_bind, Option.some_bind, Option.pure_def]
    rw [hr]
    rfl
  · have : r ≤ 14 := by
      rw [max_def] at h2
      split_ifs at h2 <;> omega
    omega

theorem solarAnchorsP_total (nm sl : ℤ → ℤ) (dd mm yy : ℤ) :
    ∃ s, solarAnchorsP (fun k => some (nm k)) (fun d => some (sl d)) dd mm yy = some s ∧
      s.1 = jdFromDateZ dd mm yy := by
  obtain ⟨a, ha⟩ := getLunarMonth11P_total nm sl yy
  obtain ⟨b, hb⟩ := getLunarMonth11P_total nm sl (yy - 1)
  obtain ⟨c, hc⟩ := getLunarMonth11P_total nm sl (yy + 1)
  simp only [solarAnchorsP, Option.bind_eq_bind, Option.some_bind, Option.pure_def, ha, hb, hc]
  split_ifs <;> simp only [Option.some_bind] <;> split_ifs <;> exact ⟨_, rfl, rfl⟩

theorem convertSolar2LunarP_total (nm sl : ℤ → ℤ) (dd mm yy : ℤ) :
    ∃ s r, solarAnchorsP (fun k => some (nm k)) (fun d => some (sl d)) dd mm yy = some s ∧
      convertSolar2LunarP (fun k => some (nm k)) (fun d => some (sl d)) dd mm yy = some r ∧
      s.1 = jdFromDateZ dd mm yy ∧ r.1 = s.1 - s.2.1 + 1 ∧ (r.2.2.2 = 0 ∨ r.2.2.2 = 1) := by
  obtain ⟨s, hs, hs1⟩ := solarAnchorsP_total nm sl dd mm yy
  obtain ⟨L, hL, -, -⟩ := getLeapMonthOffsetP_total nm sl s.2.2.1
  refine ⟨s, ?_⟩
  simp only [convertSolar2LunarP, Option.bind_eq_bind, Option.some_bind, Option.pure_def, hs, hL]
  split_ifs <;> exact ⟨_, trivial, rfl, hs1, rfl, by simp⟩

theorem convertLunar2Solar_eq (tg : Trig α) (lunarDay lunarMonth lunarYear lunarLeap timeZone : α) :
    convertLunar2Solar tg lunarDay lunarMonth lunarYear lunarLeap timeZone
      = match lunarMonthStart tg lunarMonth lunarYear lunarLeap timeZone with
        | none => (0, 0, 0)
        | some monthStart => jdToDate (monthStart + lunarDay - 1) := by
  simp only [convertLunar2Solar, lunarMonthStart]
  split_ifs <;> rfl

theorem lunarMonthStart_int (tg : Trig α) (lunarMonth lunarYear lunarLeap timeZone x : α)
    (h : lunarMonthStart tg lunarMonth lunarYear lunarLeap timeZone = some x) :
    ∃ n : ℤ, x = (n : α) := by
  simp only [lunarMonthStart] at h
  split_ifs at h <;> simp only [Option.some.injEq] at h <;> exact ⟨_, h.symm⟩

theorem Solar2lunar_of_tuple (tg : Trig α) (yyyy mm dd tz : ℤ) (r : ℤ × ℤ × ℤ × ℤ)
    (e : convertSolar2Lunar tg (dd : α) (mm : α) (yyyy : α) (tz : α)
      = ((r.1 : α), (r.2.1 : α), (r.2.2.1 : α), (r.2.2.2 : α))) :
    Solar2lunar tg yyyy mm dd tz = ⟨r.2.2.1, r.2.1, r.1, decide (r.2.2.2 = 1)⟩ := by
  unfold Solar2lunar
  rw [e]
  simp only [toInt_intCast]
  congr 1
  have : ((r.2.2.2 : α) = 1) ↔ (r.2.2.2 = 1) := by
    constructor
    · intro h'
      exact_mod_cast h'
    · intro h'
      exact_mod_cast h'
  simp only [this]

end TotalThms

section RoundTrip

variable {α : Type} [LinearOrderedField α] [FloorRing α]

theorem jdToDateZ_injective (x y : ℤ) (h : jdToDateZ x = jdToDateZ y) : x = y := by
  have hx := jdFromDateZ_jdToDateZ x
  rw [h, jdFromDateZ_jdToDateZ y] at hx
  exact hx.symm

end RoundTrip

section Amended

variable {α : Type} [LinearOrderedField α] [FloorRing α]

/-- C4 (amended). `Lunar2solar y m d true tz` is the all-zero date whenever the lunar year
has a leap month (`b11 - a11 > 365` for the bracketing month-11 starts), that leap month is
not the twelfth (`leapOff ≠ 2`), and `m` differs from `leapMonth`
(`leapOff - 2`, plus 12 when negative). -/
theorem C4_invalid_leap_sentinel (tg : Trig α) (y m d tz : ℤ)
    (hlong : (lunarAnchors tg (m : α) (y : α) (tz : α)).2
      - (lunarAnchors tg (m : α) (y : α) (tz : α)).1 > 365)
    (_hoff : getLeapMonthOffset tg (lunarAnchors tg (m : α) (y : α) (tz : α)).1 (tz : α) ≠ 2)
    (hm : (m : α) ≠ leapMonthOf
      (getLeapMonthOffset tg (lunarAnchors tg (m : α) (y : α) (tz : α)).1 (tz : α))) :
    Lunar2solar tg y m d true tz = ⟨0, 0, 0⟩ := by
  have hb : (bool2float64 true : α) ≠ 0 := by
    unfold bool2float64
    simp
  unfold Lunar2solar
  simp only [convertLunar2Solar, if_pos hlong, if_pos (And.intro hb hm)]
  have h0 : toInt (0 : α) = 0 := by
    have := toInt_intCast (α := α) 0
    simpa using this
  rw [h0]

/-- The month number that `convertSolar2Lunar` gives to a leap month depends on the anchor
`a11` only. -/
theorem leap_month_of_anchor (tg : Trig α) (dd mm yy timeZone : α)
    (h : (convertSolar2Lunar tg dd mm yy timeZone).2.2.2 = 1) :
    (convertSolar2Lunar tg dd mm yy timeZone).2.1
      = if getLeapMonthOffset tg (solarAnchors tg dd mm yy timeZone).2.2.1 timeZone + 10 > 12
        then getLeapMonthOffset tg (solarAnchors tg dd mm yy timeZone).2.2.1 timeZone + 10 - 12
        else getLeapMonthOffset tg (solarAnchors tg dd mm yy timeZone).2.2.1 timeZone + 10 := by
  simp only [convertSolar2Lunar] at h ⊢
  split_ifs at h with h1 h2 h3
  · rw [if_pos h1, if_pos h2]
    simp only
    rw [h3]
  · norm_num at h
  · norm_num at h
  · norm_num at h

theorem Solar2lunar_leap_iff (tg : Trig α) (yyyy mm dd tz : ℤ) :
    (Solar2lunar tg yyyy mm dd tz).Leap = true ↔
      (convertSolar2Lunar tg (dd : α) (mm : α) (yyyy : α) (tz : α)).2.2.2 = 1 := by
  unfold Solar2lunar
  simp

/-- C6 (amended). If `Solar2lunar d1` and `Solar2lunar d2` (same time zone) both have
`Leap = true` and were computed from the same month-11 anchor `a11`, then they have the
same lunar `Month`. -/
theorem C6_one_leap_month_per_anchor (tg : Trig α) (tz y1 m1 d1 y2 m2 d2 : ℤ)
    (h1 : (Solar2lunar tg y1 m1 d1 tz).Leap = true)
    (h2 : (Solar2lunar tg y2 m2 d2 tz).Leap = true)
    (ha : (solarAnchors tg (d1 : α) (m1 : α) (y1 : α) (tz : α)).2.2.1
      = (solarAnchors tg (d2 : α) (m2 : α) (y2 : α) (tz : α)).2.2.1) :
    (Solar2lunar tg y1 m1 d1 tz).Month = (Solar2lunar tg y2 m2 d2 tz).Month := by
  rw [Solar2lunar_leap_iff] at h1 h2
  have e1 := leap_month_of_anchor tg _ _ _ _ h1
  have e2 := leap_month_of_anchor tg _ _ _ _ h2
  rw [ha] at e1
  unfold Solar2lunar
  simp only
  rw [e1, e2]

theorem convertSolar2LunarP_month (nm sl : ℤ → ℤ) (dd mm yy : ℤ) (s : ℤ × ℤ × ℤ × ℤ × ℤ)
    (r : ℤ × ℤ × ℤ × ℤ)
    (hs : solarAnchorsP (fun k => some (nm k)) (fun d => some (sl d)) dd mm yy = some s)
    (hr : convertSolar2LunarP (fun k => some (nm k)) (fun d => some (sl d)) dd mm yy = some r)
    (h0 : 0 ≤ s.2.1 - s.2.2.1) (h1 : s.2.1 - s.2.2.1 < 406) : 1 ≤ r.2.1 ∧ r.2.1 ≤ 12 := by
  obtain ⟨L, hL, hL1, hL2⟩ := getLeapMonthOffsetP_total nm sl s.2.2.1
  simp only [convertSolar2LunarP, Option.bind_eq_bind, Option.some_bind, Option.pure_def, hs,
    hL] at hr
  have hd0 : 0 ≤ (s.2.1 - s.2.2.1) / 29 := by omega
  have hd1 : (s.2.1 - s.2.2.1) / 29 ≤ 13 := by omega
  generalize (s.2.1 - s.2.2.1) / 29 = diff at hr hd0 hd1
  split_ifs at hr <;> simp only [Option.some_bind, Option.some.injEq] at hr <;> rw [← hr] <;>
    simp only <;> split_ifs <;> omega

/-- C8 (amended). The `Month` returned by `Solar2lunar` satisfies `1 ≤ Month ≤ 12` whenever
the month start chosen for the date lies at or after the anchor `a11` and fewer than
`14 * 29 = 406` days after it. -/
theorem C8_month_range (tg : Trig α) (yyyy mm dd tz : ℤ)
    (h0 : 0 ≤ (solarAnchors tg (dd : α) (mm : α) (yyyy : α) (tz : α)).2.1
      - (solarAnchors tg (dd : α) (mm : α) (yyyy : α) (tz : α)).2.2.1)
    (h1 : (solarAnchors tg (dd : α) (mm : α) (yyyy : α) (tz : α)).2.1
      - (solarAnchors tg (dd : α) (mm : α) (yyyy : α) (tz : α)).2.2.1 < 406) :
    1 ≤ (Solar2lunar tg yyyy mm dd tz).Month ∧ (Solar2lunar tg yyyy mm dd tz).Month ≤ 12 := by
  have hLS := totalLookups_sound tg tz
  obtain ⟨s, r, hs, hr, -, -, -⟩ :=
    convertSolar2LunarP_total (nmZ tg tz) (slZ tg tz) dd mm yyyy
  have eS := solarAnchorsP_sound tg tz _ _ hLS dd mm yyyy s hs
  have eR := convertSolar2LunarP_sound tg tz _ _ hLS dd mm yyyy r hr
  rw [eS] at h0 h1
  simp only at h0 h1
  rw [Solar2lunar_of_tuple tg yyyy mm dd tz r eR]
  simp only
  exact convertSolar2LunarP_month (nmZ tg tz) (slZ tg tz) dd mm yyyy s r hs hr
    (by exact_mod_cast h0) (by exact_mod_cast h1)

end Amended

/-! ### Concrete evaluations with the real sine, time zone 7 -/

theorem solarAnchors_2023_03_22 :
    solarAnchors realTrig ((22 : ℤ) : ℝ) ((3 : ℤ) : ℝ) ((2023 : ℤ) : ℝ) ((7 : ℤ) : ℝ)
      = (((2460026 : ℤ) : ℝ), ((2460026 : ℤ) : ℝ), ((2459908 : ℤ) : ℝ), ((2460292 : ℤ) : ℝ),
          ((2023 : ℤ) : ℝ)) :=
  solarAnchorsP_sound realTrig 7 _ _ (tables_sound 7 nmTable7 slTable7) 22 3 2023
    (2460026, 2460026, 2459908, 2460292, 2023) (by decide!)

theorem solarAnchors_2023_04_19 :
    solarAnchors realTrig ((19 : ℤ) : ℝ) ((4 : ℤ) : ℝ) ((2023 : ℤ) : ℝ) ((7 : ℤ) : ℝ)
      = (((2460054 : ℤ) : ℝ), ((2460026 : ℤ) : ℝ), ((2459908 : ℤ) : ℝ), ((2460292 : ℤ) : ℝ),
          ((2023 : ℤ) : ℝ)) :=
  solarAnchorsP_sound realTrig 7 _ _ (tables_sound 7 nmTable7 slTable7) 19 4 2023
    (2460054, 2460026, 2459908, 2460292, 2023) (by decide!)

theorem solarAnchors_2054_05_07 :
    solarAnchors realTrig ((7 : ℤ) : ℝ) ((5 : ℤ) : ℝ) ((2054 : ℤ) : ℝ) ((7 : ℤ) : ℝ)
      = (((2471395 : ℤ) : ℝ), ((2471396 : ℤ) : ℝ), ((2471247 : ℤ) : ℝ), ((2471601 : ℤ) : ℝ),
          ((2054 : ℤ) : ℝ)) :=
  solarAnchorsP_sound realTrig 7 _ _ (tables_sound 7 nmTable7 slTable7) 7 5 2054
    (2471395, 2471396, 2471247, 2471601, 2054) (by decide!)

theorem convertSolar2Lunar_2023_03_22 :
    convertSolar2Lunar realTrig ((22 : ℤ) : ℝ) ((3 : ℤ) : ℝ) ((2023 : ℤ) : ℝ) ((7 : ℤ) : ℝ)
      = (((1 : ℤ) : ℝ), ((2 : ℤ) : ℝ), ((2023 : ℤ) : ℝ), ((1 : ℤ) : ℝ)) :=
  convertSolar2LunarP_sound realTrig 7 _ _ (tables_sound 7 nmTable7 slTable7) 22 3 2023
    (1, 2, 2023, 1) (by decide!)

theorem Solar2lunar_2023_03_22 : Solar2lunar realTrig 2023 3 22 7 = ⟨2023, 2, 1, true⟩ :=
  Solar2lunar_of_check 7 nmTable7 slTable7 2023 3 22 _ (by decide!)

theorem Solar2lunar_2023_04_19 : Solar2lunar realTrig 2023 4 19 7 = ⟨2023, 2, 29, true⟩ :=
  Solar2lunar_of_check 7 nmTable7 slTable7 2023 4 19 _ (by decide!)

theorem lunarAnchors_2023_3 :
    lunarAnchors realTrig ((3 : ℤ) : ℝ) ((2023 : ℤ) : ℝ) ((7 : ℤ) : ℝ)
      = (((2459908 : ℤ) : ℝ), ((2460292 : ℤ) : ℝ)) :=
  lunarAnchorsP_sound realTrig 7 _ _ (tables_sound 7 nmTable7 slTable7) 3 2023
    (2459908, 2460292) (by decide!)

theorem lunarAnchors_2024_3 :
    lunarAnchors realTrig ((3 : ℤ) : ℝ) ((2024 : ℤ) : ℝ) ((7 : ℤ) : ℝ)
      = (((2460292 : ℤ) : ℝ), ((2460646 : ℤ) : ℝ)) :=
  lunarAnchorsP_sound realTrig 7 _ _ (tables_sound 7 nmTable7 slTable7) 3 2024
    (2460292, 2460646) (by decide!)

theorem getLeapMonthOffset_2023 :
    getLeapMonthOffset realTrig ((2459908 : ℤ) : ℝ) ((7 : ℤ) : ℝ) = ((4 : ℤ) : ℝ) :=
  getLeapMonthOffsetP_sound realTrig 7 _ _ (tables_sound 7 nmTable7 slTable7) 2459908 4
    (by decide!)

/-- C5. With time zone 7, `Solar2lunar` returns the lunar dates of the test table. -/
theorem C5_test_table :
    Solar2lunar realTrig 2023 2 10 7 = ⟨2023, 1, 20, false⟩ ∧
    Solar2lunar realTrig 2023 2 11 7 = ⟨2023, 1, 21, false⟩ ∧
    Solar2lunar realTrig 2023 2 20 7 = ⟨2023, 2, 1, false⟩ ∧
    Solar2lunar realTrig 2023 3 22 7 = ⟨2023, 2, 1, true⟩ ∧
    Solar2lunar realTrig 1903 1 1 7 = ⟨1902, 12, 3, false⟩ :=
  ⟨Solar2lunar_of_check 7 nmTable7 slTable7 2023 2 10 _ (by decide!),
   Solar2lunar_of_check 7 nmTable7 slTable7 2023 2 11 _ (by decide!),
   Solar2lunar_of_check 7 nmTable7 slTable7 2023 2 20 _ (by decide!),
   Solar2lunar_of_check 7 nmTable7 slTable7 2023 3 22 _ (by decide!),
   Solar2lunar_of_check 7 nmTable7 slTable7 1903 1 1 _ (by decide!)⟩

/-- C3 as stated fails at 10 October 1582, time zone 7: the date is mapped to day 24 of
lunar month 9, and the inverse returns 20 October 1582. -/
theorem C3_counterexample :
    Solar2lunar realTrig 1582 10 10 7 = ⟨1582, 9, 24, false⟩ ∧
    Lunar2solar realTrig 1582 9 24 false 7 = ⟨1582, 10, 20⟩ ∧
    Lunar2solar realTrig (Solar2lunar realTrig 1582 10 10 7).Year
        (Solar2lunar realTrig 1582 10 10 7).Month (Solar2lunar realTrig 1582 10 10 7).Day
        (Solar2lunar realTrig 1582 10 10 7).Leap 7 ≠ ⟨1582, 10, 10⟩ := by
  have h1 : Solar2lunar realTrig 1582 10 10 7 = ⟨1582, 9, 24, false⟩ :=
    Solar2lunar_of_check 7 nmTable7 slTable7 1582 10 10 _ (by decide!)
  have h2 : Lunar2solar realTrig 1582 9 24 false 7 = ⟨1582, 10, 20⟩ :=
    Lunar2solar_of_check 7 nmTable7 slTable7 1582 9 24 false _ (by decide!)
  refine ⟨h1, h2, ?_⟩
  rw [h1]
  simp only
  rw [h2]
  decide

/-- C4 as stated fails for lunar year 2024, which has no leap month (the month-11 starts are
354 days apart): the leap request for month 3 is answered with 9 April 2024. -/
theorem C4_counterexample :
    (lunarAnchors realTrig ((3 : ℤ) : ℝ) ((2024 : ℤ) : ℝ) ((7 : ℤ) : ℝ)).2
      - (lunarAnchors realTrig ((3 : ℤ) : ℝ) ((2024 : ℤ) : ℝ) ((7 : ℤ) : ℝ)).1 = 354 ∧
    Lunar2solar realTrig 2024 3 1 true 7 = ⟨2024, 4, 9⟩ ∧
    Lunar2solar realTrig 2024 3 1 true 7 ≠ ⟨0, 0, 0⟩ := by
  have h2 : Lunar2solar realTrig 2024 3 1 true 7 = ⟨2024, 4, 9⟩ :=
    Lunar2solar_of_check 7 nmTable7 slTable7 2024 3 1 true _ (by decide!)
  refine ⟨?_, h2, ?_⟩
  · rw [lunarAnchors_2024_3]
    norm_num
  · rw [h2]
    decide

theorem C4_witness_long :
    (lunarAnchors realTrig ((3 : ℤ) : ℝ) ((2023 : ℤ) : ℝ) ((7 : ℤ) : ℝ)).2
      - (lunarAnchors realTrig ((3 : ℤ) : ℝ) ((2023 : ℤ) : ℝ) ((7 : ℤ) : ℝ)).1 > 365 := by
  rw [lunarAnchors_2023_3]
  norm_num

theorem C4_witness_off :
    getLeapMonthOffset realTrig
      (lunarAnchors realTrig ((3 : ℤ) : ℝ) ((2023 : ℤ) : ℝ) ((7 : ℤ) : ℝ)).1 ((7 : ℤ) : ℝ) ≠ 2 := by
  rw [lunarAnchors_2023_3]
  simp only
  rw [getLeapMonthOffset_2023]
  norm_num

theorem C4_witness_month :
    ((3 : ℤ) : ℝ) ≠ leapMonthOf (getLeapMonthOffset realTrig
      (lunarAnchors realTrig ((3 : ℤ) : ℝ) ((2023 : ℤ) : ℝ) ((7 : ℤ) : ℝ)).1 ((7 : ℤ) : ℝ)) := by
  rw [lunarAnchors_2023_3]
  simp only
  rw [getLeapMonthOffset_2023]
  unfold leapMonthOf
  norm_num

/-- Witness for C4 (amended): lunar year 2023 has the leap month 2, and the leap request for
month 3 is answered with the all-zero date. -/
theorem C4_invalid_leap_sentinel_witness :
    (lunarAnchors realTrig ((3 : ℤ) : ℝ) ((2023 : ℤ) : ℝ) ((7 : ℤ) : ℝ)).2
      - (lunarAnchors realTrig ((3 : ℤ) : ℝ) ((2023 : ℤ) : ℝ) ((7 : ℤ) : ℝ)).1 > 365 ∧
    getLeapMonthOffset realTrig
      (lunarAnchors realTrig ((3 : ℤ) : ℝ) ((2023 : ℤ) : ℝ) ((7 : ℤ) : ℝ)).1 ((7 : ℤ) : ℝ) ≠ 2 ∧
    ((3 : ℤ) : ℝ) ≠ leapMonthOf (getLeapMonthOffset realTrig
      (lunarAnchors realTrig ((3 : ℤ) : ℝ) ((2023 : ℤ) : ℝ) ((7 : ℤ) : ℝ)).1 ((7 : ℤ) : ℝ)) ∧
    Lunar2solar realTrig 2023 3 1 true 7 = ⟨0, 0, 0⟩ :=
  ⟨C4_witness_long, C4_witness_off, C4_witness_month,
    C4_invalid_leap_sentinel realTrig 2023 3 1 7 C4_witness_long C4_witness_off C4_witness_month⟩

/-- C6 as stated fails in year -117479, time zone 7: 12 April -117479 and 2 February -117478
are both leap-month dates of lunar year -117479, one in month 3 and one in month 12. -/
theorem C6_counterexample :
    Solar2lunar realTrig (-117479) 4 12 7 = ⟨-117479, 3, -150245, true⟩ ∧
    Solar2lunar realTrig (-117478) 2 2 7 = ⟨-117479, 12, -150240, true⟩ :=
  ⟨Solar2lunar_of_check 7 nmTable7 slTable7 (-117479) 4 12 _ (by decide!),
   Solar2lunar_of_check 7 nmTable7 slTable7 (-117478) 2 2 _ (by decide!)⟩

theorem C6_witness_leap1 : (Solar2lunar realTrig 2023 3 22 7).Leap = true := by
  rw [Solar2lunar_2023_03_22]

theorem C6_witness_leap2 : (Solar2lunar realTrig 2023 4 19 7).Leap = true := by
  rw [Solar2lunar_2023_04_19]

theorem C6_witness_anchor :
    (solarAnchors realTrig ((22 : ℤ) : ℝ) ((3 : ℤ) : ℝ) ((2023 : ℤ) : ℝ) ((7 : ℤ) : ℝ)).2.2.1
      = (solarAnchors realTrig ((19 : ℤ) : ℝ) ((4 : ℤ) : ℝ) ((2023 : ℤ) : ℝ)
          ((7 : ℤ) : ℝ)).2.2.1 := by
  rw [solarAnchors_2023_03_22, solarAnchors_2023_04_19]

/-- Witness for C6 (amended): 22 March 2023 and 19 April 2023, the first and the last day of
the leap month 2 of lunar year 2023. -/
theorem C6_one_leap_month_per_anchor_witness :
    (Solar2lunar realTrig 2023 3 22 7).Leap = true ∧
    (Solar2lunar realTrig 2023 4 19 7).Leap = true ∧
    (solarAnchors realTrig ((22 : ℤ) : ℝ) ((3 : ℤ) : ℝ) ((2023 : ℤ) : ℝ) ((7 : ℤ) : ℝ)).2.2.1
      = (solarAnchors realTrig ((19 : ℤ) : ℝ) ((4 : ℤ) : ℝ) ((2023 : ℤ) : ℝ)
          ((7 : ℤ) : ℝ)).2.2.1 ∧
    (Solar2lunar realTrig 2023 3 22 7).Month = (Solar2lunar realTrig 2023 4 19 7).Month :=
  ⟨C6_witness_leap1, C6_witness_leap2, C6_witness_anchor,
    C6_one_leap_month_per_anchor realTrig 7 2023 3 22 2023 4 19 C6_witness_leap1
      C6_witness_leap2 C6_witness_anchor⟩

theorem C7_witness_leap :
    (convertSolar2Lunar realTrig ((22 : ℤ) : ℝ) ((3 : ℤ) : ℝ) ((2023 : ℤ) : ℝ)
      ((7 : ℤ) : ℝ)).2.2.2 = 1 := by
  rw [convertSolar2Lunar_2023_03_22]
  norm_num

/-- Witness for C7: 22 March 2023, time zone 7, the first day of a leap month. -/
theorem C7_leap_only_in_long_year_witness :
    (convertSolar2Lunar realTrig ((22 : ℤ) : ℝ) ((3 : ℤ) : ℝ) ((2023 : ℤ) : ℝ)
      ((7 : ℤ) : ℝ)).2.2.2 = 1 ∧
    (solarAnchors realTrig ((22 : ℤ) : ℝ) ((3 : ℤ) : ℝ) ((2023 : ℤ) : ℝ)
        ((7 : ℤ) : ℝ)).2.2.2.1
      - (solarAnchors realTrig ((22 : ℤ) : ℝ) ((3 : ℤ) : ℝ) ((2023 : ℤ) : ℝ)
        ((7 : ℤ) : ℝ)).2.2.1 > 365 :=
  ⟨C7_witness_leap, C7_leap_only_in_long_year realTrig _ _ _ _ C7_witness_leap⟩

/-- C8 as stated fails on 1 January of year -1000000, time zone 7: the month returned is 95. -/
theorem C8_counterexample :
    Solar2lunar realTrig (-1000000) 1 1 7 = ⟨-999999, 95, -807828393, false⟩ ∧
    ¬ (Solar2lunar realTrig (-1000000) 1 1 7).Month ≤ 12 := by
  have h : Solar2lunar realTrig (-1000000) 1 1 7 = ⟨-999999, 95, -807828393, false⟩ :=
    Solar2lunar_of_check 7 nmTable7 slTable7 (-1000000) 1 1 _ (by decide!)
  refine ⟨h, ?_⟩
  rw [h]
  decide

theorem C8_witness_lower :
    0 ≤ (solarAnchors realTrig ((22 : ℤ) : ℝ) ((3 : ℤ) : ℝ) ((2023 : ℤ) : ℝ) ((7 : ℤ) : ℝ)).2.1
      - (solarAnchors realTrig ((22 : ℤ) : ℝ) ((3 : ℤ) : ℝ) ((2023 : ℤ) : ℝ)
          ((7 : ℤ) : ℝ)).2.2.1 := by
  rw [solarAnchors_2023_03_22]
  norm_num

theorem C8_witness_upper :
    (solarAnchors realTrig ((22 : ℤ) : ℝ) ((3 : ℤ) : ℝ) ((2023 : ℤ) : ℝ) ((7 : ℤ) : ℝ)).2.1
      - (solarAnchors realTrig ((22 : ℤ) : ℝ) ((3 : ℤ) : ℝ) ((2023 : ℤ) : ℝ)
          ((7 : ℤ) : ℝ)).2.2.1 < 406 := by
  rw [solarAnchors_2023_03_22]
  norm_num

/-- Witness for C8 (amended): 22 March 2023, time zone 7. -/
theorem C8_month_range_witness :
    (0 ≤ (solarAnchors realTrig ((22 : ℤ) : ℝ) ((3 : ℤ) : ℝ) ((2023 : ℤ) : ℝ)
        ((7 : ℤ) : ℝ)).2.1
      - (solarAnchors realTrig ((22 : ℤ) : ℝ) ((3 : ℤ) : ℝ) ((2023 : ℤ) : ℝ)
          ((7 : ℤ) : ℝ)).2.2.1) ∧
    ((solarAnchors realTrig ((22 : ℤ) : ℝ) ((3 : ℤ) : ℝ) ((2023 : ℤ) : ℝ) ((7 : ℤ) : ℝ)).2.1
      - (solarAnchors realTrig ((22 : ℤ) : ℝ) ((3 : ℤ) : ℝ) ((2023 : ℤ) : ℝ)
          ((7 : ℤ) : ℝ)).2.2.1 < 406) ∧
    (1 ≤ (Solar2lunar realTrig 2023 3 22 7).Month ∧ (Solar2lunar realTrig 2023 3 22 7).Month ≤ 12) :=
  ⟨C8_witness_lower, C8_witness_upper,
    C8_month_range realTrig 2023 3 22 7 C8_witness_lower C8_witness_upper⟩

/-- C9 fails on 7 May 2054, time zone 7: the month start chosen is day 2471396, the day
after the date's day number 2471395, and the lunar day returned is 0. -/
theorem C9_day_zero :
    Solar2lunar realTrig 2054 5 7 7 = ⟨2054, 4, 0, false⟩ ∧
    (solarAnchors realTrig ((7 : ℤ) : ℝ) ((5 : ℤ) : ℝ) ((2054 : ℤ) : ℝ) ((7 : ℤ) : ℝ)).2.1
      > (solarAnchors realTrig ((7 : ℤ) : ℝ) ((5 : ℤ) : ℝ) ((2054 : ℤ) : ℝ) ((7 : ℤ) : ℝ)).1 := by
  refine ⟨Solar2lunar_of_check 7 nmTable7 slTable7 2054 5 7 _ (by decide!), ?_⟩
  rw [solarAnchors_2054_05_07]
  norm_num

section ScanLoop

variable {α : Type} [LinearOrderedField α]

/-- What the loop of `getLeapMonthOffset` returns when entered with counter `i ≤ 13`: a
counter `r` in `i+1 .. 14` such that no two consecutive indices from `i` up to `r - 1` are
equal, and, when `r < 14`, the indices at `r - 1` and `r` are equal. -/
theorem leapScan_spec (arcAt : ℕ → α) :
    ∀ (n i : ℕ), n = 14 - i → i ≤ 13 →
      i + 1 ≤ leapScan arcAt i (arcAt i) ∧ leapScan arcAt i (arcAt i) ≤ 14 ∧
      (∀ j, i ≤ j → j + 1 < leapScan arcAt i (arcAt i) → arcAt (j + 1) ≠ arcAt j) ∧
      (leapScan arcAt i (arcAt i) < 14 →
        arcAt (leapScan arcAt i (arcAt i)) = arcAt (leapScan arcAt i (arcAt i) - 1)) := by
  intro n
  induction n with
  | zero =>
    intro i h hi
    exfalso
    omega
  | succ n ih =>
    intro i h hi
    rw [leapScan]
    by_cases hc : arcAt (i + 1) ≠ arcAt i ∧ i + 1 < 14
    · rw [if_pos hc]
      obtain ⟨h1, h2, h3, h4⟩ := ih (i + 1) (by omega) (by omega)
      refine ⟨by omega, h2, ?_, h4⟩
      intro j hj1 hj2
      by_cases hji : j = i
      · rw [hji]
        exact hc.1
      · exact h3 j (by omega) hj2
    · rw [if_neg hc]
      refine ⟨le_refl _, by omega, ?_, ?_⟩
      · intro j hj1 hj2
        exfalso
        omega
      · intro hlt
        have : ¬ arcAt (i + 1) ≠ arcAt i := fun h' => hc ⟨h', hlt⟩
        rw [not_not] at this
        rw [this]
        simp

/-- The counting loop returns the same counter as `leapScan`, after at most `14 - i`
passes. -/
theorem leapScanCount_spec (arcAt : ℕ → α) :
    ∀ (n i : ℕ) (last : α), n = 14 - i → i ≤ 13 →
      (leapScanCount arcAt i last).1 = leapScan arcAt i last ∧
      1 ≤ (leapScanCount arcAt i last).2 ∧ (leapScanCount arcAt i last).2 ≤ 14 - i := by
  intro n
  induction n with
  | zero =>
    intro i last h hi
    exfalso
    omega
  | succ n ih =>
    intro i last h hi
    rw [leapScanCount, leapScan]
    by_cases hc : arcAt (i + 1) ≠ last ∧ i + 1 < 14
    · rw [if_pos hc, if_pos hc]
      obtain ⟨h1, h2, h3⟩ := ih (i + 1) (arcAt (i + 1)) (by omega) (by omega)
      refine ⟨h1, ?_, ?_⟩
      · simp only
        omega
      · simp only
        omega
    · rw [if_neg hc, if_neg hc]
      refine ⟨rfl, le_refl _, ?_⟩
      simp only
      omega

end ScanLoop

section Scan

variable {α : Type} [LinearOrderedField α] [FloorRing α]

/-- C13. Whatever the sun-longitude indices `arcAt` of the successive new moons are, the
loop of `getLeapMonthOffset` (entered with `i = 1`) makes at least one and at most 13
passes and leaves the counter in `2..14`; hence, for every `a11` and time zone,
`getLeapMonthOffset a11 timeZone` is an integer in `1..13`. -/
theorem C13_leap_scan_terminates (tg : Trig α) (a11 timeZone : α) :
    (∀ arcAt : ℕ → α,
      (leapScanCount arcAt 1 (arcAt 1)).1 = leapScan arcAt 1 (arcAt 1) ∧
      1 ≤ (leapScanCount arcAt 1 (arcAt 1)).2 ∧ (leapScanCount arcAt 1 (arcAt 1)).2 ≤ 13 ∧
      2 ≤ leapScan arcAt 1 (arcAt 1) ∧ leapScan arcAt 1 (arcAt 1) ≤ 14) ∧
    ∃ n : ℕ, getLeapMonthOffset tg a11 timeZone = (n : α) ∧ 1 ≤ n ∧ n ≤ 13 := by
  constructor
  · intro arcAt
    obtain ⟨h1, h2, h3⟩ := leapScanCount_spec arcAt 13 1 (arcAt 1) (by omega) (by omega)
    obtain ⟨h4, h5, _, _⟩ := leapScan_spec arcAt 13 1 (by omega) (by omega)
    exact ⟨h1, h2, by omega, by omega, h5⟩
  · have e : getLeapMonthOffset tg a11 timeZone
        = ((leapScan (fun j : ℕ => getSunLongitude tg (getNewMoonDay tg
            (Floor ((a11 - 2415021.076998695) / 29.530588853 + 0.5) + (j : α)) timeZone)
              timeZone) 1
          (getSunLongitude tg (getNewMoonDay tg
            (Floor ((a11 - 2415021.076998695) / 29.530588853 + 0.5) + ((1 : ℕ) : α)) timeZone)
              timeZone) : ℕ) : α) - 1 := rfl
    obtain ⟨h4, h5, _, _⟩ := leapScan_spec (fun j : ℕ => getSunLongitude tg (getNewMoonDay tg
      (Floor ((a11 - 2415021.076998695) / 29.530588853 + 0.5) + (j : α)) timeZone) timeZone)
      13 1 (by omega) (by omega)
    rw [e]
    generalize leapScan (fun j : ℕ => getSunLongitude tg (getNewMoonDay tg
      (Floor ((a11 - 2415021.076998695) / 29.530588853 + 0.5) + (j : α)) timeZone) timeZone) 1
      (getSunLongitude tg (getNewMoonDay tg
      (Floor ((a11 - 2415021.076998695) / 29.530588853 + 0.5) + ((1 : ℕ) : α)) timeZone)
        timeZone) = r at h4 h5
    refine ⟨r - 1, ?_, by omega, by omega⟩
    rw [Nat.cast_sub (by omega)]
    simp

/-- C14. With `k = Floor ((a11 - 2415021.076998695) / 29.530588853 + 0.5)` and
`idx j = getSunLongitude (getNewMoonDay (k + j) timeZone) timeZone`, the value of
`getLeapMonthOffset a11 timeZone` is a number `n` in `1..13` such that `idx (j + 1) ≠ idx j`
for every `j` with `1 ≤ j < n`, and `idx (n + 1) = idx n` when `n ≤ 12`: the least `j` in
`1..12` with `idx (j + 1) = idx j`, and 13 when there is none. -/
theorem C14_leap_offset_least (tg : Trig α) (a11 timeZone : α) :
    ∃ n : ℕ, getLeapMonthOffset tg a11 timeZone = (n : α) ∧ 1 ≤ n ∧ n ≤ 13 ∧
      (∀ j : ℕ, 1 ≤ j → j < n →
        getSunLongitude tg (getNewMoonDay tg
          (Floor ((a11 - 2415021.076998695) / 29.530588853 + 0.5) + ((j + 1 : ℕ) : α))
            timeZone) timeZone
        ≠ getSunLongitude tg (getNewMoonDay tg
          (Floor ((a11 - 2415021.076998695) / 29.530588853 + 0.5) + (j : α)) timeZone)
            timeZone) ∧
      (n ≤ 12 →
        getSunLongitude tg (getNewMoonDay tg
          (Floor ((a11 - 2415021.076998695) / 29.530588853 + 0.5) + ((n + 1 : ℕ) : α))
            timeZone) timeZone
        = getSunLongitude tg (getNewMoonDay tg
          (Floor ((a11 - 2415021.076998695) / 29.530588853 + 0.5) + (n : α)) timeZone)
            timeZone) := by
  have e : getLeapMonthOffset tg a11 timeZone
      = ((leapScan (fun j : ℕ => getSunLongitude tg (getNewMoonDay tg
          (Floor ((a11 - 2415021.076998695) / 29.530588853 + 0.5) + (j : α)) timeZone)
            timeZone) 1
        (getSunLongitude tg (getNewMoonDay tg
          (Floor ((a11 - 2415021.076998695) / 29.530588853 + 0.5) + ((1 : ℕ) : α)) timeZone)
            timeZone) : ℕ) : α) - 1 := rfl
  obtain ⟨h1, h2, h3, h4⟩ := leapScan_spec (fun j : ℕ => getSunLongitude tg (getNewMoonDay tg
      (Floor ((a11 - 2415021.076998695) / 29.530588853 + 0.5) + (j : α)) timeZone) timeZone)
      13 1 (by omega) (by omega)
  rw [e]
  generalize leapScan (fun j : ℕ => getSunLongitude tg (getNewMoonDay tg
      (Floor ((a11 - 2415021.076998695) / 29.530588853 + 0.5) + (j : α)) timeZone) timeZone) 1
      (getSunLongitude tg (getNewMoonDay tg
      (Floor ((a11 - 2415021.076998695) / 29.530588853 + 0.5) + ((1 : ℕ) : α)) timeZone)
        timeZone) = r at h1 h2 h3 h4
  refine ⟨r - 1, ?_, by omega, by omega, ?_, ?_⟩
  · rw [Nat.cast_sub (by omega)]
    simp
  · intro j hj1 hj2
    exact h3 j hj1 (by omega)
  · intro hn
    have hr : r - 1 + 1 = r := by omega
    rw [hr]
    exact h4 (by omega)

end Scan

section DateRange

variable {α : Type} [LinearOrderedField α] [FloorRing α]

/-- Range of the month and day that `jdToDate` derives from the day-of-year count `e`. -/
theorem monthDay_range (e : ℤ) (h0 : 0 ≤ e) (h1 : e ≤ 365) :
    1 ≤ (5 * e + 2) / 153 + 3 - 12 * ((5 * e + 2) / 153 / 10) ∧
    (5 * e + 2) / 153 + 3 - 12 * ((5 * e + 2) / 153 / 10) ≤ 12 ∧
    1 ≤ e - (153 * ((5 * e + 2) / 153) + 2) / 5 + 1 ∧
    e - (153 * ((5 * e + 2) / 153) + 2) / 5 + 1 ≤ 31 := by
  have hm : 0 ≤ (5 * e + 2) / 153 ∧ (5 * e + 2) / 153 ≤ 11 := by omega
  have hm1 : 153 * ((5 * e + 2) / 153) ≤ 5 * e + 2 ∧ 5 * e + 2 < 153 * ((5 * e + 2) / 153) + 153 := by
    omega
  generalize (5 * e + 2) / 153 = m at hm hm1 ⊢
  obtain ⟨hm2, hm3⟩ := hm
  interval_cases m <;> omega

/-- Range of the month and day computed by `jdToDateZ`. -/
theorem jdToDateZ_range (x : ℤ) :
    1 ≤ (jdToDateZ x).2.1 ∧ (jdToDateZ x).2.1 ≤ 12 ∧ 1 ≤ (jdToDateZ x).1 ∧
      (jdToDateZ x).1 ≤ 31 := by
  by_cases hx : x > 2299160
  · simp only [jdToDateZ, if_pos hx]
    generalize hb : (4 * (x + 32044) + 3) / 146097 = b
    generalize hc : x + 32044 - b * 146097 / 4 = c
    generalize hd : (4 * c + 3) / 1461 = d
    generalize he : c - 1461 * d / 4 = e
    have hc0 : 0 ≤ c ∧ c ≤ 36524 := by omega
    have he0 : 0 ≤ e ∧ e ≤ 365 := by omega
    obtain ⟨h1, h2, h3, h4⟩ := monthDay_range e he0.1 he0.2
    exact ⟨h1, h2, h3, h4⟩
  · simp only [jdToDateZ, if_neg hx]
    generalize hd : (4 * (x + 32082) + 3) / 1461 = d
    generalize he : x + 32082 - 1461 * d / 4 = e
    have he0 : 0 ≤ e ∧ e ≤ 365 := by omega
    obtain ⟨h1, h2, h3, h4⟩ := monthDay_range e he0.1 he0.2
    exact ⟨h1, h2, h3, h4⟩

/-- Range of the month and day computed by `jdToDate` at an integral day number. -/
theorem jdToDate_range (x : ℤ) :
    (1 : α) ≤ (jdToDate (x : α)).2.1 ∧ (jdToDate (x : α)).2.1 ≤ 12 ∧
      (1 : α) ≤ (jdToDate (x : α)).1 ∧ (jdToDate (x : α)).1 ≤ 31 := by
  rw [jdToDate_intCast]
  obtain ⟨h1, h2, h3, h4⟩ := jdToDateZ_range x
  simp only
  refine ⟨?_, ?_, ?_, ?_⟩
  · exact_mod_cast h1
  · exact_mod_cast h2
  · exact_mod_cast h3
  · exact_mod_cast h4

/-- The all-zero triple is not a value of `jdToDate` at an integral day number. -/
theorem jdToDate_ne_zero (x : ℤ) : jdToDate (x : α) ≠ (0, 0, 0) := by
  intro h
  have h1 := (jdToDate_range (α := α) x).1
  rw [h] at h1
  norm_num at h1

/-- C15. For every integral Julian day number `x`, `jdToDate x` has a month in `1..12` and
a day in `1..31`, so it is not the triple `(0, 0, 0)`. -/
theorem C15_jdToDate_range (x : ℤ) :
    ((1 : α) ≤ (jdToDate (x : α)).2.1 ∧ (jdToDate (x : α)).2.1 ≤ 12) ∧
    ((1 : α) ≤ (jdToDate (x : α)).1 ∧ (jdToDate (x : α)).1 ≤ 31) ∧
    (∃ d m y : ℤ, jdToDate (x : α) = ((d : α), (m : α), (y : α)) ∧ 1 ≤ m ∧ m ≤ 12 ∧ 1 ≤ d ∧ d ≤ 31) ∧
    jdToDate (x : α) ≠ (0, 0, 0) := by
  obtain ⟨h1, h2, h3, h4⟩ := jdToDate_range (α := α) x
  obtain ⟨z1, z2, z3, z4⟩ := jdToDateZ_range x
  exact ⟨⟨h1, h2⟩, ⟨h3, h4⟩, ⟨_, _, _, jdToDate_intCast x, z1, z2, z3, z4⟩, jdToDate_ne_zero x⟩

/-- The two branches of `jdToDate` in terms of `jdToDateTail`. -/
theorem jdToDate_branches (jd : α) :
    jdToDate jd =
      if jd > 2299160 then
        jdToDateTail (Floor ((4 * (jd + 32044) + 3) / 146097))
          (jd + 32044 - Floor ((Floor ((4 * (jd + 32044) + 3) / 146097) * 146097) / 4))
      else jdToDateTail 0 (jd + 32082) := by
  simp only [jdToDate, jdToDateTail]
  split_ifs <;> rfl

/-- C16. The calendar switch sits at day number 2299161 = 15 Oct 1582:
`jdFromDate 15 10 1582 = 2299161`, `jdFromDate 4 10 1582 = 2299160`,
`jdToDate 2299161 = (15, 10, 1582)` and `jdToDate 2299160 = (4, 10, 1582)`; and for an
integral day number `x`, `jdToDate` takes its Julian branch (`b = 0`, `c = x + 32082`)
when `x < 2299161` and its Gregorian branch when `2299161 ≤ x`. -/
theorem C16_calendar_switch :
    jdFromDate (15 : α) 10 1582 = 2299161 ∧ jdFromDate (4 : α) 10 1582 = 2299160 ∧
    jdToDate (2299161 : α) = (15, 10, 1582) ∧ jdToDate (2299160 : α) = (4, 10, 1582) ∧
    (∀ x : ℤ, x < 2299161 → jdToDate (x : α) = jdToDateTail 0 ((x : α) + 32082)) ∧
    (∀ x : ℤ, 2299161 ≤ x → jdToDate (x : α) =
      jdToDateTail (Floor ((4 * ((x : α) + 32044) + 3) / 146097))
        ((x : α) + 32044
          - Floor ((Floor ((4 * ((x : α) + 32044) + 3) / 146097) * 146097) / 4))) := by
  refine ⟨?_, ?_, ?_, ?_, ?_, ?_⟩
  · have h := jdFromDate_intCast (α := α) 15 10 1582
    have e : jdFromDateZ 15 10 1582 = 2299161 := by decide
    rw [e] at h
    exact_mod_cast h
  · have h := jdFromDate_intCast (α := α) 4 10 1582
    have e : jdFromDateZ 4 10 1582 = 2299160 := by decide
    rw [e] at h
    exact_mod_cast h
  · have h := jdToDate_intCast (α := α) 2299161
    have e : jdToDateZ 2299161 = (15, 10, 1582) := by decide
    rw [e] at h
    exact_mod_cast h
  · have h := jdToDate_intCast (α := α) 2299160
    have e : jdToDateZ 2299160 = (4, 10, 1582) := by decide
    rw [e] at h
    exact_mod_cast h
  · intro x hx
    rw [jdToDate_branches, if_neg]
    have : (x : α) ≤ ((2299160 : ℤ) : α) := by exact_mod_cast (by omega : x ≤ 2299160)
    push_cast at this
    exact not_lt.2 this
  · intro x hx
    rw [jdToDate_branches, if_pos]
    have : ((2299160 : ℤ) : α) < (x : α) := by exact_mod_cast (by omega : 2299160 < x)
    push_cast at this
    exact this

end DateRange

/-- In exact real arithmetic `getSunLongitude` is an integer between 0 and 11 for every day
number and time zone.  The `float64` code can return `-1` where its `SunLongitude` is rounded
below zero. -/
theorem getSunLongitude_range_exact (dayNumber timeZone : ℝ) :
    ∃ n : ℤ, getSunLongitude realTrig dayNumber timeZone = (n : ℝ) ∧ 0 ≤ n ∧ n ≤ 11 := by
  obtain ⟨h1, h2⟩ := SunLongitude_range realTrig Real.pi_pos (dayNumber - 0.5 - timeZone / 24)
  have hpi : (0 : ℝ) < realTrig.pi := Real.pi_pos
  refine ⟨⌊SunLongitude realTrig (dayNumber - 0.5 - timeZone / 24) / realTrig.pi * 6⌋, rfl, ?_, ?_⟩
  · apply Int.floor_nonneg.2
    positivity
  · have : SunLongitude realTrig (dayNumber - 0.5 - timeZone / 24) / realTrig.pi * 6 < 12 := by
      rw [div_mul_eq_mul_div, div_lt_iff₀ hpi]
      linarith
    have h3 : ⌊SunLongitude realTrig (dayNumber - 0.5 - timeZone / 24) / realTrig.pi * 6⌋ < 12 := by
      rw [Int.floor_lt]
      exact_mod_cast this
    omega

section Sentinel

variable {α : Type} [LinearOrderedField α] [FloorRing α]

theorem bool2float64_ne_zero (b : Bool) : (bool2float64 b : α) ≠ 0 ↔ b = true := by
  cases b <;> simp [bool2float64]

/-- Function `lunarMonthStart` has no value exactly where the leap request is refused. -/
theorem lunarMonthStart_eq_none (tg : Trig α) (lunarMonth lunarYear lunarLeap timeZone : α) :
    lunarMonthStart tg lunarMonth lunarYear lunarLeap timeZone = none ↔
      lunarLeap ≠ 0 ∧
      (lunarAnchors tg lunarMonth lunarYear timeZone).2
        - (lunarAnchors tg lunarMonth lunarYear timeZone).1 > 365 ∧
      lunarMonth ≠ leapMonthOf
        (getLeapMonthOffset tg (lunarAnchors tg lunarMonth lunarYear timeZone).1 timeZone) := by
  simp only [lunarMonthStart]
  split_ifs with h1 h2
  · simp only [true_iff]
    exact ⟨h2.1, h1, h2.2⟩
  · simp only [false_iff]
    intro h
    exact h2 ⟨h.1, h.2.2⟩
  · simp only [false_iff]
    intro h
    exact h1 h.2.1

/-- Value of `convertLunar2Solar` at an integral day is all-zero exactly where
`lunarMonthStart` has no value. -/
theorem convertLunar2Solar_eq_zero (tg : Trig α) (lunarDay : ℤ)
    (lunarMonth lunarYear lunarLeap timeZone : α) :
    convertLunar2Solar tg (lunarDay : α) lunarMonth lunarYear lunarLeap timeZone = (0, 0, 0) ↔
      lunarMonthStart tg lunarMonth lunarYear lunarLeap timeZone = none := by
  rw [convertLunar2Solar_eq]
  cases hms : lunarMonthStart tg lunarMonth lunarYear lunarLeap timeZone with
  | none => simp
  | some ms =>
    obtain ⟨n, hn⟩ := lunarMonthStart_int tg lunarMonth lunarYear lunarLeap timeZone ms hms
    simp only [reduceCtorEq, iff_false]
    have e : ms + (lunarDay : α) - 1 = ((n + lunarDay - 1 : ℤ) : α) := by
      rw [hn]
      push_cast
      ring
    rw [e]
    exact jdToDate_ne_zero _

/-- C17. For every lunar year, month, integer day, leap flag and time zone,
`convertLunar2Solar` returns `(0, 0, 0)` if and only if the leap flag is set, the
bracketing month-11 starts satisfy `b11 - a11 > 365`, and `lunarMonth` differs from
`leapMonth`; in every other case the result is `jdToDate (monthStart + lunarDay - 1)` for
the month start `monthStart` computed by the function, and it is not all-zero; and when
`b11 - a11 ≤ 365` the result is the same for both values of the leap flag. -/
theorem C17_sentinel_iff (tg : Trig α) (lunarYear lunarMonth lunarDay : ℤ) (lunarLeap : Bool)
    (timeZone : α) :
    (convertLunar2Solar tg (lunarDay : α) (lunarMonth : α) (lunarYear : α)
        (bool2float64 lunarLeap) timeZone = (0, 0, 0) ↔
      lunarLeap = true ∧
      (lunarAnchors tg (lunarMonth : α) (lunarYear : α) timeZone).2
        - (lunarAnchors tg (lunarMonth : α) (lunarYear : α) timeZone).1 > 365 ∧
      (lunarMonth : α) ≠ leapMonthOf (getLeapMonthOffset tg
        (lunarAnchors tg (lunarMonth : α) (lunarYear : α) timeZone).1 timeZone)) ∧
    (¬ (lunarLeap = true ∧
        (lunarAnchors tg (lunarMonth : α) (lunarYear : α) timeZone).2
          - (lunarAnchors tg (lunarMonth : α) (lunarYear : α) timeZone).1 > 365 ∧
        (lunarMonth : α) ≠ leapMonthOf (getLeapMonthOffset tg
          (lunarAnchors tg (lunarMonth : α) (lunarYear : α) timeZone).1 timeZone)) →
      ∃ monthStart : α,
        lunarMonthStart tg (lunarMonth : α) (lunarYear : α) (bool2float64 lunarLeap) timeZone
          = some monthStart ∧
        convertLunar2Solar tg (lunarDay : α) (lunarMonth : α) (lunarYear : α)
          (bool2float64 lunarLeap) timeZone = jdToDate (monthStart + (lunarDay : α) - 1) ∧
        convertLunar2Solar tg (lunarDay : α) (lunarMonth : α) (lunarYear : α)
          (bool2float64 lunarLeap) timeZone ≠ (0, 0, 0)) ∧
    ((lunarAnchors tg (lunarMonth : α) (lunarYear : α) timeZone).2
        - (lunarAnchors tg (lunarMonth : α) (lunarYear : α) timeZone).1 ≤ 365 →
      convertLunar2Solar tg (lunarDay : α) (lunarMonth : α) (lunarYear : α)
          (bool2float64 true) timeZone
        = convertLunar2Solar tg (lunarDay : α) (lunarMonth : α) (lunarYear : α)
          (bool2float64 false) timeZone) := by
  have hiff := (convertLunar2Solar_eq_zero tg lunarDay (lunarMonth : α) (lunarYear : α)
    (bool2float64 lunarLeap) timeZone).trans
    (lunarMonthStart_eq_none tg (lunarMonth : α) (lunarYear : α) (bool2float64 lunarLeap)
      timeZone)
  rw [bool2float64_ne_zero] at hiff
  refine ⟨hiff, ?_, ?_⟩
  · intro hn
    have hne := fun h => hn (hiff.1 h)
    cases hms : lunarMonthStart tg (lunarMonth : α) (lunarYear : α) (bool2float64 lunarLeap)
        timeZone with
    | none =>
      exfalso
      exact hne ((convertLunar2Solar_eq_zero tg lunarDay _ _ _ _).2 hms)
    | some ms =>
      refine ⟨ms, rfl, ?_, hne⟩
      rw [convertLunar2Solar_eq, hms]
  · intro h
    have h' := not_lt.2 h
    simp only [convertLunar2Solar]
    rw [if_neg h', if_neg h']

end Sentinel

section Recover

variable {α : Type} [LinearOrderedField α] [FloorRing α]

theorem abs_mul_le_mul (a b A B : α) (ha : |a| ≤ A) (hb : |b| ≤ B) : |a * b| ≤ A * B := by
  rw [abs_mul]
  exact mul_le_mul ha hb (abs_nonneg b) (le_trans (abs_nonneg a) ha)

/-- The sine terms of `NewMoon` add up to less than `0.64` in absolute value when the sine
is bounded by one and `|T| ≤ 17`. -/
theorem sineSum_nmTerms_bound (tg : Trig α) (hsin : ∀ x, |tg.sin x| ≤ 1) (k : α)
    (hT : |nmT k| ≤ 17) : |sineSum tg (nmTerms k)| ≤ 0.64 := by
  have hs : ∀ x, -1 ≤ tg.sin x ∧ tg.sin x ≤ 1 := fun x => abs_le.1 (hsin x)
  simp only [sineSum, nmTerms, List.map_cons, List.map_nil, List.sum_cons, List.sum_nil]
  have hc : |0.1734 - 0.000393 * nmT k| ≤ 0.181 := by
    obtain ⟨h1, h2⟩ := abs_le.1 hT
    rw [abs_le]
    constructor <;> linarith
  have h2 := abs_le.1 (abs_mul_le_mul _ _ _ _ hc (hsin (nmM k * (tg.pi / 180))))
  generalize (0.1734 - 0.000393 * nmT k) * tg.sin (nmM k * (tg.pi / 180)) = u at h2
  obtain ⟨a1, b1⟩ := hs (nmArg0 k * (tg.pi / 180))
  obtain ⟨a3, b3⟩ := hs (2 * nmM k * (tg.pi / 180))
  obtain ⟨a4, b4⟩ := hs (nmMpr k * (tg.pi / 180))
  obtain ⟨a5, b5⟩ := hs (2 * nmMpr k * (tg.pi / 180))
  obtain ⟨a6, b6⟩ := hs (3 * nmMpr k * (tg.pi / 180))
  obtain ⟨a7, b7⟩ := hs (2 * nmF k * (tg.pi / 180))
  obtain ⟨a8, b8⟩ := hs ((nmM k + nmMpr k) * (tg.pi / 180))
  obtain ⟨a9, b9⟩ := hs ((nmM k - nmMpr k) * (tg.pi / 180))
  obtain ⟨a10, b10⟩ := hs ((2 * nmF k + nmM k) * (tg.pi / 180))
  obtain ⟨a11, b11⟩ := hs ((2 * nmF k - nmM k) * (tg.pi / 180))
  obtain ⟨a12, b12⟩ := hs ((2 * nmF k + nmMpr k) * (tg.pi / 180))
  obtain ⟨a13, b13⟩ := hs ((2 * nmF k - nmMpr k) * (tg.pi / 180))
  obtain ⟨a14, b14⟩ := hs ((2 * nmMpr k + nmM k) * (tg.pi / 180))
  rw [abs_le]
  constructor <;> linarith

/-- The polynomial part of `NewMoon` stays within `0.17` of its linear part when
`|T| ≤ 17`. -/
theorem nmBase_bound (k : α) (hT : |nmT k| ≤ 17) :
    |nmBase k - (2415020.75933 + 29.53058868 * k)| ≤ 0.17 := by
  have h2 := abs_le.1 (abs_mul_le_mul _ _ _ _ hT hT)
  have h3 := abs_le.1 (abs_mul_le_mul _ _ _ _ (abs_mul_le_mul _ _ _ _ hT hT) hT)
  have h4 := abs_le.1 (abs_mul_le_mul _ _ _ _ hT
    (abs_mul_le_mul _ _ _ _ (abs_mul_le_mul _ _ _ _ hT hT) hT))
  have h1 := abs_le.1 hT
  have h2p : 0 ≤ nmT k * nmT k := mul_self_nonneg _
  have h4p : 0 ≤ nmT k * (nmT k * nmT k * nmT k) := by
    have : nmT k * (nmT k * nmT k * nmT k) = (nmT k * nmT k) * (nmT k * nmT k) := by ring
    rw [this]
    exact mul_self_nonneg _
  have e4 : 0.000000081 * nmT k * (nmT k * nmT k * nmT k)
      = 0.000000081 * (nmT k * (nmT k * nmT k * nmT k)) := by ring
  simp only [nmBase]
  rw [e4]
  generalize nmT k * (nmT k * nmT k * nmT k) = T4 at h4 h4p ⊢
  generalize nmT k * nmT k * nmT k = T3 at h3 ⊢
  generalize nmT k * nmT k = T2 at h2 h2p ⊢
  generalize nmT k = T at h1 ⊢
  rw [abs_le]
  split_ifs <;> constructor <;> linarith

/-- The new-moon index is recovered from the new-moon day: both ways the source writes the
formula. -/
theorem newMoonIndex_recover (tg : Trig α) (hsin : ∀ x, |tg.sin x| ≤ 1) (k : ℤ)
    (hk : |k| ≤ 20000) (tz : α) (h1 : -12 ≤ tz) (h2 : tz ≤ 14) :
    Floor ((getNewMoonDay tg (k : α) tz - 2415021.076998695) / 29.530588853 + 0.5) = (k : α) ∧
    Floor (0.5 + (getNewMoonDay tg (k : α) tz - 2415021.076998695) / 29.530588853) = (k : α) := by
  obtain ⟨hk1, hk2⟩ := abs_le.1 hk
  have hk1' : (-20000 : α) ≤ (k : α) := by exact_mod_cast hk1
  have hk2' : (k : α) ≤ 20000 := by exact_mod_cast hk2
  have hT : |nmT (k : α)| ≤ 17 := by
    rw [abs_le]
    simp only [nmT]
    constructor
    · rw [le_div_iff₀ (by norm_num)]
      linarith
    · rw [div_le_iff₀ (by norm_num)]
      linarith
  obtain ⟨s1, s2⟩ := abs_le.1 (sineSum_nmTerms_bound tg hsin (k : α) hT)
  obtain ⟨b1, b2⟩ := abs_le.1 (nmBase_bound (k : α) hT)
  have hf1 : getNewMoonDay tg (k : α) tz ≤ NewMoon tg (k : α) + 0.5 + tz / 24 := by
    unfold getNewMoonDay Floor
    exact Int.floor_le _
  have hf2 : NewMoon tg (k : α) + 0.5 + tz / 24 < getNewMoonDay tg (k : α) tz + 1 := by
    unfold getNewMoonDay Floor
    exact Int.lt_floor_add_one _
  rw [NewMoon_eq] at hf1 hf2
  generalize getNewMoonDay tg (k : α) tz = nm at hf1 hf2 ⊢
  generalize sineSum tg (nmTerms (k : α)) = S at s1 s2 hf1 hf2
  generalize nmBase (k : α) = B at b1 b2 hf1 hf2
  have hy : nm - 2415021.076998695
      = (nm - 2415021.076998695) / 29.530588853 * 29.530588853 := by
    rw [div_mul_cancel₀]
    norm_num
  generalize (nm - 2415021.076998695) / 29.530588853 = y at hy ⊢
  have htz : tz / 24 = tz * (1 / 24) := by ring
  rw [htz] at hf1 hf2
  constructor
  · apply Floor_eq <;> linarith
  · apply Floor_eq <;> linarith

/-- C19. The new-moon index is recovered exactly from a new-moon day: for every integer `k`
with `|k| ≤ 20000` and every time-zone offset `tz` with `-12 ≤ tz ≤ 14`,
`Floor ((getNewMoonDay k tz - 2415021.076998695) / 29.530588853 + 0.5) = k` (the formula of
`getLeapMonthOffset`), and the same with the summands in the order of `convertLunar2Solar`;
only `|sin| ≤ 1` is used of the sine. -/
theorem C19_newMoonIndex_recover (tg : Trig α) (hsin : ∀ x, |tg.sin x| ≤ 1) (k : ℤ)
    (hk : |k| ≤ 20000) (tz : α) (h1 : -12 ≤ tz) (h2 : tz ≤ 14) :
    Floor ((getNewMoonDay tg (k : α) tz - 2415021.076998695) / 29.530588853 + 0.5) = (k : α) ∧
    Floor (0.5 + (getNewMoonDay tg (k : α) tz - 2415021.076998695) / 29.530588853) = (k : α) :=
  newMoonIndex_recover tg hsin k hk tz h1 h2

end Recover

/-- C19 at the real sine, `k = 1524` (the new moon of 21 March 2023) and time zone 7. -/
theorem C19_newMoonIndex_recover_witness :
    Floor ((getNewMoonDay realTrig ((1524 : ℤ) : ℝ) 7 - 2415021.076998695) / 29.530588853 + 0.5)
        = ((1524 : ℤ) : ℝ) ∧
    Floor (0.5 + (getNewMoonDay realTrig ((1524 : ℤ) : ℝ) 7 - 2415021.076998695) / 29.530588853)
        = ((1524 : ℤ) : ℝ) :=
  C19_newMoonIndex_recover realTrig (fun x => Real.abs_sin_le_one x) 1524 (by decide) 7
    (by norm_num) (by norm_num)

section Month11

variable {α : Type} [LinearOrderedField α] [FloorRing α]

/-- The day returned by `getLunarMonth11` is the new-moon day of index
`lunarMonth11Index`. -/
theorem getLunarMonth11_eq_index (tg : Trig α) (yy timeZone : α) :
    getLunarMonth11 tg yy timeZone
      = getNewMoonDay tg (lunarMonth11Index tg yy timeZone) timeZone := by
  simp only [getLunarMonth11, lunarMonth11Index]
  split_ifs <;> rfl

/-- C12 (amended). Let `k = Floor ((jdFromDate 31 12 yy - 2415021) / 29.530588853)` be the
new-moon index that `getLunarMonth11` starts from. If the sun-longitude index at the
new-moon day of index `k - 1` is below 9 and the one at the new-moon day of index `k + 1` is
at least 9, then the lunar month starting on the day returned by `getLunarMonth11 yy
timeZone` contains the winter solstice: the index at that day is below 9 and the index at
the following new-moon day is at least 9. -/
theorem C12_month11_contains_solstice (tg : Trig α) (yy timeZone : α)
    (hprev : getSunLongitude tg (getNewMoonDay tg
      (Floor ((jdFromDate 31 12 yy - 2415021) / 29.530588853) - 1) timeZone) timeZone < 9)
    (hnext : 9 ≤ getSunLongitude tg (getNewMoonDay tg
      (Floor ((jdFromDate 31 12 yy - 2415021) / 29.530588853) + 1) timeZone) timeZone) :
    getLunarMonth11 tg yy timeZone
      = getNewMoonDay tg (lunarMonth11Index tg yy timeZone) timeZone ∧
    getSunLongitude tg (getLunarMonth11 tg yy timeZone) timeZone < 9 ∧
    9 ≤ getSunLongitude tg
      (getNewMoonDay tg (lunarMonth11Index tg yy timeZone + 1) timeZone) timeZone := by
  refine ⟨getLunarMonth11_eq_index tg yy timeZone, ?_, ?_⟩
  · simp only [getLunarMonth11]
    split_ifs with h
    · exact hprev
    · exact not_le.1 h
  · simp only [lunarMonth11Index]
    split_ifs with h
    · rw [sub_add_cancel]
      exact h
    · exact hnext

end Month11

/-! ### Evaluations for year 2023 and year -1057, time zone 7 -/

theorem kOfYear_2023 :
    Floor ((jdFromDate 31 12 (((2023 : ℤ) : ℝ)) - 2415021) / 29.530588853) = ((1533 : ℤ) : ℝ) := by
  rw [kOfYear_spec]
  have : kOfYear 2023 = 1533 := by decide!
  rw [this]

theorem kOfYear_m1057 :
    Floor ((jdFromDate 31 12 (((-1057 : ℤ) : ℝ)) - 2415021) / 29.530588853)
      = ((-36562 : ℤ) : ℝ) := by
  rw [kOfYear_spec]
  have : kOfYear (-1057) = -36562 := by decide!
  rw [this]

theorem C12_witness_prev :
    getSunLongitude realTrig (getNewMoonDay realTrig
      (Floor ((jdFromDate 31 12 (((2023 : ℤ) : ℝ)) - 2415021) / 29.530588853) - 1)
        ((7 : ℤ) : ℝ)) ((7 : ℤ) : ℝ) < 9 := by
  rw [kOfYear_2023]
  have e : ((1533 : ℤ) : ℝ) - 1 = ((1532 : ℤ) : ℝ) := by norm_num
  rw [e, nmLookup_sound 7 nmTable7b 1532 2460262 (by decide!),
    slLookup_sound 7 slTable7b 2460262 7 (by decide!)]
  norm_num

theorem C12_witness_next :
    9 ≤ getSunLongitude realTrig (getNewMoonDay realTrig
      (Floor ((jdFromDate 31 12 (((2023 : ℤ) : ℝ)) - 2415021) / 29.530588853) + 1)
        ((7 : ℤ) : ℝ)) ((7 : ℤ) : ℝ) := by
  rw [kOfYear_2023]
  have e : ((1533 : ℤ) : ℝ) + 1 = ((1534 : ℤ) : ℝ) := by norm_num
  rw [e, nmLookup_sound 7 nmTable7b 1534 2460321 (by decide!),
    slLookup_sound 7 slTable7b 2460321 9 (by decide!)]
  norm_num

/-- Witness for C12 (amended): year 2023, time zone 7. -/
theorem C12_month11_contains_solstice_witness :
    getLunarMonth11 realTrig ((2023 : ℤ) : ℝ) ((7 : ℤ) : ℝ)
      = getNewMoonDay realTrig (lunarMonth11Index realTrig ((2023 : ℤ) : ℝ) ((7 : ℤ) : ℝ))
          ((7 : ℤ) : ℝ) ∧
    getSunLongitude realTrig (getLunarMonth11 realTrig ((2023 : ℤ) : ℝ) ((7 : ℤ) : ℝ))
      ((7 : ℤ) : ℝ) < 9 ∧
    9 ≤ getSunLongitude realTrig
      (getNewMoonDay realTrig (lunarMonth11Index realTrig ((2023 : ℤ) : ℝ) ((7 : ℤ) : ℝ) + 1)
        ((7 : ℤ) : ℝ)) ((7 : ℤ) : ℝ) :=
  C12_month11_contains_solstice realTrig ((2023 : ℤ) : ℝ) ((7 : ℤ) : ℝ) C12_witness_prev
    C12_witness_next

/-- C12 as stated fails for year -1057, time zone 7: `getLunarMonth11` returns day 1335324
(2 December), the new-moon day of index -36562, where the sun-longitude index is 8; at the
following new-moon day, 1335353 (31 December), the index is still 8, below 9. -/
theorem C12_counterexample :
    getLunarMonth11 realTrig ((-1057 : ℤ) : ℝ) ((7 : ℤ) : ℝ) = ((1335324 : ℤ) : ℝ) ∧
    lunarMonth11Index realTrig ((-1057 : ℤ) : ℝ) ((7 : ℤ) : ℝ) = ((-36562 : ℤ) : ℝ) ∧
    getNewMoonDay realTrig (((-36562 : ℤ) : ℝ) + 1) ((7 : ℤ) : ℝ) = ((1335353 : ℤ) : ℝ) ∧
    getSunLongitude realTrig ((1335353 : ℤ) : ℝ) ((7 : ℤ) : ℝ) = 8 ∧
    ¬ (9 ≤ getSunLongitude realTrig
      (getNewMoonDay realTrig (lunarMonth11Index realTrig ((-1057 : ℤ) : ℝ) ((7 : ℤ) : ℝ) + 1)
        ((7 : ℤ) : ℝ)) ((7 : ℤ) : ℝ)) := by
  have h0 : getNewMoonDay realTrig ((-36562 : ℤ) : ℝ) ((7 : ℤ) : ℝ) = ((1335324 : ℤ) : ℝ) :=
    nmLookup_sound 7 nmTable7b (-36562) 1335324 (by decide!)
  have s0 : getSunLongitude realTrig ((1335324 : ℤ) : ℝ) ((7 : ℤ) : ℝ) = ((8 : ℤ) : ℝ) :=
    slLookup_sound 7 slTable7b 1335324 8 (by decide!)
  have e : ((-36562 : ℤ) : ℝ) + 1 = ((-36561 : ℤ) : ℝ) := by norm_num
  have h1 : getNewMoonDay realTrig (((-36562 : ℤ) : ℝ) + 1) ((7 : ℤ) : ℝ)
      = ((1335353 : ℤ) : ℝ) := by
    rw [e]
    exact nmLookup_sound 7 nmTable7b (-36561) 1335353 (by decide!)
  have s1 : getSunLongitude realTrig ((1335353 : ℤ) : ℝ) ((7 : ℤ) : ℝ) = ((8 : ℤ) : ℝ) :=
    slLookup_sound 7 slTable7b 1335353 8 (by decide!)
  have hi : lunarMonth11Index realTrig ((-1057 : ℤ) : ℝ) ((7 : ℤ) : ℝ)
      = ((-36562 : ℤ) : ℝ) := by
    simp only [lunarMonth11Index]
    rw [kOfYear_m1057, h0, s0, if_neg (by norm_num)]
  refine ⟨?_, hi, h1, ?_, ?_⟩
  · rw [getLunarMonth11_eq_index, hi, h0]
  · rw [s1]
    norm_num
  · rw [hi, h1, s1]
    norm_num

section LeapMonthNumber

variable {α : Type} [LinearOrderedField α] [FloorRing α]

/-- The month number of a date that `convertSolar2Lunar` flags as leap is
`leapMonthNumber` of the leap offset of its anchor. -/
theorem leap_month_is_leapMonthNumber (tg : Trig α) (dd mm yy timeZone : α)
    (h : (convertSolar2Lunar tg dd mm yy timeZone).2.2.2 = 1) :
    (convertSolar2Lunar tg dd mm yy timeZone).2.1
      = leapMonthNumber
          (getLeapMonthOffset tg (solarAnchors tg dd mm yy timeZone).2.2.1 timeZone) := by
  rw [leap_month_of_anchor tg dd mm yy timeZone h]
  rfl

/-- Comparison of `leapMonthNumber` and `leapMonthOf` on the range `1..13` of the leap
offset: they agree except at offset 2. -/
theorem leapMonthNumber_vs_leapMonthOf (L : ℤ) (h1 : 1 ≤ L) (h13 : L ≤ 13) :
    (L ≠ 2 → leapMonthNumber (L : α) = leapMonthOf (L : α)) ∧
    (L = 2 → leapMonthNumber (L : α) = 12 ∧ leapMonthOf (L : α) = 0) := by
  have hL : L = 1 ∨ L = 2 ∨ 3 ≤ L := by omega
  rcases hL with hL | hL | hL
  · subst hL
    refine ⟨fun _ => ?_, fun h => absurd h (by decide)⟩
    simp only [leapMonthNumber, leapMonthOf]
    norm_num
  · subst hL
    refine ⟨fun h => absurd rfl h, fun _ => ?_⟩
    simp only [leapMonthNumber, leapMonthOf]
    norm_num
  · refine ⟨fun _ => ?_, fun h => by omega⟩
    have h3 : (3 : α) ≤ (L : α) := by exact_mod_cast hL
    simp only [leapMonthNumber, leapMonthOf]
    rw [if_pos (by linarith), if_neg (by linarith)]
    ring

end LeapMonthNumber

/-- C18 fails at leap offset 2. On the range `1..13` of the leap offset `L`, the month
number `convertSolar2Lunar` gives to the leap month equals the `leapMonth` required by
`convertLunar2Solar` when `L ≠ 2`; at `L = 2` the first is 12 and the second is 0. With
time zone 7, 12 January 1499 is converted to day 1 of leap month 12 of lunar year 1498, and
`Lunar2solar` answers that date with the all-zero date. -/
theorem C18_leap_month_mismatch :
    (∀ L : ℤ, 1 ≤ L → L ≤ 13 → L ≠ 2 → leapMonthNumber (L : ℝ) = leapMonthOf (L : ℝ)) ∧
    leapMonthNumber (2 : ℝ) = 12 ∧ leapMonthOf (2 : ℝ) = 0 ∧
    Solar2lunar realTrig 1499 1 12 7 = ⟨1498, 12, 1, true⟩ ∧
    Lunar2solar realTrig 1498 12 1 true 7 = ⟨0, 0, 0⟩ := by
  refine ⟨fun L h1 h13 h2 => (leapMonthNumber_vs_leapMonthOf L h1 h13).1 h2, ?_, ?_,
    Solar2lunar_of_check 7 nmTable7b slTable7b 1499 1 12 _ (by decide!),
    Lunar2solar_of_check 7 nmTable7b slTable7b 1498 12 1 true _ (by decide!)⟩
  · simp only [leapMonthNumber]
    norm_num
  · simp only [leapMonthOf]
    norm_num

section RoundTripP

/-- With total lookups, `getLunarMonth11P` is a total function of the year. -/
theorem getLunarMonth11P_fun (nm sl : ℤ → ℤ) :
    ∃ g : ℤ → ℤ, ∀ y, getLunarMonth11P (fun k => some (nm k)) (fun d => some (sl d)) y
      = some (g y) := by
  refine ⟨fun y => if sl (nm (kOfYear y)) ≥ 9 then nm (kOfYear y - 1) else nm (kOfYear y), ?_⟩
  intro y
  simp only [getLunarMonth11P, Option.bind_eq_bind, Option.some_bind, Option.pure_def]
  split_ifs <;> rfl

/-- The anchors computed by `solarAnchorsP` are the month-11 starts of the years
`lunarYear - 1` and `lunarYear`. -/
theorem solarAnchorsP_shape (nm sl g : ℤ → ℤ)
    (hg : ∀ y, getLunarMonth11P (fun k => some (nm k)) (fun d => some (sl d)) y = some (g y))
    (dd mm yy : ℤ) (s : ℤ × ℤ × ℤ × ℤ × ℤ)
    (hs : solarAnchorsP (fun k => some (nm k)) (fun d => some (sl d)) dd mm yy = some s) :
    s.2.2.1 = g (s.2.2.2.2 - 1) ∧ s.2.2.2.1 = g s.2.2.2.2 := by
  simp only [solarAnchorsP, Option.bind_eq_bind, Option.some_bind, Option.pure_def, hg] at hs
  split_ifs at hs <;> simp only [Option.some_bind, Option.some.injEq] at hs <;>
    split_ifs at hs <;> simp only [Option.some.injEq] at hs <;> rw [← hs] <;> simp

/-- The month number, lunar year and leap flag that `convertSolar2LunarP` derives from the
anchors. -/
theorem convertSolar2LunarP_result (nm sl : ℤ → ℤ) (dd mm yy : ℤ) (s : ℤ × ℤ × ℤ × ℤ × ℤ)
    (r : ℤ × ℤ × ℤ × ℤ) (L : ℤ)
    (hs : solarAnchorsP (fun k => some (nm k)) (fun d => some (sl d)) dd mm yy = some s)
    (hr : convertSolar2LunarP (fun k => some (nm k)) (fun d => some (sl d)) dd mm yy = some r)
    (hL : getLeapMonthOffsetP (fun k => some (nm k)) (fun d => some (sl d)) s.2.2.1 = some L) :
    r.1 = s.1 - s.2.1 + 1 ∧
    r.2.2.2 = (if s.2.2.2.1 - s.2.2.1 > 365 ∧ (s.2.1 - s.2.2.1) / 29 = L then 1 else 0) ∧
    r.2.1 = (if (if s.2.2.2.1 - s.2.2.1 > 365 ∧ (s.2.1 - s.2.2.1) / 29 ≥ L
          then (s.2.1 - s.2.2.1) / 29 + 10 else (s.2.1 - s.2.2.1) / 29 + 11) > 12
        then (if s.2.2.2.1 - s.2.2.1 > 365 ∧ (s.2.1 - s.2.2.1) / 29 ≥ L
          then (s.2.1 - s.2.2.1) / 29 + 10 else (s.2.1 - s.2.2.1) / 29 + 11) - 12
        else (if s.2.2.2.1 - s.2.2.1 > 365 ∧ (s.2.1 - s.2.2.1) / 29 ≥ L
          then (s.2.1 - s.2.2.1) / 29 + 10 else (s.2.1 - s.2.2.1) / 29 + 11)) ∧
    r.2.2.1 = (if r.2.1 ≥ 11 ∧ (s.2.1 - s.2.2.1) / 29 < 4 then s.2.2.2.2 - 1 else s.2.2.2.2) := by
  simp only [convertSolar2LunarP, Option.bind_eq_bind, Option.some_bind, Option.pure_def, hs,
    hL] at hr
  generalize (s.2.1 - s.2.2.1) / 29 = diff at hr ⊢
  split_ifs at hr <;> simp only [Option.some_bind, Option.some.injEq] at hr <;> rw [← hr] <;>
    refine ⟨rfl, ?_, ?_, ?_⟩ <;> dsimp only <;> split_ifs <;> first | rfl | omega

end RoundTripP

section RoundTripP2

/-- Month numbering of `convertSolar2Lunar` inverted by the offset arithmetic of
`convertLunar2Solar`, for a month that starts `diff` new moons after the anchor of a year
with leap offset `L`; `a` and `b` are the two anchors. -/
theorem month_offset_inverse (a b diff L m leap : ℤ) (hL1 : 1 ≤ L) (hL13 : L ≤ 13)
    (hleap : leap = if b - a > 365 ∧ diff = L then 1 else 0)
    (hm : m = if (if b - a > 365 ∧ diff ≥ L then diff + 10 else diff + 11) > 12
        then (if b - a > 365 ∧ diff ≥ L then diff + 10 else diff + 11) - 12
        else (if b - a > 365 ∧ diff ≥ L then diff + 10 else diff + 11))
    (hd0 : 0 ≤ diff)
    (hd : diff ≤ 11 ∨ (b - a > 365 ∧ diff = 12 ∧ L ≤ 12))
    (hslip : ¬ (leap = 1 ∧ m = 12)) :
    (m ≥ 11 → diff < 4) ∧
    (b - a > 365 →
      ¬ (leap ≠ 0 ∧ m ≠ (if L - 2 < 0 then L - 2 + 12 else L - 2)) ∧
      (if leap ≠ 0 ∨ (if m - 11 < 0 then m - 11 + 12 else m - 11) ≥ L
        then (if m - 11 < 0 then m - 11 + 12 else m - 11) + 1
        else (if m - 11 < 0 then m - 11 + 12 else m - 11)) = diff) ∧
    (¬ (b - a > 365) → (if m - 11 < 0 then m - 11 + 12 else m - 11) = diff) := by
  by_cases hlong : b - a > 365
  · simp only [hlong, true_and] at hleap hm
    simp only [hlong, true_implies, not_true_eq_false, false_implies, and_true]
    rcases lt_trichotomy diff L with h | h | h
    · have c1 : ¬ (diff = L) := by omega
      have c2 : ¬ (diff ≥ L) := by omega
      simp only [c1, c2, if_false] at hleap hm
      subst hleap
      have hd11 : diff ≤ 11 := by omega
      by_cases c3 : diff + 11 > 12
      · simp only [c3, if_true] at hm
        subst hm
        refine ⟨by omega, by omega, ?_⟩
        split_ifs <;> omega
      · simp only [c3, if_false] at hm
        subst hm
        refine ⟨by omega, by omega, ?_⟩
        split_ifs <;> omega
    · subst h
      simp only [ge_iff_le, le_refl, if_true] at hleap hm
      subst hleap
      by_cases c3 : diff + 10 > 12
      · simp only [c3, if_true] at hm
        subst hm
        refine ⟨by omega, ?_, ?_⟩
        · split_ifs <;> omega
        · split_ifs <;> omega
      · simp only [c3, if_false] at hm
        subst hm
        have hne : ¬ (diff + 10 = 12) := fun e => hslip ⟨rfl, e⟩
        refine ⟨by omega, ?_, ?_⟩
        · split_ifs <;> omega
        · split_ifs <;> omega
    · have c1 : ¬ (diff = L) := by omega
      have c2 : diff ≥ L := by omega
      simp only [c1, c2, if_true, if_false] at hleap hm
      subst hleap
      by_cases c3 : diff + 10 > 12
      · simp only [c3, if_true] at hm
        subst hm
        refine ⟨by omega, by omega, ?_⟩
        split_ifs <;> omega
      · simp only [c3, if_false] at hm
        subst hm
        refine ⟨by omega, by omega, ?_⟩
        split_ifs <;> omega
  · simp only [hlong, false_and, if_false] at hleap hm
    simp only [hlong, false_implies, not_false_eq_true, true_implies, true_and]
    have hd11 : diff ≤ 11 := by
      rcases hd with h | h
      · exact h
      · exact absurd h.1 hlong
    by_cases c3 : diff + 11 > 12
    · simp only [c3, if_true] at hm
      subst hm
      refine ⟨by omega, ?_⟩
      split_ifs <;> omega
    · simp only [c3, if_false] at hm
      subst hm
      refine ⟨by omega, ?_⟩
      split_ifs <;> omega

end RoundTripP2

section RoundTripP3

/-- Month numbering of `convertSolar2Lunar` for a month that starts on the next anchor:
it is month 11, not leap. -/
theorem month_at_next_anchor (a b diff L m leap : ℤ)
    (hleap : leap = if b - a > 365 ∧ diff = L then 1 else 0)
    (hm : m = if (if b - a > 365 ∧ diff ≥ L then diff + 10 else diff + 11) > 12
        then (if b - a > 365 ∧ diff ≥ L then diff + 10 else diff + 11) - 12
        else (if b - a > 365 ∧ diff ≥ L then diff + 10 else diff + 11))
    (hd : (¬ (b - a > 365) ∧ diff = 12) ∨ (b - a > 365 ∧ diff = 13 ∧ L ≤ 12)) :
    m = 11 ∧ leap = 0 := by
  rcases hd with ⟨h1, h2⟩ | ⟨h1, h2, h3⟩
  · simp only [h1, false_and, if_false] at hleap hm
    subst h2
    simp only [show (12 : ℤ) + 11 > 12 by decide, if_true] at hm
    exact ⟨by omega, hleap⟩
  · have c1 : ¬ (diff = L) := by omega
    have c2 : diff ≥ L := by omega
    simp only [h1, c1, c2, true_and, if_true, if_false] at hleap hm
    subst h2
    simp only [show (13 : ℤ) + 10 > 12 by decide, if_true] at hm
    exact ⟨by omega, hleap⟩

/-- Range of `diff` for a month that does not start on the next anchor. -/
theorem diff_range_before_anchor (a b diff L : ℤ)
    (hshort : b - a ≤ 365 → diff ≤ 12)
    (hlong : b - a > 365 → diff ≤ 13 ∧ (12 ≤ diff → L ≤ 12))
    (hB : ¬ ((¬ (b - a > 365) ∧ diff = 12) ∨ (b - a > 365 ∧ diff = 13))) :
    diff ≤ 11 ∨ (b - a > 365 ∧ diff = 12 ∧ L ≤ 12) := by
  by_cases h : b - a > 365
  · obtain ⟨h1, h2⟩ := hlong h
    have h3 : diff ≠ 13 := fun e => hB (Or.inr ⟨h, e⟩)
    by_cases h4 : diff ≤ 11
    · exact Or.inl h4
    · exact Or.inr ⟨h, by omega, h2 (by omega)⟩
  · have h1 := hshort (by omega)
    have h3 : diff ≠ 12 := fun e => hB (Or.inl ⟨h, e⟩)
    exact Or.inl (by omega)

/-- The round trip on the integer model with total lookups `nm`, `sl`. -/
theorem roundTripP (nm sl : ℤ → ℤ) (dd mm yy : ℤ) (s : ℤ × ℤ × ℤ × ℤ × ℤ)
    (r : ℤ × ℤ × ℤ × ℤ) (L : ℤ)
    (hs : solarAnchorsP (fun k => some (nm k)) (fun d => some (sl d)) dd mm yy = some s)
    (hr : convertSolar2LunarP (fun k => some (nm k)) (fun d => some (sl d)) dd mm yy = some r)
    (hL : getLeapMonthOffsetP (fun k => some (nm k)) (fun d => some (sl d)) s.2.2.1 = some L)
    (hidx : nm (kOfAnchor s.2.2.1 + (s.2.1 - s.2.2.1) / 29) = s.2.1)
    (hd0 : 0 ≤ (s.2.1 - s.2.2.1) / 29)
    (hshort : s.2.2.2.1 - s.2.2.1 ≤ 365 →
      (s.2.1 - s.2.2.1) / 29 ≤ 12 ∧ kOfAnchor s.2.2.2.1 = kOfAnchor s.2.2.1 + 12)
    (hlong : s.2.2.2.1 - s.2.2.1 > 365 →
      (s.2.1 - s.2.2.1) / 29 ≤ 13 ∧ kOfAnchor s.2.2.2.1 = kOfAnchor s.2.2.1 + 13 ∧
      (12 ≤ (s.2.1 - s.2.2.1) / 29 → L ≤ 12))
    (hslip : ¬ (r.2.2.2 = 1 ∧ r.2.1 = 12)) :
    convertLunar2SolarP (fun k => some (nm k)) (fun d => some (sl d)) r.1 r.2.1 r.2.2.1 r.2.2.2
      = some (jdToDateZ s.1) := by
  obtain ⟨g, hg⟩ := getLunarMonth11P_fun nm sl
  obtain ⟨ha, hb⟩ := solarAnchorsP_shape nm sl g hg dd mm yy s hs
  obtain ⟨hr1, hleap, hm, hly⟩ := convertSolar2LunarP_result nm sl dd mm yy s r L hs hr hL
  obtain ⟨L0, hL0, hL1, hL13⟩ := getLeapMonthOffsetP_total nm sl s.2.2.1
  have hLL : L0 = L := by
    rw [hL] at hL0
    exact (Option.some.inj hL0).symm
  subst hLL
  obtain ⟨dn, ms, a, b, Y0⟩ := s
  obtain ⟨r1, m, ly, leap⟩ := r
  simp only at ha hb hr1 hleap hm hly hidx hd0 hshort hlong hslip hL ⊢
  generalize hdiff : (ms - a) / 29 = diff at hidx hd0 hshort hlong hleap hm hly
  generalize hka : kOfAnchor a = ka at hidx hshort hlong
  generalize hkb : kOfAnchor b = kb at hshort hlong
  by_cases hB : (¬ (b - a > 365) ∧ diff = 12) ∨ (b - a > 365 ∧ diff = 13)
  · -- the month starts on the next anchor
    have hB' : (¬ (b - a > 365) ∧ diff = 12) ∨ (b - a > 365 ∧ diff = 13 ∧ L0 ≤ 12) := by
      rcases hB with h | h
      · exact Or.inl h
      · exact Or.inr ⟨h.1, h.2, (hlong h.1).2.2 (by rw [h.2]; norm_num)⟩
    obtain ⟨hm11, hleap0⟩ := month_at_next_anchor a b diff L0 m leap hleap hm hB'
    have hly0 : ly = Y0 := by
      rw [hly, if_neg]
      intro h
      have h4 := h.2
      rcases hB with h' | h'
      · rw [h'.2] at h4
        norm_num at h4
      · rw [h'.2] at h4
        norm_num at h4
    have hk : kb + 0 = ka + diff := by
      rcases hB with h | h
      · rw [(hshort (not_lt.1 h.1)).2, h.2, add_zero]
      · rw [(hlong h.1).2.1, h.2, add_zero]
    obtain ⟨L1, hL1', hL1a, hL1b⟩ := getLeapMonthOffsetP_total nm sl b
    subst hm11 hleap0 hly0 hr1
    have c0 : ¬ ((11 : ℤ) < 11) := by norm_num
    have e0 : ¬ ((11 : ℤ) - 11 < 0) := by norm_num
    have e1 : ¬ ((11 : ℤ) - 11 ≥ L1) := by omega
    have e2 : (11 : ℤ) - 11 = 0 := by norm_num
    have e3 : ms + (dn - ms + 1) - 1 = dn := by ring
    have f0 : ¬ ((0 : ℤ) < 0) := by norm_num
    have f1 : ¬ ((0 : ℤ) ≥ L1) := by omega
    simp only [convertLunar2SolarP, lunarAnchorsP, hg, Option.bind_eq_bind, Option.some_bind,
      Option.pure_def, c0, if_false, ← hb, hL1', e0, e1, ne_eq, not_true_eq_false, false_and,
      false_or, e2, f0, f1, hkb, hk, hidx, e3, ite_self]
  · -- the month starts before the next anchor: same anchors in both directions
    have hd := diff_range_before_anchor a b diff L0 (fun h => (hshort h).1)
      (fun h => ⟨(hlong h).1, (hlong h).2.2⟩) hB
    obtain ⟨h1, h2, h3⟩ := month_offset_inverse a b diff L0 m leap hL1 hL13 hleap hm hd0 hd hslip
    have e3 : ms + (dn - ms + 1) - 1 = dn := by ring
    subst hr1
    by_cases hm11 : m < 11
    · have hly0 : ly = Y0 := by
        rw [hly, if_neg]
        intro h
        exact absurd hm11 (not_lt.2 h.1)
      subst hly0
      simp only [convertLunar2SolarP, lunarAnchorsP, hg, Option.bind_eq_bind, Option.some_bind,
        Option.pure_def, hm11, if_true, ← ha, ← hb, hL, hka]
      by_cases hlong1 : b - a > 365
      · obtain ⟨h2a, h2b⟩ := h2 hlong1
        rw [if_pos hlong1, if_neg h2a, h2b, hidx, e3]
      · rw [if_neg hlong1, h3 hlong1, hidx, e3]
    · have hly0 : ly = Y0 - 1 := by
        rw [hly, if_pos]
        exact ⟨not_lt.1 hm11, h1 (not_lt.1 hm11)⟩
      subst hly0
      simp only [convertLunar2SolarP, lunarAnchorsP, hg, Option.bind_eq_bind, Option.some_bind,
        Option.pure_def, hm11, if_false, sub_add_cancel, ← ha, ← hb, hL, hka]
      by_cases hlong1 : b - a > 365
      · obtain ⟨h2a, h2b⟩ := h2 hlong1
        rw [if_pos hlong1, if_neg h2a, h2b, hidx, e3]
      · rw [if_neg hlong1, h3 hlong1, hidx, e3]

end RoundTripP3

section RoundTrip2

variable {α : Type} [LinearOrderedField α] [FloorRing α]

theorem Floor_intCast_div29 (n : ℤ) : Floor ((n : α) / 29) = ((n / 29 : ℤ) : α) := by
  have h := Floor_intCast_div (α := α) n 29 (by norm_num)
  simpa using h

theorem getNewMoonDay_nmZ (tg : Trig α) (tz k : ℤ) :
    getNewMoonDay tg (k : α) (tz : α) = ((nmZ tg tz k : ℤ) : α) := rfl

/-- C3 (amended). For a solar date `d` (month in 1..12, day within the month's length) other
than the skipped dates 5..14 October 1582 and every time zone, `Lunar2solar (Solar2lunar d)`
is `d` again, provided the values computed by `convertSolar2Lunar` for `d` are regular:
the month start is the `diff`-th new moon after the anchor `a11` (counted from the new-moon
index recovered from `a11`), `diff` is not negative, the next anchor `b11` is the 12th new
moon after `a11` when `b11 - a11 ≤ 365` and the 13th otherwise, `diff` does not exceed that
number, in a 13-month year the leap offset is at most 12 once `diff` reaches 12, and the
lunar date is not in a leap twelfth month. -/
theorem C3_roundtrip (tg : Trig α) (yyyy mm dd tz : ℤ) (hm1 : 1 ≤ mm) (hm2 : mm ≤ 12)
    (hd1 : 1 ≤ dd) (hd2 : dd ≤ monthLength mm yyyy)
    (hgap : ¬ (yyyy = 1582 ∧ mm = 10 ∧ 5 ≤ dd ∧ dd ≤ 14))
    (hidx : getNewMoonDay tg
        (anchorIndex (solarAnchors tg (dd : α) (mm : α) (yyyy : α) (tz : α)).2.2.1
          + monthDiff tg (dd : α) (mm : α) (yyyy : α) (tz : α)) (tz : α)
      = (solarAnchors tg (dd : α) (mm : α) (yyyy : α) (tz : α)).2.1)
    (hdiff : 0 ≤ monthDiff tg (dd : α) (mm : α) (yyyy : α) (tz : α))
    (hshort : (solarAnchors tg (dd : α) (mm : α) (yyyy : α) (tz : α)).2.2.2.1
        - (solarAnchors tg (dd : α) (mm : α) (yyyy : α) (tz : α)).2.2.1 ≤ 365 →
      monthDiff tg (dd : α) (mm : α) (yyyy : α) (tz : α) ≤ 12 ∧
      anchorIndex (solarAnchors tg (dd : α) (mm : α) (yyyy : α) (tz : α)).2.2.2.1
        = anchorIndex (solarAnchors tg (dd : α) (mm : α) (yyyy : α) (tz : α)).2.2.1 + 12)
    (hlong : (solarAnchors tg (dd : α) (mm : α) (yyyy : α) (tz : α)).2.2.2.1
        - (solarAnchors tg (dd : α) (mm : α) (yyyy : α) (tz : α)).2.2.1 > 365 →
      monthDiff tg (dd : α) (mm : α) (yyyy : α) (tz : α) ≤ 13 ∧
      anchorIndex (solarAnchors tg (dd : α) (mm : α) (yyyy : α) (tz : α)).2.2.2.1
        = anchorIndex (solarAnchors tg (dd : α) (mm : α) (yyyy : α) (tz : α)).2.2.1 + 13 ∧
      (12 ≤ monthDiff tg (dd : α) (mm : α) (yyyy : α) (tz : α) →
        getLeapMonthOffset tg (solarAnchors tg (dd : α) (mm : α) (yyyy : α) (tz : α)).2.2.1
          (tz : α) ≤ 12))
    (hslip : ¬ ((Solar2lunar tg yyyy mm dd tz).Leap = true ∧
      (Solar2lunar tg yyyy mm dd tz).Month = 12)) :
    Lunar2solar tg (Solar2lunar tg yyyy mm dd tz).Year (Solar2lunar tg yyyy mm dd tz).Month
        (Solar2lunar tg yyyy mm dd tz).Day (Solar2lunar tg yyyy mm dd tz).Leap tz
      = ⟨yyyy, mm, dd⟩ := by
  have hLS := totalLookups_sound tg tz
  obtain ⟨s, r, hs, hr, hs1, hr1, hleap⟩ :=
    convertSolar2LunarP_total (nmZ tg tz) (slZ tg tz) dd mm yyyy
  have eS := solarAnchorsP_sound tg tz _ _ hLS dd mm yyyy s hs
  have eR := convertSolar2LunarP_sound tg tz _ _ hLS dd mm yyyy r hr
  obtain ⟨L, hL, -, -⟩ := getLeapMonthOffsetP_total (nmZ tg tz) (slZ tg tz) s.2.2.1
  have eL := getLeapMonthOffsetP_sound tg tz _ _ hLS s.2.2.1 L hL
  have eD : monthDiff tg (dd : α) (mm : α) (yyyy : α) (tz : α)
      = (((s.2.1 - s.2.2.1) / 29 : ℤ) : α) := by
    unfold monthDiff
    rw [eS]
    simp only
    rw [← Int.cast_sub]
    exact Floor_intCast_div29 _
  have eK : ∀ a : ℤ, anchorIndex (a : α) = ((kOfAnchor a : ℤ) : α) := fun a => kOfAnchor_spec a
  rw [eD] at hidx hdiff hshort hlong
  rw [eS] at hidx hshort hlong
  simp only [eK, eL] at hidx hshort hlong
  rw [Solar2lunar_of_tuple tg yyyy mm dd tz r eR] at hslip ⊢
  simp only [decide_eq_true_eq] at hslip
  have hidx1 : nmZ tg tz (kOfAnchor s.2.2.1 + (s.2.1 - s.2.2.1) / 29) = s.2.1 := by
    rw [← Int.cast_add, getNewMoonDay_nmZ] at hidx
    exact_mod_cast hidx
  have hdiff1 : 0 ≤ (s.2.1 - s.2.2.1) / 29 := by exact_mod_cast hdiff
  have hshort1 : s.2.2.2.1 - s.2.2.1 ≤ 365 →
      (s.2.1 - s.2.2.1) / 29 ≤ 12 ∧ kOfAnchor s.2.2.2.1 = kOfAnchor s.2.2.1 + 12 := by
    intro h
    obtain ⟨h1, h2⟩ := hshort (by exact_mod_cast h)
    exact ⟨by exact_mod_cast h1, by exact_mod_cast h2⟩
  have hlong1 : s.2.2.2.1 - s.2.2.1 > 365 →
      (s.2.1 - s.2.2.1) / 29 ≤ 13 ∧ kOfAnchor s.2.2.2.1 = kOfAnchor s.2.2.1 + 13 ∧
      (12 ≤ (s.2.1 - s.2.2.1) / 29 → L ≤ 12) := by
    intro h
    obtain ⟨h1, h2, h3⟩ := hlong (by exact_mod_cast h)
    refine ⟨by exact_mod_cast h1, by exact_mod_cast h2, fun h4 => ?_⟩
    have := h3 (by exact_mod_cast h4)
    exact_mod_cast this
  have hP := roundTripP (nmZ tg tz) (slZ tg tz) dd mm yyyy s r L hs hr hL hidx1 hdiff1 hshort1
    hlong1 hslip
  have eI := convertLunar2SolarP_sound tg tz _ _ hLS r.1 r.2.1 r.2.2.1 r.2.2.2 _ hP
  have hb : (bool2float64 (decide (r.2.2.2 = 1)) : α) = (r.2.2.2 : α) := by
    unfold bool2float64
    rcases hleap with h | h <;> simp [h]
  unfold Lunar2solar
  simp only
  rw [hb, eI]
  simp only [toInt_intCast]
  rw [hs1, jdToDateZ_jdFromDateZ dd mm yyyy hm1 hm2 hd1 hd2 hgap]

end RoundTrip2

/-! ### Evaluation of the regularity conditions for 22 March 2023, time zone 7 -/

theorem monthDiff_2023_03_22 :
    monthDiff realTrig ((22 : ℤ) : ℝ) ((3 : ℤ) : ℝ) ((2023 : ℤ) : ℝ) ((7 : ℤ) : ℝ)
      = ((4 : ℤ) : ℝ) := by
  unfold monthDiff
  rw [solarAnchors_2023_03_22]
  simp only
  rw [← Int.cast_sub, Floor_intCast_div29]
  norm_num

theorem anchorIndex_2459908 : anchorIndex (((2459908 : ℤ) : ℝ)) = ((1520 : ℤ) : ℝ) := by
  have h := kOfAnchor_spec (α := ℝ) 2459908
  have e : kOfAnchor 2459908 = 1520 := by decide!
  rw [e] at h
  exact h

theorem anchorIndex_2460292 : anchorIndex (((2460292 : ℤ) : ℝ)) = ((1533 : ℤ) : ℝ) := by
  have h := kOfAnchor_spec (α := ℝ) 2460292
  have e : kOfAnchor 2460292 = 1533 := by decide!
  rw [e] at h
  exact h

theorem C3_witness_idx :
    getNewMoonDay realTrig
        (anchorIndex (solarAnchors realTrig ((22 : ℤ) : ℝ) ((3 : ℤ) : ℝ) ((2023 : ℤ) : ℝ)
          ((7 : ℤ) : ℝ)).2.2.1
          + monthDiff realTrig ((22 : ℤ) : ℝ) ((3 : ℤ) : ℝ) ((2023 : ℤ) : ℝ) ((7 : ℤ) : ℝ))
        ((7 : ℤ) : ℝ)
      = (solarAnchors realTrig ((22 : ℤ) : ℝ) ((3 : ℤ) : ℝ) ((2023 : ℤ) : ℝ)
          ((7 : ℤ) : ℝ)).2.1 := by
  rw [monthDiff_2023_03_22, solarAnchors_2023_03_22]
  simp only
  rw [anchorIndex_2459908, ← Int.cast_add]
  exact nmLookup_sound 7 nmTable7 (1520 + 4) 2460026 (by decide!)

theorem C3_witness_diff :
    0 ≤ monthDiff realTrig ((22 : ℤ) : ℝ) ((3 : ℤ) : ℝ) ((2023 : ℤ) : ℝ) ((7 : ℤ) : ℝ) := by
  rw [monthDiff_2023_03_22]
  norm_num

theorem C3_witness_short :
    (solarAnchors realTrig ((22 : ℤ) : ℝ) ((3 : ℤ) : ℝ) ((2023 : ℤ) : ℝ) ((7 : ℤ) : ℝ)).2.2.2.1
        - (solarAnchors realTrig ((22 : ℤ) : ℝ) ((3 : ℤ) : ℝ) ((2023 : ℤ) : ℝ)
          ((7 : ℤ) : ℝ)).2.2.1 ≤ 365 →
      monthDiff realTrig ((22 : ℤ) : ℝ) ((3 : ℤ) : ℝ) ((2023 : ℤ) : ℝ) ((7 : ℤ) : ℝ) ≤ 12 ∧
      anchorIndex (solarAnchors realTrig ((22 : ℤ) : ℝ) ((3 : ℤ) : ℝ) ((2023 : ℤ) : ℝ)
          ((7 : ℤ) : ℝ)).2.2.2.1
        = anchorIndex (solarAnchors realTrig ((22 : ℤ) : ℝ) ((3 : ℤ) : ℝ) ((2023 : ℤ) : ℝ)
          ((7 : ℤ) : ℝ)).2.2.1 + 12 := by
  rw [solarAnchors_2023_03_22]
  simp only
  intro h
  norm_num at h

theorem C3_witness_long :
    (solarAnchors realTrig ((22 : ℤ) : ℝ) ((3 : ℤ) : ℝ) ((2023 : ℤ) : ℝ) ((7 : ℤ) : ℝ)).2.2.2.1
        - (solarAnchors realTrig ((22 : ℤ) : ℝ) ((3 : ℤ) : ℝ) ((2023 : ℤ) : ℝ)
          ((7 : ℤ) : ℝ)).2.2.1 > 365 →
      monthDiff realTrig ((22 : ℤ) : ℝ) ((3 : ℤ) : ℝ) ((2023 : ℤ) : ℝ) ((7 : ℤ) : ℝ) ≤ 13 ∧
      anchorIndex (solarAnchors realTrig ((22 : ℤ) : ℝ) ((3 : ℤ) : ℝ) ((2023 : ℤ) : ℝ)
          ((7 : ℤ) : ℝ)).2.2.2.1
        = anchorIndex (solarAnchors realTrig ((22 : ℤ) : ℝ) ((3 : ℤ) : ℝ) ((2023 : ℤ) : ℝ)
          ((7 : ℤ) : ℝ)).2.2.1 + 13 ∧
      (12 ≤ monthDiff realTrig ((22 : ℤ) : ℝ) ((3 : ℤ) : ℝ) ((2023 : ℤ) : ℝ) ((7 : ℤ) : ℝ) →
        getLeapMonthOffset realTrig (solarAnchors realTrig ((22 : ℤ) : ℝ) ((3 : ℤ) : ℝ)
          ((2023 : ℤ) : ℝ) ((7 : ℤ) : ℝ)).2.2.1 ((7 : ℤ) : ℝ) ≤ 12) := by
  rw [monthDiff_2023_03_22, solarAnchors_2023_03_22]
  simp only
  intro _
  rw [anchorIndex_2459908, anchorIndex_2460292]
  refine ⟨by norm_num, by norm_num, fun h => ?_⟩
  norm_num at h

theorem C3_witness_slip :
    ¬ ((Solar2lunar realTrig 2023 3 22 7).Leap = true ∧
      (Solar2lunar realTrig 2023 3 22 7).Month = 12) := by
  rw [Solar2lunar_2023_03_22]
  decide

/-- Witness for C3 (amended): 22 March 2023, time zone 7, a day of the leap second month. -/
theorem C3_roundtrip_witness :
    (1 : ℤ) ≤ 3 ∧ (3 : ℤ) ≤ 12 ∧ (1 : ℤ) ≤ 22 ∧ (22 : ℤ) ≤ monthLength 3 2023 ∧
    ¬ ((2023 : ℤ) = 1582 ∧ (3 : ℤ) = 10 ∧ (5 : ℤ) ≤ 22 ∧ (22 : ℤ) ≤ 14) ∧
    Lunar2solar realTrig (Solar2lunar realTrig 2023 3 22 7).Year
        (Solar2lunar realTrig 2023 3 22 7).Month (Solar2lunar realTrig 2023 3 22 7).Day
        (Solar2lunar realTrig 2023 3 22 7).Leap 7 = ⟨2023, 3, 22⟩ :=
  ⟨by decide, by decide, by decide, by decide, by decide,
    C3_roundtrip realTrig 2023 3 22 7 (by decide) (by decide) (by decide) (by decide)
      (by decide) C3_witness_idx C3_witness_diff C3_witness_short C3_witness_long
      C3_witness_slip⟩

end VNCalendar
